import Mathlib

/-!
# Pogo Stick Hero: the simulation core of `src/pages/index.js`

A shallow embedding of the physics / collision / state-machine code of the page
component (`clamp`, `resetHero`, `goRagdoll`, `projectToPlatform`,
`collisionWithPlatforms`, `isInsideHazard`, `updateRagdoll`, `update`) together with
theorems about it.

JavaScript numbers are idealised as the elements of an arbitrary linearly ordered
field `K` (the rationals and the reals are instances).  The members of the
JavaScript `Math` object which are not field operations (`Math.sin`, `Math.cos`,
`Math.hypot`, `Math.PI`) are collected in a record `MathOps K` which every
definition takes as a parameter; a theorem which needs a fact about one of them
states that fact as a hypothesis.
-/

namespace PogoHero

variable {K : Type} [LinearOrderedField K]

/-! ## Data model -/

/-- The members of the JavaScript `Math` object used by the simulation which are
not field operations. -/
structure MathOps (K : Type) where
  sin : K → K
  cos : K → K
  hypot : K → K → K
  pi : K

/-- A point `{ x, y }`. -/
structure Point (K : Type) where
  x : K
  y : K

/-- An axis-aligned rectangle `{ x, y, w, h }` (platform, hazard, finish zone). -/
structure Rect (K : Type) where
  x : K
  y : K
  w : K
  h : K

/-- The shape of the constant `LEVEL`. -/
structure Level (K : Type) where
  spawn : Point K
  platforms : List (Rect K)
  hazards : List (Rect K)
  finish : Rect K

/-- The three values taken by `hero.state` and `statusRef.current`. -/
inductive Status where
  | alive
  | ragdoll
  | finished
  deriving DecidableEq, Repr

/-- One element of `hero.ragdollParts`. -/
structure Part (K : Type) where
  x : K
  y : K
  vx : K
  vy : K
  radius : K
  color : String

/-- The object `hero`. -/
structure Hero (K : Type) where
  x : K
  y : K
  vx : K
  vy : K
  angle : K
  angularVelocity : K
  energy : K
  health : K
  ragdollParts : List (Part K)
  state : Status
  distance : K
  time : K

/-- The object `pogo`.  Only `springCompression` is ever assigned; the four other
members are the constants `Pogo.length`, `Pogo.mass`, `Pogo.springStrength` and
`Pogo.maxCompression` below. -/
structure Pogo (K : Type) where
  springCompression : K

/-- The key map `keysDown` (`inputsRef.current`). -/
structure Keys where
  ArrowLeft : Bool
  ArrowRight : Bool
  Space : Bool
  KeyR : Bool
  deriving DecidableEq, Repr

/-- The mutable variables closed over by `update`: `hero`, `pogo`, `keysDown`,
`cameraX`, `statusRef.current` and `finishTimeRef.current`. -/
structure Sim (K : Type) where
  hero : Hero K
  pogo : Pogo K
  keysDown : Keys
  cameraX : K
  status : Status
  finishTime : Option K

/-- The object returned by `collisionWithPlatforms` on a hit. -/
structure Collision (K : Type) where
  platform : Rect K
  closest : Point K
  dx : K
  dy : K

/-! ## Constants (lines 3-33 and 59-65) -/

def WIDTH : K := 960

def HEIGHT : K := 540

def GRAVITY : K := 1600

def AIR_RESISTANCE : K := 0.98

def ANGLE_DAMPING : K := 0.88

def MAX_ANGLE (m : MathOps K) : K := m.pi / 2.2

def LEVEL : Level K where
  spawn := { x := 140, y := 260 }
  platforms := [
    { x := 0, y := 420, w := 420, h := 140 },
    { x := 420, y := 380, w := 180, h := 180 },
    { x := 600, y := 340, w := 140, h := 220 },
    { x := 740, y := 380, w := 140, h := 180 },
    { x := 880, y := 420, w := 220, h := 140 },
    { x := 1040, y := 400, w := 260, h := 160 },
    { x := 1310, y := 360, w := 220, h := 200 },
    { x := 1570, y := 320, w := 220, h := 240 },
    { x := 1820, y := 360, w := 300, h := 200 },
    { x := 2120, y := 420, w := 320, h := 140 },
    { x := 2440, y := 360, w := 360, h := 200 } ]
  hazards := [
    { x := 520, y := 376, w := 40, h := 44 },
    { x := 740, y := 374, w := 140, h := 6 },
    { x := 1560, y := 316, w := 40, h := 44 },
    { x := 1640, y := 316, w := 40, h := 44 },
    { x := 1720, y := 316, w := 40, h := 44 } ]
  finish := { x := 2670, y := 270, w := 120, h := 210 }

def Pogo.length (_p : Pogo K) : K := 82

def Pogo.mass (_p : Pogo K) : K := 56

def Pogo.springStrength (_p : Pogo K) : K := 2800

def Pogo.maxCompression (_p : Pogo K) : K := 48

/-! ## Helpers -/

/-- `clamp(value, min, max)`, lines 35-37. -/
def clamp (value lo hi : K) : K := max lo (min hi value)

/-- The JavaScript idiom `v || 1` on a number: `1` when `v` is zero. -/
def orOne (v : K) : K := if v = 0 then 1 else v

/-- The values of `hero` at lines 67-80, which are also the values assigned by
`resetHero`. -/
def spawnHero : Hero K where
  x := (LEVEL : Level K).spawn.x
  y := (LEVEL : Level K).spawn.y
  vx := 0
  vy := 0
  angle := -0.15
  angularVelocity := 0
  energy := 1
  health := 100
  ragdollParts := []
  state := Status.alive
  distance := 0
  time := 0

/-- The state when the effect has been set up (lines 42-49, 59-82). -/
def initial : Sim K where
  hero := spawnHero
  pogo := { springCompression := 0 }
  keysDown := { ArrowLeft := false, ArrowRight := false, Space := false, KeyR := false }
  cameraX := 0
  status := Status.alive
  finishTime := none

/-- `resetHero()`, lines 87-103. -/
def resetHero (s : Sim K) : Sim K :=
  { s with
    hero :=
      { s.hero with
        x := (LEVEL : Level K).spawn.x
        y := (LEVEL : Level K).spawn.y
        vx := 0
        vy := 0
        angle := -0.15
        angularVelocity := 0
        energy := 1
        health := 100
        state := Status.alive
        ragdollParts := []
        distance := 0
        time := 0 }
    cameraX := 0
    finishTime := none
    status := Status.alive }

/-- `goRagdoll(impact)`, lines 105-135. -/
def goRagdoll (m : MathOps K) (impact : K) (s : Sim K) : Sim K :=
  let hero := s.hero
  let baseVelocity := max 200 (impact * 0.7)
  { s with
    status := Status.ragdoll
    hero :=
      { hero with
        state := Status.ragdoll
        ragdollParts := [
          { x := hero.x
            y := hero.y - 40
            vx := hero.vx + m.cos hero.angle * baseVelocity
            vy := hero.vy - |m.sin hero.angle * baseVelocity|
            radius := 14
            color := "#f3f3f3" },
          { x := hero.x
            y := hero.y
            vx := hero.vx
            vy := hero.vy
            radius := 18
            color := "#454ade" },
          { x := hero.x
            y := hero.y + 36
            vx := hero.vx - m.cos hero.angle * baseVelocity * 0.4
            vy := hero.vy + |m.sin hero.angle * baseVelocity|
            radius := 10
            color := "#f0b429" } ] } }

/-- `projectToPlatform(x, y, platform)`, lines 158-162. -/
def projectToPlatform (x y : K) (platform : Rect K) : Point K :=
  let px := clamp x platform.x (platform.x + platform.w)
  let py := clamp y platform.y (platform.y + platform.h)
  { x := px, y := py }

/-- The loop of `collisionWithPlatforms` (lines 165-178) over a list of platforms. -/
def collisionIn : List (Rect K) → K → K → K → Option (Collision K)
  | [], _, _, _ => none
  | platform :: rest, x, y, radius =>
    let closest := projectToPlatform x y platform
    let dx := x - closest.x
    let dy := y - closest.y
    if dx * dx + dy * dy < radius * radius then
      some { platform := platform, closest := closest, dx := dx, dy := dy }
    else collisionIn rest x y radius

/-- `collisionWithPlatforms(x, y, radius)`, lines 164-179. -/
def collisionWithPlatforms (x y radius : K) : Option (Collision K) :=
  collisionIn (LEVEL : Level K).platforms x y radius

/-- `isInsideHazard(x, y)`, lines 181-183. -/
def isInsideHazard (x y : K) : Bool :=
  (LEVEL : Level K).hazards.any fun hazard =>
    decide (x > hazard.x) && decide (x < hazard.x + hazard.w) &&
      decide (y > hazard.y) && decide (y < hazard.y + hazard.h)

/-- The body of the loop of `updateRagdoll`, lines 187-208, for one particle. -/
def updatePart (m : MathOps K) (dt : K) (part : Part K) : Part K :=
  let part := { part with vy := part.vy + GRAVITY * dt }
  let part := { part with vx := part.vx * 0.998 }
  let part := { part with vy := part.vy * 0.998 }
  let part := { part with x := part.x + part.vx * dt }
  let part := { part with y := part.y + part.vy * dt }
  match collisionWithPlatforms part.x part.y part.radius with
  | none => part
  | some collision =>
    let normalX := collision.dx
    let normalY := collision.dy
    let normalLength := orOne (m.hypot normalX normalY)
    let nx := normalX / normalLength
    let ny := normalY / normalLength
    let part := { part with x := collision.closest.x + nx * (part.radius + 1) }
    let part := { part with y := collision.closest.y + ny * (part.radius + 1) }
    let restitution : K := 0.35
    let velocityAlongNormal := part.vx * nx + part.vy * ny
    if velocityAlongNormal < 0 then
      let part := { part with vx := part.vx - (1 + restitution) * velocityAlongNormal * nx }
      { part with vy := part.vy - (1 + restitution) * velocityAlongNormal * ny }
    else part

/-- `updateRagdoll(dt)`, lines 185-210. -/
def updateRagdoll (m : MathOps K) (dt : K) (s : Sim K) : Sim K :=
  { s with hero := { s.hero with ragdollParts := s.hero.ragdollParts.map (updatePart m dt) } }

/-! ## The tick: `update(dt)`, lines 212-313 -/

/-- Lines 226-241: gravity, air resistance, angular damping, steering and the
clamped orientation update. -/
def steer (m : MathOps K) (dt : K) (keysDown : Keys) (hero : Hero K) : Hero K :=
  let hero := { hero with vy := hero.vy + GRAVITY * dt }
  let hero := { hero with vx := hero.vx * AIR_RESISTANCE }
  let hero := { hero with angularVelocity := hero.angularVelocity * ANGLE_DAMPING }
  let thrust : K := 560
  let hero :=
    if keysDown.ArrowLeft then
      let hero := { hero with angularVelocity := hero.angularVelocity - 5 * dt }
      { hero with vx := hero.vx - thrust * dt * m.cos (hero.angle + m.pi / 2) }
    else hero
  let hero :=
    if keysDown.ArrowRight then
      let hero := { hero with angularVelocity := hero.angularVelocity + 5 * dt }
      { hero with vx := hero.vx + thrust * dt * m.cos (hero.angle + m.pi / 2) }
    else hero
  let hero := { hero with angle := hero.angle + hero.angularVelocity * dt }
  { hero with angle := clamp hero.angle (-MAX_ANGLE m) (MAX_ANGLE m) }

/-- Lines 243-244: the stick tip `(tipX, tipY)`. -/
def stickTip (m : MathOps K) (s : Sim K) : Point K :=
  { x := s.hero.x + m.sin s.hero.angle * s.pogo.length
    y := s.hero.y + m.cos s.hero.angle * s.pogo.length }

/-- The `reduce` of lines 246-251 over a list of platforms, before the clamp. -/
def groundScan (platforms : List (Rect K)) (tipX tipY : K) : K :=
  platforms.foldl
    (fun acc platform =>
      if tipX ≥ platform.x ∧ tipX ≤ platform.x + platform.w ∧
          tipY ≥ platform.y ∧ tipY ≤ platform.y + platform.h + 2 then
        max acc (platform.y - tipY)
      else acc)
    0

/-- Lines 246-251: the constant `compression`. -/
def groundCompression (pogo : Pogo K) (tipX tipY : K) : K :=
  clamp (groundScan (LEVEL : Level K).platforms tipX tipY) (-pogo.maxCompression) 0

/-- Lines 254-257: the landing kick. -/
def landing (m : MathOps K) (onGround : Bool) (hero : Hero K) : Hero K :=
  if onGround = true ∧ hero.vy > 0 then
    let hero := { hero with vx := hero.vx + m.sin hero.angle * |hero.vy| * 0.15 }
    { hero with vy := 0 }
  else hero

/-- Lines 259-271: hold-charge, release and idle branches. -/
def spring (m : MathOps K) (dt compression : K) (s : Sim K) : Sim K :=
  let hero := s.hero
  let pogo := s.pogo
  if s.keysDown.Space then
    let pogo : Pogo K :=
      { pogo with springCompression := clamp (pogo.springCompression + dt * 60) 0 pogo.maxCompression }
    let hero := { hero with energy := clamp (hero.energy + dt * 0.9) 0 1.2 }
    { s with hero := hero, pogo := pogo }
  else if pogo.springCompression > 0 ∨ compression < 0 then
    let releaseForce :=
      (pogo.springCompression + |compression|) * pogo.springStrength * dt * 0.6 * hero.energy
    let hero := { hero with vy := hero.vy - m.cos hero.angle * (releaseForce / pogo.mass) }
    let hero := { hero with vx := hero.vx - m.sin hero.angle * (releaseForce / pogo.mass) }
    let hero :=
      { hero with angularVelocity := hero.angularVelocity + m.sin hero.angle * 3 * dt * hero.energy }
    let pogo : Pogo K := { pogo with springCompression := 0 }
    let hero := { hero with energy := clamp (hero.energy - 0.3) 0.4 1.2 }
    { s with hero := hero, pogo := pogo }
  else
    let pogo : Pogo K :=
      { pogo with springCompression := clamp (pogo.springCompression - dt * 20) 0 pogo.maxCompression }
    { s with pogo := pogo }

/-- Lines 273-275: the airborne energy drain. -/
def airDrain (dt : K) (onGround : Bool) (hero : Hero K) : Hero K :=
  if onGround = false then { hero with energy := clamp (hero.energy - dt * 0.6) 0 1.2 }
  else hero

/-- Lines 277-279: position integration and the distance record. -/
def integrate (dt : K) (hero : Hero K) : Hero K :=
  let hero := { hero with x := hero.x + hero.vx * dt }
  let hero := { hero with y := hero.y + hero.vy * dt }
  { hero with distance := max hero.distance (hero.x - (LEVEL : Level K).spawn.x) }

/-- Lines 226-279: everything `update` does between the ragdoll test and the torso
collision query.  The result carries the stick tip of lines 243-244, which the
hazard test of line 297 reads again. -/
def motion (m : MathOps K) (dt : K) (s : Sim K) : Sim K × Point K :=
  let s := { s with hero := steer m dt s.keysDown s.hero }
  let tip := stickTip m s
  let compression := groundCompression s.pogo tip.x tip.y
  let onGround : Bool := decide (compression < 0.5)
  let s := { s with hero := landing m onGround s.hero }
  let s := spring m dt compression s
  let s := { s with hero := airDrain dt onGround s.hero }
  let s := { s with hero := integrate dt s.hero }
  (s, tip)

/-- Lines 283-294: the response to a detected torso collision. -/
def torsoResponse (m : MathOps K) (torsoCollision : Collision K) (s : Sim K) : Sim K :=
  let normalLength := orOne (m.hypot torsoCollision.dx torsoCollision.dy)
  let nx := torsoCollision.dx / normalLength
  let ny := torsoCollision.dy / normalLength
  let hero : Hero K := { s.hero with x := torsoCollision.closest.x + nx * 20 }
  let hero : Hero K := { hero with y := torsoCollision.closest.y + ny * 20 }
  let impact : K := hero.vx * nx + hero.vy * ny
  let hero : Hero K := { hero with vx := hero.vx - impact * nx }
  let hero : Hero K := { hero with vy := hero.vy - impact * ny }
  let hero : Hero K := { hero with health := hero.health - min (|impact| * 0.18) 40 }
  let s := { s with hero := hero }
  if hero.health ≤ 0 ∨ |impact| > 560 then goRagdoll m |impact| s else s

/-- Lines 281-295: the torso collision query and its response. -/
def torso (m : MathOps K) (s : Sim K) : Sim K :=
  match collisionWithPlatforms s.hero.x s.hero.y 18 with
  | none => s
  | some torsoCollision => torsoResponse m torsoCollision s

/-- Lines 297-299: the hazard test on the body and on the stick tip. -/
def hazardCheck (m : MathOps K) (tip : Point K) (s : Sim K) : Sim K :=
  if isInsideHazard s.hero.x s.hero.y || isInsideHazard tip.x tip.y then goRagdoll m 900 s
  else s

/-- Lines 301-303: falling below the level. -/
def fallCheck (m : MathOps K) (s : Sim K) : Sim K :=
  if s.hero.y > HEIGHT + 240 then goRagdoll m 800 s else s

/-- Lines 305-310: the finish test. -/
def finishCheck (s : Sim K) : Sim K :=
  let finish := (LEVEL : Level K).finish
  if s.hero.x > finish.x ∧ s.hero.x < finish.x + finish.w ∧
      s.hero.y > finish.y ∧ s.hero.y < finish.y + finish.h then
    { s with
      hero := { s.hero with state := Status.finished }
      status := Status.finished
      finishTime := some s.hero.time }
  else s

/-- Line 312: the camera follows the body. -/
def camera (s : Sim K) : Sim K :=
  { s with cameraX := clamp (s.hero.x - WIDTH / 2) 0 99999 }

/-- Lines 297-312: what `update` does after the torso response. -/
def checks (m : MathOps K) (tip : Point K) (s : Sim K) : Sim K :=
  camera (finishCheck (fallCheck m (hazardCheck m tip s)))

/-- Line 219: `hero.time += dt`. -/
def advanceClock (dt : K) (s : Sim K) : Sim K :=
  { s with hero := { s.hero with time := s.hero.time + dt } }

/-- `update(dt)`, lines 212-313. -/
def update (m : MathOps K) (dt : K) (s : Sim K) : Sim K :=
  if s.keysDown.KeyR then
    resetHero { s with keysDown := { s.keysDown with KeyR := false } }
  else
    let s := advanceClock dt s
    if s.hero.state = Status.ragdoll then updateRagdoll m dt s
    else
      let moved := motion m dt s
      checks m moved.2 (torso m moved.1)

/-- One frame as the simulation sees it: the key handlers have left the key map
`keys`, then `update(dt)` runs. -/
def tick (m : MathOps K) (s : Sim K) (input : Keys × K) : Sim K :=
  update m input.2 { s with keysDown := input.1 }

/-- A sequence of frames, oldest first. -/
def run (m : MathOps K) (s : Sim K) (inputs : List (Keys × K)) : Sim K :=
  inputs.foldl (tick m) s

/-! ## A rational instance for concrete evaluation -/

/-- Rational stand-ins for the `Math` members, used to evaluate the model on
concrete inputs.  `sin` and `cos` are Taylor polynomials, exact at `0`
(`sin 0 = 0`, `cos 0 = 1`); `hypot` is exact on axis-aligned vectors
(`hypot 0 b = |b|`, `hypot a 0 = |a|`); `pi` is the decimal expansion that
JavaScript prints for `Math.PI`. -/
def ratOps : MathOps ℚ where
  sin := fun a => a - a ^ 3 / 6
  cos := fun a => 1 - a ^ 2 / 2 + a ^ 4 / 24
  hypot := fun a b => if a = 0 then |b| else if b = 0 then |a| else (|a| + |b|) * 3 / 4
  pi := 3.141592653589793

/-! ## Predicates and derived quantities used by the statements -/

/-- The three bounds of the data model: energy in `[0, 1.2]`, stored compression in
`[0, maxCompression]`, orientation in `[-MAX_ANGLE, MAX_ANGLE]`. -/
def Bounds (m : MathOps K) (s : Sim K) : Prop :=
  (0 ≤ s.hero.energy ∧ s.hero.energy ≤ 1.2) ∧
  (0 ≤ s.pogo.springCompression ∧ s.pogo.springCompression ≤ s.pogo.maxCompression) ∧
  (-MAX_ANGLE m ≤ s.hero.angle ∧ s.hero.angle ≤ MAX_ANGLE m)

/-- Strict containment in the finish rectangle, the test of line 306. -/
def InFinish (x y : K) : Prop :=
  x > (LEVEL : Level K).finish.x ∧ x < (LEVEL : Level K).finish.x + (LEVEL : Level K).finish.w ∧
    y > (LEVEL : Level K).finish.y ∧ y < (LEVEL : Level K).finish.y + (LEVEL : Level K).finish.h

instance (x y : K) : Decidable (InFinish x y) := by
  unfold InFinish
  infer_instance

/-- The normal `(nx, ny)` of lines 283-285: the offset divided by
`Math.hypot(dx, dy) || 1`. -/
def torsoNormal (m : MathOps K) (c : Collision K) : Point K :=
  { x := c.dx / orOne (m.hypot c.dx c.dy), y := c.dy / orOne (m.hypot c.dx c.dy) }

/-- The value `impact` of line 288. -/
def torsoImpact (m : MathOps K) (c : Collision K) (hero : Hero K) : K :=
  hero.vx * (torsoNormal m c).x + hero.vy * (torsoNormal m c).y

/-- The test of line 292 succeeds for the torso collision of a state: the collision
damage exhausts the health, or the impact exceeds 560. -/
def TorsoLethal (m : MathOps K) (s : Sim K) : Prop :=
  ∃ c, collisionWithPlatforms s.hero.x s.hero.y 18 = some c ∧
    (s.hero.health - min (|torsoImpact m c s.hero| * 0.18) 40 ≤ 0 ∨ |torsoImpact m c s.hero| > 560)

/-- A failure condition fires in the tick `update m dt s` (which is assumed to run
the physics pipeline): the test of line 292 succeeds at the integrated position, the
test of line 297 succeeds (the body as left by the collision response, or the stick
tip, is strictly inside a hazard), or the test of line 301 succeeds (that body
position is below `HEIGHT + 240`). -/
def FailureFires (m : MathOps K) (dt : K) (s : Sim K) : Prop :=
  TorsoLethal m (motion m dt (advanceClock dt s)).1 ∨
    isInsideHazard (torso m (motion m dt (advanceClock dt s)).1).hero.x
      (torso m (motion m dt (advanceClock dt s)).1).hero.y = true ∨
    isInsideHazard (motion m dt (advanceClock dt s)).2.x (motion m dt (advanceClock dt s)).2.y = true ∨
    (torso m (motion m dt (advanceClock dt s)).1).hero.y > HEIGHT + 240

/-- What the free-fall scenario finds at every frame instead of a fall: the body at
its spawn height and at rest vertically, drifting left with the spawn tilt, alive,
with no stored compression. -/
def Hovering (s : Sim K) : Prop :=
  s.hero.y = 260 ∧ s.hero.vy = 0 ∧ s.hero.angle = -0.15 ∧ s.hero.angularVelocity = 0 ∧
    s.hero.vx ≤ 0 ∧ s.hero.x ≤ 140 ∧ s.hero.state = Status.alive ∧ s.pogo.springCompression = 0

/-- The hero on entry to the three branches of lines 259-271 (the ground test of
line 253 always succeeds, see `groundCompression_eq_zero`). -/
def beforeSpring (m : MathOps K) (dt : K) (s : Sim K) : Hero K :=
  landing m true (steer m dt s.keysDown s.hero)

/-- The value `releaseForce` of line 263 when `compression` is 0. -/
def releaseForce (dt : K) (pogo : Pogo K) (energy : K) : K :=
  (pogo.springCompression + |0|) * pogo.springStrength * dt * 0.6 * energy

/-- The squared Euclidean distance from `(x, y)` to the closest point of `platform`,
the left-hand side of the test of line 169. -/
def sqDist (x y : K) (platform : Rect K) : K :=
  (x - (projectToPlatform x y platform).x) * (x - (projectToPlatform x y platform).x) +
    (y - (projectToPlatform x y platform).y) * (y - (projectToPlatform x y platform).y)

/-- Lines 187-191: gravity, drag and position integration of one ragdoll particle. -/
def partMotion (dt : K) (part : Part K) : Part K :=
  let part := { part with vy := part.vy + GRAVITY * dt }
  let part := { part with vx := part.vx * 0.998 }
  let part := { part with vy := part.vy * 0.998 }
  let part := { part with x := part.x + part.vx * dt }
  { part with y := part.y + part.vy * dt }

/-- The normal `(nx, ny)` of lines 195-199, the same formula as for the torso. -/
def partNormal (m : MathOps K) (c : Collision K) : Point K :=
  { x := c.dx / orOne (m.hypot c.dx c.dy), y := c.dy / orOne (m.hypot c.dx c.dy) }

/-- What holds in every state reached from the initial one: the three bounds, a body
not below its spawn height, and a status which is not finished. -/
def Aloft (m : MathOps K) (s : Sim K) : Prop :=
  Bounds m s ∧ s.hero.y ≤ 260 ∧ s.hero.state ≠ Status.finished ∧ s.status ≠ Status.finished

/-! ## Key maps and concrete states for evaluation -/

/-- No key is down. -/
def idleKeys : Keys :=
  { ArrowLeft := false, ArrowRight := false, Space := false, KeyR := false }

/-- Only the charge key is down. -/
def spaceKeys : Keys :=
  { ArrowLeft := false, ArrowRight := false, Space := true, KeyR := false }

/-- The charge key and the restart key are down. -/
def spaceRestartKeys : Keys :=
  { ArrowLeft := false, ArrowRight := false, Space := true, KeyR := true }

/-- A finished run with the restart key down: the body inside the finish rectangle,
some health lost, a recorded finish time. -/
def finishedRestartState : Sim ℚ where
  hero :=
    { x := 2700, y := 340, vx := 12, vy := 0, angle := 0.3, angularVelocity := 1, energy := 0.7,
      health := 64, ragdollParts := [], state := Status.finished, distance := 2560, time := 41 }
  pogo := { springCompression := 5 }
  keysDown := { ArrowLeft := false, ArrowRight := true, Space := false, KeyR := true }
  cameraX := 2220
  status := Status.finished
  finishTime := some 41

/-- A state with the body at `(x, y)` moving with velocity `(vx, vy)`, the stick
upright and at rest, no key down, full health and energy, no stored compression. -/
def probe (x y vx vy : ℚ) (state : Status) : Sim ℚ where
  hero :=
    { x := x, y := y, vx := vx, vy := vy, angle := 0, angularVelocity := 0, energy := 1,
      health := 100, ragdollParts := [], state := state, distance := 2560, time := 30 }
  pogo := { springCompression := 0 }
  keysDown := { ArrowLeft := false, ArrowRight := false, Space := false, KeyR := false }
  cameraX := 0
  status := state
  finishTime := if state = Status.finished then some 30 else none

/-- A state with the body at rest at `(2000, y)`, the stick upright, compression
`sc`, the given energy and clock, alive, with the key map `keys`. -/
def charged (y sc energy time : ℚ) (keys : Keys) : Sim ℚ where
  hero :=
    { x := 2000, y := y, vx := 0, vy := 0, angle := 0, angularVelocity := 0, energy := energy,
      health := 100, ragdollParts := [], state := Status.alive, distance := 1860, time := time }
  pogo := { springCompression := sc }
  keysDown := keys
  cameraX := 1520
  status := Status.alive
  finishTime := none

/-- The collision reported ten pixels above the top of the last platform at
`x = 2700`. -/
def hitAboveLast : Collision ℚ :=
  { platform := { x := 2440, y := 360, w := 360, h := 200 }
    closest := { x := 2700, y := 360 }, dx := 0, dy := -10 }

/-- A ragdoll particle of radius 14 falling at 984 px/s towards the last platform. -/
def fallingPart : Part ℚ :=
  { x := 2700, y := 17001 / 50, vx := 0, vy := 984, radius := 14, color := "#f3f3f3" }

/-! ## Basic facts -/

theorem clamp_mem {lo hi : K} (h : lo ≤ hi) (v : K) : lo ≤ clamp v lo hi ∧ clamp v lo hi ≤ hi := by
  unfold clamp
  exact ⟨le_max_left _ _, max_le h (min_le_left _ _)⟩

theorem clamp_of_mem {lo hi v : K} (h₁ : lo ≤ v) (h₂ : v ≤ hi) : clamp v lo hi = v := by
  unfold clamp
  rw [min_eq_right h₂, max_eq_right h₁]

theorem groundScan_eq_zero (platforms : List (Rect K)) (tipX tipY : K) :
    groundScan platforms tipX tipY = 0 := by
  unfold groundScan
  induction platforms with
  | nil => rfl
  | cons p ps ih =>
    rw [List.foldl_cons]
    split_ifs with h
    · rw [max_eq_left (by linarith [h.2.2.1])]
      exact ih
    · exact ih

theorem groundCompression_eq_zero (pogo : Pogo K) (tipX tipY : K) :
    groundCompression pogo tipX tipY = 0 := by
  unfold groundCompression
  rw [groundScan_eq_zero]
  exact clamp_of_mem (by simp [Pogo.maxCompression]) le_rfl

/-- The facts about the `Math` members which the theorems below take as hypotheses
hold for the real functions: the spawn tilt is within `MAX_ANGLE`, `sin (-0.15) ≤ 0`,
`cos` is positive on `[-MAX_ANGLE, MAX_ANGLE]`, and `hypot` is the Euclidean length. -/
theorem real_math_facts :
    ∃ m : MathOps ℝ, 0.15 ≤ MAX_ANGLE m ∧ m.sin (-0.15) ≤ 0 ∧
      (∀ a, -MAX_ANGLE m ≤ a → a ≤ MAX_ANGLE m → 0 < m.cos a) ∧
      ∀ a b, 0 ≤ m.hypot a b ∧ m.hypot a b * m.hypot a b = a * a + b * b := by
  refine ⟨⟨Real.sin, Real.cos, fun a b => Real.sqrt (a * a + b * b), Real.pi⟩, ?_, ?_, ?_, ?_⟩
  · show (0.15 : ℝ) ≤ Real.pi / 2.2
    have := Real.pi_gt_three
    rw [le_div_iff₀ (by norm_num)]
    norm_num
    linarith
  · show Real.sin (-0.15) ≤ 0
    rw [Real.sin_neg]
    have : 0 ≤ Real.sin 0.15 :=
      Real.sin_nonneg_of_nonneg_of_le_pi (by norm_num) (by linarith [Real.pi_gt_three])
    linarith
  · intro a h1 h2
    have hpos := Real.pi_pos
    have hM : Real.pi / 2.2 < Real.pi / 2 := by
      apply div_lt_div_of_pos_left hpos (by norm_num) (by norm_num)
    have h1' : -(Real.pi / 2.2) ≤ a := h1
    have h2' : a ≤ Real.pi / 2.2 := h2
    exact Real.cos_pos_of_mem_Ioo ⟨by linarith, by linarith⟩
  · intro a b
    have h : 0 ≤ a * a + b * b := add_nonneg (mul_self_nonneg a) (mul_self_nonneg b)
    exact ⟨Real.sqrt_nonneg _, Real.mul_self_sqrt h⟩

theorem motion_eq (m : MathOps K) (dt : K) (s : Sim K) :
    motion m dt s =
      (let s₁ : Sim K := { s with hero := landing m true (steer m dt s.keysDown s.hero) }
       let s₂ := spring m dt 0 s₁
       ({ s₂ with hero := integrate dt s₂.hero },
        stickTip m { s with hero := steer m dt s.keysDown s.hero })) := by
  have h : decide ((0 : K) < 0.5) = true := by norm_num
  simp only [motion, groundCompression_eq_zero, h, airDrain]
  rfl

/-! ### Frame facts: what the late phases of a tick leave alone -/

theorem goRagdoll_frame (m : MathOps K) (impact : K) (s : Sim K) :
    (goRagdoll m impact s).hero.energy = s.hero.energy ∧
    (goRagdoll m impact s).hero.angle = s.hero.angle ∧
    (goRagdoll m impact s).pogo = s.pogo ∧
    (goRagdoll m impact s).hero.time = s.hero.time ∧
    (goRagdoll m impact s).hero.distance = s.hero.distance ∧
    (goRagdoll m impact s).hero.x = s.hero.x ∧
    (goRagdoll m impact s).hero.y = s.hero.y ∧
    (goRagdoll m impact s).hero.vx = s.hero.vx ∧
    (goRagdoll m impact s).hero.vy = s.hero.vy ∧
    (goRagdoll m impact s).finishTime = s.finishTime ∧
    (goRagdoll m impact s).keysDown = s.keysDown :=
  ⟨rfl, rfl, rfl, rfl, rfl, rfl, rfl, rfl, rfl, rfl, rfl⟩

theorem torso_frame (m : MathOps K) (s : Sim K) :
    (torso m s).hero.energy = s.hero.energy ∧
    (torso m s).hero.angle = s.hero.angle ∧
    (torso m s).pogo = s.pogo ∧
    (torso m s).hero.time = s.hero.time ∧
    (torso m s).hero.distance = s.hero.distance ∧
    (torso m s).finishTime = s.finishTime ∧
    (torso m s).keysDown = s.keysDown := by
  unfold torso
  cases collisionWithPlatforms s.hero.x s.hero.y 18 with
  | none => exact ⟨rfl, rfl, rfl, rfl, rfl, rfl, rfl⟩
  | some c =>
    simp only [torsoResponse]
    split_ifs <;> exact ⟨rfl, rfl, rfl, rfl, rfl, rfl, rfl⟩

theorem hazardCheck_frame (m : MathOps K) (tip : Point K) (s : Sim K) :
    (hazardCheck m tip s).hero.energy = s.hero.energy ∧
    (hazardCheck m tip s).hero.angle = s.hero.angle ∧
    (hazardCheck m tip s).pogo = s.pogo ∧
    (hazardCheck m tip s).hero.time = s.hero.time ∧
    (hazardCheck m tip s).hero.distance = s.hero.distance ∧
    (hazardCheck m tip s).hero.x = s.hero.x ∧
    (hazardCheck m tip s).hero.y = s.hero.y ∧
    (hazardCheck m tip s).hero.vx = s.hero.vx ∧
    (hazardCheck m tip s).hero.vy = s.hero.vy ∧
    (hazardCheck m tip s).finishTime = s.finishTime ∧
    (hazardCheck m tip s).keysDown = s.keysDown := by
  unfold hazardCheck
  split_ifs
  · exact goRagdoll_frame m 900 s
  · exact ⟨rfl, rfl, rfl, rfl, rfl, rfl, rfl, rfl, rfl, rfl, rfl⟩

theorem fallCheck_frame (m : MathOps K) (s : Sim K) :
    (fallCheck m s).hero.energy = s.hero.energy ∧
    (fallCheck m s).hero.angle = s.hero.angle ∧
    (fallCheck m s).pogo = s.pogo ∧
    (fallCheck m s).hero.time = s.hero.time ∧
    (fallCheck m s).hero.distance = s.hero.distance ∧
    (fallCheck m s).hero.x = s.hero.x ∧
    (fallCheck m s).hero.y = s.hero.y ∧
    (fallCheck m s).hero.vx = s.hero.vx ∧
    (fallCheck m s).hero.vy = s.hero.vy ∧
    (fallCheck m s).finishTime = s.finishTime ∧
    (fallCheck m s).keysDown = s.keysDown := by
  unfold fallCheck
  split_ifs
  · exact goRagdoll_frame m 800 s
  · exact ⟨rfl, rfl, rfl, rfl, rfl, rfl, rfl, rfl, rfl, rfl, rfl⟩

theorem finishCheck_frame (s : Sim K) :
    (finishCheck s).hero.energy = s.hero.energy ∧
    (finishCheck s).hero.angle = s.hero.angle ∧
    (finishCheck s).pogo = s.pogo ∧
    (finishCheck s).hero.time = s.hero.time ∧
    (finishCheck s).hero.distance = s.hero.distance ∧
    (finishCheck s).hero.x = s.hero.x ∧
    (finishCheck s).hero.y = s.hero.y ∧
    (finishCheck s).hero.vx = s.hero.vx ∧
    (finishCheck s).hero.vy = s.hero.vy ∧
    (finishCheck s).hero.ragdollParts = s.hero.ragdollParts ∧
    (finishCheck s).keysDown = s.keysDown := by
  unfold finishCheck
  dsimp only
  split_ifs <;> exact ⟨rfl, rfl, rfl, rfl, rfl, rfl, rfl, rfl, rfl, rfl, rfl⟩

theorem camera_frame (s : Sim K) :
    (camera s).hero = s.hero ∧ (camera s).pogo = s.pogo ∧ (camera s).status = s.status ∧
    (camera s).finishTime = s.finishTime ∧ (camera s).keysDown = s.keysDown :=
  ⟨rfl, rfl, rfl, rfl, rfl⟩

/-- The phases after position integration change none of the three bounded
quantities, nor the clock and the distance record. -/
theorem late_frame (m : MathOps K) (tip : Point K) (s : Sim K) :
    (checks m tip (torso m s)).hero.energy = s.hero.energy ∧
    (checks m tip (torso m s)).hero.angle = s.hero.angle ∧
    (checks m tip (torso m s)).pogo = s.pogo ∧
    (checks m tip (torso m s)).hero.time = s.hero.time ∧
    (checks m tip (torso m s)).hero.distance = s.hero.distance ∧
    (checks m tip (torso m s)).keysDown = s.keysDown := by
  unfold checks
  obtain ⟨t1, t2, t3, t4, t5, -, t7⟩ := torso_frame m s
  obtain ⟨h1, h2, h3, h4, h5, -, -, -, -, -, h11⟩ := hazardCheck_frame m tip (torso m s)
  obtain ⟨f1, f2, f3, f4, f5, -, -, -, -, -, f11⟩ := fallCheck_frame m (hazardCheck m tip (torso m s))
  obtain ⟨g1, g2, g3, g4, g5, -, -, -, -, -, g11⟩ :=
    finishCheck_frame (fallCheck m (hazardCheck m tip (torso m s)))
  obtain ⟨c1, c2, -, -, c5⟩ := camera_frame (finishCheck (fallCheck m (hazardCheck m tip (torso m s))))
  rw [c1, c2, c5]
  exact ⟨by rw [g1, f1, h1, t1], by rw [g2, f2, h2, t2], by rw [g3, f3, h3, t3],
    by rw [g4, f4, h4, t4], by rw [g5, f5, h5, t5], by rw [g11, f11, h11, t7]⟩

/-! ### The early phases -/

theorem steer_frame (m : MathOps K) (dt : K) (keys : Keys) (hero : Hero K) :
    (steer m dt keys hero).energy = hero.energy ∧
    (steer m dt keys hero).time = hero.time ∧
    (steer m dt keys hero).distance = hero.distance ∧
    (steer m dt keys hero).state = hero.state ∧
    (steer m dt keys hero).x = hero.x ∧
    (steer m dt keys hero).y = hero.y ∧
    (steer m dt keys hero).vy = hero.vy + GRAVITY * dt ∧
    (steer m dt keys hero).health = hero.health ∧
    (steer m dt keys hero).ragdollParts = hero.ragdollParts := by
  unfold steer
  dsimp only
  split_ifs <;> exact ⟨rfl, rfl, rfl, rfl, rfl, rfl, rfl, rfl, rfl⟩

theorem steer_angle_mem (m : MathOps K) (dt : K) (keys : Keys) (hero : Hero K)
    (h : -MAX_ANGLE m ≤ MAX_ANGLE m) :
    -MAX_ANGLE m ≤ (steer m dt keys hero).angle ∧ (steer m dt keys hero).angle ≤ MAX_ANGLE m := by
  unfold steer
  exact clamp_mem h _

theorem landing_frame (m : MathOps K) (g : Bool) (hero : Hero K) :
    (landing m g hero).energy = hero.energy ∧
    (landing m g hero).angle = hero.angle ∧
    (landing m g hero).time = hero.time ∧
    (landing m g hero).distance = hero.distance ∧
    (landing m g hero).state = hero.state ∧
    (landing m g hero).x = hero.x ∧
    (landing m g hero).y = hero.y ∧
    (landing m g hero).health = hero.health ∧
    (landing m g hero).ragdollParts = hero.ragdollParts ∧
    (landing m g hero).angularVelocity = hero.angularVelocity := by
  unfold landing
  split_ifs <;> exact ⟨rfl, rfl, rfl, rfl, rfl, rfl, rfl, rfl, rfl, rfl⟩

theorem landing_vy_nonpos (m : MathOps K) (hero : Hero K) : (landing m true hero).vy ≤ 0 := by
  unfold landing
  split_ifs with h
  · exact le_rfl
  · exact not_lt.mp fun hv => h ⟨rfl, hv⟩

theorem spring_frame (m : MathOps K) (dt c : K) (s : Sim K) :
    (spring m dt c s).hero.angle = s.hero.angle ∧
    (spring m dt c s).hero.time = s.hero.time ∧
    (spring m dt c s).hero.distance = s.hero.distance ∧
    (spring m dt c s).hero.state = s.hero.state ∧
    (spring m dt c s).hero.x = s.hero.x ∧
    (spring m dt c s).hero.y = s.hero.y ∧
    (spring m dt c s).hero.health = s.hero.health ∧
    (spring m dt c s).hero.ragdollParts = s.hero.ragdollParts ∧
    (spring m dt c s).status = s.status ∧
    (spring m dt c s).finishTime = s.finishTime ∧
    (spring m dt c s).keysDown = s.keysDown ∧
    (spring m dt c s).cameraX = s.cameraX := by
  unfold spring
  dsimp only
  split_ifs <;> exact ⟨rfl, rfl, rfl, rfl, rfl, rfl, rfl, rfl, rfl, rfl, rfl, rfl⟩

theorem spring_bounds (m : MathOps K) (dt c : K) (s : Sim K)
    (he : 0 ≤ s.hero.energy ∧ s.hero.energy ≤ 1.2) :
    (0 ≤ (spring m dt c s).hero.energy ∧ (spring m dt c s).hero.energy ≤ 1.2) ∧
    (0 ≤ (spring m dt c s).pogo.springCompression ∧
      (spring m dt c s).pogo.springCompression ≤ (spring m dt c s).pogo.maxCompression) := by
  have h48 : (0 : K) ≤ 48 := by norm_num
  have h12 : (0 : K) ≤ 1.2 := by norm_num
  have h412 : (0.4 : K) ≤ 1.2 := by norm_num
  have h04 : (0 : K) ≤ 0.4 := by norm_num
  unfold spring
  dsimp only
  split_ifs
  · exact ⟨clamp_mem h12 _, clamp_mem h48 _⟩
  · refine ⟨⟨le_trans h04 (clamp_mem h412 _).1, (clamp_mem h412 _).2⟩, le_rfl, h48⟩
  · exact ⟨he, clamp_mem h48 _⟩

theorem integrate_frame (dt : K) (hero : Hero K) :
    (integrate dt hero).energy = hero.energy ∧
    (integrate dt hero).angle = hero.angle ∧
    (integrate dt hero).time = hero.time ∧
    (integrate dt hero).state = hero.state ∧
    (integrate dt hero).vx = hero.vx ∧
    (integrate dt hero).vy = hero.vy ∧
    (integrate dt hero).health = hero.health ∧
    (integrate dt hero).ragdollParts = hero.ragdollParts ∧
    (integrate dt hero).x = hero.x + hero.vx * dt ∧
    (integrate dt hero).y = hero.y + hero.vy * dt ∧
    (integrate dt hero).distance =
      max hero.distance (hero.x + hero.vx * dt - (LEVEL : Level K).spawn.x) :=
  ⟨rfl, rfl, rfl, rfl, rfl, rfl, rfl, rfl, rfl, rfl, rfl⟩

theorem motion_bounds (m : MathOps K) (dt : K) (s : Sim K) (h : Bounds m s) :
    Bounds m (motion m dt s).1 := by
  rw [motion_eq]
  dsimp only
  obtain ⟨he, -, ha⟩ := h
  have hs := spring_bounds m dt 0
    { s with hero := landing m true (steer m dt s.keysDown s.hero) }
    (by
      show 0 ≤ (landing m true (steer m dt s.keysDown s.hero)).energy ∧
        (landing m true (steer m dt s.keysDown s.hero)).energy ≤ 1.2
      rw [(landing_frame m true _).1, (steer_frame m dt _ _).1]
      exact he)
  have hang := steer_angle_mem m dt s.keysDown s.hero (le_trans ha.1 ha.2)
  refine ⟨hs.1, hs.2, ?_⟩
  show -MAX_ANGLE m ≤ (spring m dt 0 _).hero.angle ∧ (spring m dt 0 _).hero.angle ≤ MAX_ANGLE m
  rw [(spring_frame m dt 0 _).1]
  show -MAX_ANGLE m ≤ (landing m true (steer m dt s.keysDown s.hero)).angle ∧
    (landing m true (steer m dt s.keysDown s.hero)).angle ≤ MAX_ANGLE m
  rw [(landing_frame m true _).2.1]
  exact hang

theorem bounds_congr (m : MathOps K) {s t : Sim K} (he : t.hero.energy = s.hero.energy)
    (ha : t.hero.angle = s.hero.angle) (hp : t.pogo = s.pogo) (h : Bounds m s) : Bounds m t := by
  unfold Bounds at *
  rw [he, ha, hp]
  exact h

theorem spawn_bounds (m : MathOps K) (hpi : 0.15 ≤ MAX_ANGLE m) (s : Sim K)
    (hp : 0 ≤ s.pogo.springCompression ∧ s.pogo.springCompression ≤ s.pogo.maxCompression)
    (hh : s.hero.energy = 1) (ha : s.hero.angle = -0.15) : Bounds m s := by
  unfold Bounds
  rw [hh, ha]
  refine ⟨⟨by norm_num, by norm_num⟩, hp, by linarith, ?_⟩
  have : (0 : K) ≤ 0.15 := by norm_num
  linarith

/-! ### The three paths through `update` -/

theorem update_restart (m : MathOps K) (dt : K) (s : Sim K) (hR : s.keysDown.KeyR = true) :
    update m dt s = resetHero { s with keysDown := { s.keysDown with KeyR := false } } := by
  unfold update
  rw [if_pos hR]

theorem update_ragdoll (m : MathOps K) (dt : K) (s : Sim K) (hR : s.keysDown.KeyR = false)
    (hs : s.hero.state = Status.ragdoll) :
    update m dt s = updateRagdoll m dt (advanceClock dt s) := by
  unfold update
  rw [if_neg (by simp [hR])]
  exact if_pos hs

theorem update_active (m : MathOps K) (dt : K) (s : Sim K) (hR : s.keysDown.KeyR = false)
    (hs : s.hero.state ≠ Status.ragdoll) :
    update m dt s =
      checks m (motion m dt (advanceClock dt s)).2 (torso m (motion m dt (advanceClock dt s)).1) := by
  unfold update
  rw [if_neg (by simp [hR])]
  exact if_neg hs

/-- Bounds are kept by every call of `update`, whatever the keys and `dt`. -/
theorem update_bounds (m : MathOps K) (hpi : 0.15 ≤ MAX_ANGLE m) (dt : K) (s : Sim K)
    (h : Bounds m s) : Bounds m (update m dt s) := by
  cases hR : s.keysDown.KeyR with
  | true =>
    rw [update_restart m dt s hR]
    exact spawn_bounds m hpi _ h.2.1 rfl rfl
  | false =>
    by_cases hs : s.hero.state = Status.ragdoll
    · rw [update_ragdoll m dt s hR hs]
      exact h
    · rw [update_active m dt s hR hs]
      obtain ⟨e, a, p, -⟩ := late_frame m (motion m dt (advanceClock dt s)).2
        (motion m dt (advanceClock dt s)).1
      exact bounds_congr m e a p (motion_bounds m dt _ h)

/-- Claim C1.  The initial state has energy in `[0, 1.2]`, stored spring compression in
`[0, maxCompression]` and orientation in `[-MAX_ANGLE, MAX_ANGLE]`, and one call of
`update` keeps these three bounds for every `dt`, every key map (restart included)
and every status.  The hypothesis says that the spawn tilt `0.15` does not exceed
`MAX_ANGLE = Math.PI / 2.2`. -/
theorem C1_bounds_invariant (m : MathOps K) (hpi : 0.15 ≤ MAX_ANGLE m) :
    Bounds m (initial : Sim K) ∧
      ∀ (dt : K) (s : Sim K), Bounds m s → Bounds m (update m dt s) :=
  ⟨spawn_bounds m hpi _ ⟨le_rfl, by norm_num [initial, Pogo.maxCompression]⟩ rfl rfl,
    fun dt s h => update_bounds m hpi dt s h⟩

/-- The hypothesis of C1 holds for `ratOps`; the bounds hold after a restart frame
and a charging frame from a state at the edge of all three ranges. -/
theorem C1_bounds_invariant_witness :
    (0.15 : ℚ) ≤ MAX_ANGLE ratOps ∧
      Bounds ratOps
        (update ratOps (1 / 60)
          { (initial : Sim ℚ) with
            hero := { (spawnHero : Hero ℚ) with energy := 1.2, angle := MAX_ANGLE ratOps,
                                                state := Status.finished }
            pogo := { springCompression := 48 }
            keysDown := { ArrowLeft := false, ArrowRight := true, Space := true, KeyR := false } }) :=
  ⟨by norm_num [MAX_ANGLE, ratOps],
    (C1_bounds_invariant ratOps (by norm_num [MAX_ANGLE, ratOps])).2 _ _
      ⟨⟨by norm_num, le_rfl⟩, ⟨by norm_num, by norm_num [Pogo.maxCompression]⟩,
        by norm_num [MAX_ANGLE, ratOps], le_rfl⟩⟩

/-- Claim C2.  A call of `update` with the restart flag set clears the flag, leaves
the pogo stick and the other keys as they were (no physics runs) and puts the hero,
the camera offset, the recorded finish time and the status back to their values in
the initial state: position (140, 260), zero velocities, angle -0.15, energy 1,
health 100, distance 0, time 0, no ragdoll particles, status alive. -/
theorem C2_restart (m : MathOps K) (dt : K) (s : Sim K) (hR : s.keysDown.KeyR = true) :
    update m dt s =
        { hero := (initial : Sim K).hero
          pogo := s.pogo
          keysDown := { s.keysDown with KeyR := false }
          cameraX := (initial : Sim K).cameraX
          status := (initial : Sim K).status
          finishTime := (initial : Sim K).finishTime } ∧
      (update m dt s).keysDown.KeyR = false ∧
      ((update m dt s).hero.x = 140 ∧ (update m dt s).hero.y = 260) ∧
      ((update m dt s).hero.vx = 0 ∧ (update m dt s).hero.vy = 0) ∧
      ((update m dt s).hero.angle = -0.15 ∧ (update m dt s).hero.angularVelocity = 0) ∧
      ((update m dt s).hero.energy = 1 ∧ (update m dt s).hero.health = 100) ∧
      ((update m dt s).hero.distance = 0 ∧ (update m dt s).hero.time = 0) ∧
      ((update m dt s).hero.ragdollParts = [] ∧ (update m dt s).hero.state = Status.alive) ∧
      ((update m dt s).status = Status.alive ∧ (update m dt s).cameraX = 0 ∧
        (update m dt s).finishTime = none) := by
  rw [update_restart m dt s hR]
  exact ⟨rfl, rfl, ⟨rfl, rfl⟩, ⟨rfl, rfl⟩, ⟨rfl, rfl⟩, ⟨rfl, rfl⟩, ⟨rfl, rfl⟩, ⟨rfl, rfl⟩,
    rfl, rfl, rfl⟩

/-- C2 at a finished run with the restart key down. -/
theorem C2_restart_witness :
    finishedRestartState.keysDown.KeyR = true ∧
      (update ratOps (1 / 60) finishedRestartState).hero = (initial : Sim ℚ).hero ∧
      (update ratOps (1 / 60) finishedRestartState).pogo = finishedRestartState.pogo ∧
      (update ratOps (1 / 60) finishedRestartState).status = Status.alive ∧
      (update ratOps (1 / 60) finishedRestartState).finishTime = none :=
  ⟨rfl, by rw [(C2_restart ratOps (1 / 60) finishedRestartState rfl).1],
    by rw [(C2_restart ratOps (1 / 60) finishedRestartState rfl).1],
    by rw [(C2_restart ratOps (1 / 60) finishedRestartState rfl).1]; rfl,
    by rw [(C2_restart ratOps (1 / 60) finishedRestartState rfl).1]; rfl⟩

/-! ### Status after a tick that runs the physics pipeline -/

theorem torsoResponse_eq (m : MathOps K) (c : Collision K) (s : Sim K) :
    torsoResponse m c s =
      (let hit : Sim K :=
        { s with hero :=
            { s.hero with
              x := c.closest.x + (torsoNormal m c).x * 20
              y := c.closest.y + (torsoNormal m c).y * 20
              vx := s.hero.vx - torsoImpact m c s.hero * (torsoNormal m c).x
              vy := s.hero.vy - torsoImpact m c s.hero * (torsoNormal m c).y
              health := s.hero.health - min (|torsoImpact m c s.hero| * 0.18) 40 } }
       if s.hero.health - min (|torsoImpact m c s.hero| * 0.18) 40 ≤ 0 ∨
           |torsoImpact m c s.hero| > 560 then
         goRagdoll m |torsoImpact m c s.hero| hit
       else hit) := rfl

theorem torso_of_none (m : MathOps K) (s : Sim K)
    (hc : collisionWithPlatforms s.hero.x s.hero.y 18 = none) : torso m s = s := by
  unfold torso
  rw [hc]

theorem torso_of_some (m : MathOps K) (s : Sim K) (c : Collision K)
    (hc : collisionWithPlatforms s.hero.x s.hero.y 18 = some c) :
    torso m s = torsoResponse m c s := by
  unfold torso
  rw [hc]

theorem torso_state (m : MathOps K) (s : Sim K) :
    (TorsoLethal m s → (torso m s).hero.state = Status.ragdoll ∧
      (torso m s).status = Status.ragdoll ∧ (torso m s).hero.ragdollParts.length = 3) ∧
    (¬ TorsoLethal m s → (torso m s).hero.state = s.hero.state ∧
      (torso m s).status = s.status ∧ (torso m s).hero.ragdollParts = s.hero.ragdollParts) := by
  cases hc : collisionWithPlatforms s.hero.x s.hero.y 18 with
  | none =>
    rw [torso_of_none m s hc]
    refine ⟨fun h => ?_, fun _ => ⟨rfl, rfl, rfl⟩⟩
    obtain ⟨c, h1, -⟩ := h
    rw [hc] at h1
    exact absurd h1 (by simp)
  | some c =>
    rw [torso_of_some m s c hc, torsoResponse_eq]
    dsimp only
    have key : TorsoLethal m s ↔
        (s.hero.health - min (|torsoImpact m c s.hero| * 0.18) 40 ≤ 0 ∨
          |torsoImpact m c s.hero| > 560) := by
      unfold TorsoLethal
      rw [hc]
      simp
    rw [key]
    split_ifs with h
    · exact ⟨fun _ => ⟨rfl, rfl, rfl⟩, fun h' => absurd h h'⟩
    · exact ⟨fun h' => absurd h' h, fun _ => ⟨rfl, rfl, rfl⟩⟩

theorem hazardCheck_state (m : MathOps K) (tip : Point K) (s : Sim K) :
    (hazardCheck m tip s).hero.state =
      (if isInsideHazard s.hero.x s.hero.y = true ∨ isInsideHazard tip.x tip.y = true then
        Status.ragdoll else s.hero.state) ∧
    (hazardCheck m tip s).status =
      (if isInsideHazard s.hero.x s.hero.y = true ∨ isInsideHazard tip.x tip.y = true then
        Status.ragdoll else s.status) ∧
    (isInsideHazard s.hero.x s.hero.y = true ∨ isInsideHazard tip.x tip.y = true →
      (hazardCheck m tip s).hero.ragdollParts.length = 3) ∧
    (¬ (isInsideHazard s.hero.x s.hero.y = true ∨ isInsideHazard tip.x tip.y = true) →
      (hazardCheck m tip s).hero.ragdollParts = s.hero.ragdollParts) := by
  unfold hazardCheck
  simp only [Bool.or_eq_true]
  split_ifs with h
  · exact ⟨rfl, rfl, fun _ => rfl, fun h' => absurd h h'⟩
  · exact ⟨rfl, rfl, fun h' => absurd h' h, fun _ => rfl⟩

theorem fallCheck_state (m : MathOps K) (s : Sim K) :
    (fallCheck m s).hero.state = (if s.hero.y > HEIGHT + 240 then Status.ragdoll else s.hero.state) ∧
    (fallCheck m s).status = (if s.hero.y > HEIGHT + 240 then Status.ragdoll else s.status) ∧
    (s.hero.y > HEIGHT + 240 → (fallCheck m s).hero.ragdollParts.length = 3) ∧
    (¬ s.hero.y > HEIGHT + 240 → (fallCheck m s).hero.ragdollParts = s.hero.ragdollParts) := by
  unfold fallCheck
  split_ifs with h
  · exact ⟨rfl, rfl, fun _ => rfl, fun h' => absurd h h'⟩
  · exact ⟨rfl, rfl, fun h' => absurd h' h, fun _ => rfl⟩

theorem finishCheck_state (s : Sim K) :
    (finishCheck s).hero.state =
      (if InFinish s.hero.x s.hero.y then Status.finished else s.hero.state) ∧
    (finishCheck s).status = (if InFinish s.hero.x s.hero.y then Status.finished else s.status) ∧
    (finishCheck s).finishTime =
      (if InFinish s.hero.x s.hero.y then some s.hero.time else s.finishTime) := by
  unfold finishCheck InFinish
  dsimp only
  split_ifs <;> exact ⟨rfl, rfl, rfl⟩

theorem advanceClock_frame (dt : K) (s : Sim K) :
    (advanceClock dt s).hero.state = s.hero.state ∧
    (advanceClock dt s).status = s.status ∧
    (advanceClock dt s).finishTime = s.finishTime ∧
    (advanceClock dt s).keysDown = s.keysDown ∧
    (advanceClock dt s).pogo = s.pogo ∧
    (advanceClock dt s).hero.time = s.hero.time + dt ∧
    (advanceClock dt s).hero.distance = s.hero.distance ∧
    (advanceClock dt s).hero.ragdollParts = s.hero.ragdollParts ∧
    (advanceClock dt s).hero.energy = s.hero.energy ∧
    (advanceClock dt s).hero.angle = s.hero.angle :=
  ⟨rfl, rfl, rfl, rfl, rfl, rfl, rfl, rfl, rfl, rfl⟩

theorem motion_frame (m : MathOps K) (dt : K) (s : Sim K) :
    (motion m dt s).1.hero.state = s.hero.state ∧
    (motion m dt s).1.status = s.status ∧
    (motion m dt s).1.finishTime = s.finishTime ∧
    (motion m dt s).1.keysDown = s.keysDown ∧
    (motion m dt s).1.hero.time = s.hero.time ∧
    (motion m dt s).1.hero.ragdollParts = s.hero.ragdollParts ∧
    (motion m dt s).1.hero.health = s.hero.health := by
  rw [motion_eq]
  dsimp only
  obtain ⟨-, f2, -, f4, -, -, f7, f8, f9, f10, f11, -⟩ := spring_frame m dt 0
    { s with hero := landing m true (steer m dt s.keysDown s.hero) }
  obtain ⟨-, -, l3, -, l5, -, -, l8, l9, -⟩ := landing_frame m true (steer m dt s.keysDown s.hero)
  obtain ⟨-, s2, -, s4, -, -, -, s8, s9⟩ := steer_frame m dt s.keysDown s.hero
  refine ⟨?_, f9, f10, f11, ?_, ?_, ?_⟩
  · show (spring m dt 0 _).hero.state = _
    rw [f4]
    show (landing m true _).state = _
    rw [l5, s4]
  · show (spring m dt 0 _).hero.time = _
    rw [f2]
    show (landing m true _).time = _
    rw [l3, s2]
  · show (spring m dt 0 _).hero.ragdollParts = _
    rw [f8]
    show (landing m true _).ragdollParts = _
    rw [l9, s9]
  · show (spring m dt 0 _).hero.health = _
    rw [f7]
    show (landing m true _).health = _
    rw [l8, s8]

/-- The body position at the end of a physics tick is the one left by the torso
collision response. -/
theorem active_position (m : MathOps K) (dt : K) (s : Sim K) (hR : s.keysDown.KeyR = false)
    (hs : s.hero.state ≠ Status.ragdoll) :
    (update m dt s).hero.x = (torso m (motion m dt (advanceClock dt s)).1).hero.x ∧
    (update m dt s).hero.y = (torso m (motion m dt (advanceClock dt s)).1).hero.y := by
  rw [update_active m dt s hR hs]
  unfold checks
  obtain ⟨-, -, -, -, -, h6, h7, -⟩ := hazardCheck_frame m (motion m dt (advanceClock dt s)).2
    (torso m (motion m dt (advanceClock dt s)).1)
  obtain ⟨-, -, -, -, -, f6, f7, -⟩ := fallCheck_frame m
    (hazardCheck m (motion m dt (advanceClock dt s)).2 (torso m (motion m dt (advanceClock dt s)).1))
  obtain ⟨-, -, -, -, -, g6, g7, -⟩ := finishCheck_frame (fallCheck m
    (hazardCheck m (motion m dt (advanceClock dt s)).2 (torso m (motion m dt (advanceClock dt s)).1)))
  rw [(camera_frame _).1, g6, g7, f6, f7, h6, h7]
  exact ⟨rfl, rfl⟩

/-- The clock after any tick without restart. -/
theorem update_time (m : MathOps K) (dt : K) (s : Sim K) (hR : s.keysDown.KeyR = false) :
    (update m dt s).hero.time = s.hero.time + dt := by
  by_cases hs : s.hero.state = Status.ragdoll
  · rw [update_ragdoll m dt s hR hs]
    rfl
  · rw [update_active m dt s hR hs, (late_frame m _ _).2.2.2.1, (motion_frame m dt _).2.2.2.2.1]
    rfl

/-- Status, finish time and ragdoll particles after a tick that runs the physics
pipeline, in terms of the finish test and the failure conditions. -/
theorem active_status (m : MathOps K) (dt : K) (s : Sim K) (hR : s.keysDown.KeyR = false)
    (hs : s.hero.state ≠ Status.ragdoll) :
    (InFinish (update m dt s).hero.x (update m dt s).hero.y →
      (update m dt s).hero.state = Status.finished ∧ (update m dt s).status = Status.finished ∧
        (update m dt s).finishTime = some (s.hero.time + dt)) ∧
    (¬ InFinish (update m dt s).hero.x (update m dt s).hero.y →
      (update m dt s).finishTime = s.finishTime ∧
      (FailureFires m dt s →
        (update m dt s).hero.state = Status.ragdoll ∧ (update m dt s).status = Status.ragdoll) ∧
      (¬ FailureFires m dt s →
        (update m dt s).hero.state = s.hero.state ∧ (update m dt s).status = s.status)) ∧
    (FailureFires m dt s → (update m dt s).hero.ragdollParts.length = 3) ∧
    (¬ FailureFires m dt s → (update m dt s).hero.ragdollParts = s.hero.ragdollParts) := by
  obtain ⟨px, py⟩ := active_position m dt s hR hs
  have htime := update_time m dt s hR
  unfold FailureFires
  rw [px, py]
  rw [update_active m dt s hR hs] at htime ⊢
  unfold checks at htime ⊢
  generalize hpre : (motion m dt (advanceClock dt s)).1 = pre at *
  generalize (motion m dt (advanceClock dt s)).2 = tip at *
  have hpre_state : pre.hero.state = s.hero.state := by
    rw [← hpre, (motion_frame m dt _).1]; rfl
  have hpre_status : pre.status = s.status := by
    rw [← hpre, (motion_frame m dt _).2.1]; rfl
  have hpre_ft : pre.finishTime = s.finishTime := by
    rw [← hpre, (motion_frame m dt _).2.2.1]; rfl
  have hpre_parts : pre.hero.ragdollParts = s.hero.ragdollParts := by
    rw [← hpre, (motion_frame m dt _).2.2.2.2.2.1]; rfl
  obtain ⟨t1, t2⟩ := torso_state m pre
  obtain ⟨-, -, -, -, -, tft, -⟩ := torso_frame m pre
  generalize torso m pre = t at *
  obtain ⟨h1, h2, h3, h4⟩ := hazardCheck_state m tip t
  obtain ⟨-, -, -, -, -, hx, hy, -, -, hft, -⟩ := hazardCheck_frame m tip t
  generalize hazardCheck m tip t = h at *
  obtain ⟨f1, f2, f3, f4⟩ := fallCheck_state m h
  obtain ⟨-, -, -, ftime, -, fx, fy, -, -, fft, -⟩ := fallCheck_frame m h
  generalize fallCheck m h = f at *
  obtain ⟨g1, g2, g3⟩ := finishCheck_state f
  obtain ⟨-, -, -, gtime, -, gx, gy, -, -, gparts, -⟩ := finishCheck_frame f
  rw [(camera_frame (finishCheck f)).1, (camera_frame (finishCheck f)).2.2.1,
    (camera_frame (finishCheck f)).2.2.2.1] at *
  rw [gtime] at htime
  rw [g1, g2, g3, gparts, fx, fy, hx, hy, htime, fft, hft, tft, hpre_ft]
  rw [hy] at f1 f2 f3 f4
  clear px py gx gy g1 g2 g3 gparts gtime ftime fx fy hx hy htime fft hft tft hpre_ft hpre
  by_cases hfin : InFinish t.hero.x t.hero.y <;> by_cases hl : TorsoLethal m pre <;>
    by_cases hz : (isInsideHazard t.hero.x t.hero.y = true ∨ isInsideHazard tip.x tip.y = true) <;>
    by_cases hf : t.hero.y > HEIGHT + 240 <;>
    simp only [hfin, hl, hz, hf, if_true, if_false, true_implies, false_implies, not_true_eq_false,
      not_false_eq_true, true_or, or_true, false_or, or_false, and_true, true_and,
      forall_true_left] at t1 t2 h1 h2 h3 h4 f1 f2 f3 f4 ⊢
  all_goals first
    | (rcases hz with hz1 | hz2 <;> simp_all)
    | simp_all

/-- No point lies strictly inside a hazard and strictly inside the finish rectangle. -/
theorem hazard_not_finish (x y : K) (h : isInsideHazard x y = true) : ¬ InFinish x y := by
  unfold InFinish
  simp only [isInsideHazard, LEVEL, List.any_cons, List.any_nil, Bool.or_false, Bool.or_eq_true,
    Bool.and_eq_true, decide_eq_true_eq] at h
  simp only [LEVEL]
  rintro ⟨h1, -⟩
  rcases h with h | h | h | h | h <;> linarith [h.1.1.2]

/-! ### Concrete evaluations -/

theorem probe_motion (x y vx vy : ℚ) (state : Status) (hvy : vy + 16 ≤ 0) :
    motion ratOps (1 / 100) (advanceClock (1 / 100) (probe x y vx vy state)) =
      ({ probe x y vx vy state with
          hero := { (probe x y vx vy state).hero with
            x := x + vx * (49 / 50) * (1 / 100)
            y := y + (vy + 16) * (1 / 100)
            vx := vx * (49 / 50)
            vy := vy + 16
            distance := max 2560 (x + vx * (49 / 50) * (1 / 100) - 140)
            time := 30 + 1 / 100 } },
        { x := x, y := y + 82 }) := by
  rw [motion_eq]
  have h1 : ¬ (0 < vy + 16) := not_lt.mpr hvy
  norm_num [advanceClock, probe, steer, landing, spring, integrate, stickTip, ratOps, clamp,
    MAX_ANGLE, GRAVITY, AIR_RESISTANCE, ANGLE_DAMPING, Pogo.length, Pogo.maxCompression, LEVEL, h1]

theorem probe_motion_land (x y vx vy : ℚ) (state : Status) (hvy : 0 < vy + 16) :
    motion ratOps (1 / 100) (advanceClock (1 / 100) (probe x y vx vy state)) =
      ({ probe x y vx vy state with
          hero := { (probe x y vx vy state).hero with
            x := x + vx * (49 / 50) * (1 / 100)
            vx := vx * (49 / 50)
            vy := 0
            distance := max 2560 (x + vx * (49 / 50) * (1 / 100) - 140)
            time := 30 + 1 / 100 } },
        { x := x, y := y + 82 }) := by
  rw [motion_eq]
  norm_num [advanceClock, probe, steer, landing, spring, integrate, stickTip, ratOps, clamp,
    MAX_ANGLE, GRAVITY, AIR_RESISTANCE, ANGLE_DAMPING, Pogo.length, Pogo.maxCompression, LEVEL, hvy]

/-- The state at the torso collision query of a physics tick, and the stick tip. -/
theorem probe_pre (x y vx vy : ℚ) (state : Status) (hvy : vy + 16 ≤ 0) :
    (motion ratOps (1 / 100) (advanceClock (1 / 100) (probe x y vx vy state))).1.hero.x =
      x + vx * (49 / 50) * (1 / 100) ∧
    (motion ratOps (1 / 100) (advanceClock (1 / 100) (probe x y vx vy state))).1.hero.y =
      y + (vy + 16) * (1 / 100) ∧
    (motion ratOps (1 / 100) (advanceClock (1 / 100) (probe x y vx vy state))).1.hero.vx =
      vx * (49 / 50) ∧
    (motion ratOps (1 / 100) (advanceClock (1 / 100) (probe x y vx vy state))).1.hero.vy = vy + 16 ∧
    (motion ratOps (1 / 100) (advanceClock (1 / 100) (probe x y vx vy state))).1.hero.health = 100 ∧
    (motion ratOps (1 / 100) (advanceClock (1 / 100) (probe x y vx vy state))).1.hero.distance =
      max 2560 (x + vx * (49 / 50) * (1 / 100) - 140) ∧
    (motion ratOps (1 / 100) (advanceClock (1 / 100) (probe x y vx vy state))).2 =
      { x := x, y := y + 82 } := by
  rw [probe_motion x y vx vy state hvy]
  exact ⟨rfl, rfl, rfl, rfl, rfl, rfl, rfl⟩

theorem probe_pre_land (x y vx vy : ℚ) (state : Status) (hvy : 0 < vy + 16) :
    (motion ratOps (1 / 100) (advanceClock (1 / 100) (probe x y vx vy state))).1.hero.x =
      x + vx * (49 / 50) * (1 / 100) ∧
    (motion ratOps (1 / 100) (advanceClock (1 / 100) (probe x y vx vy state))).1.hero.y = y ∧
    (motion ratOps (1 / 100) (advanceClock (1 / 100) (probe x y vx vy state))).1.hero.vx =
      vx * (49 / 50) ∧
    (motion ratOps (1 / 100) (advanceClock (1 / 100) (probe x y vx vy state))).1.hero.vy = 0 ∧
    (motion ratOps (1 / 100) (advanceClock (1 / 100) (probe x y vx vy state))).1.hero.health = 100 ∧
    (motion ratOps (1 / 100) (advanceClock (1 / 100) (probe x y vx vy state))).1.hero.distance =
      max 2560 (x + vx * (49 / 50) * (1 / 100) - 140) ∧
    (motion ratOps (1 / 100) (advanceClock (1 / 100) (probe x y vx vy state))).2 =
      { x := x, y := y + 82 } := by
  rw [probe_motion_land x y vx vy state hvy]
  exact ⟨rfl, rfl, rfl, rfl, rfl, rfl, rfl⟩

/-- Position, velocity and health after the torso response to a collision. -/
theorem torso_hit (m : MathOps K) (s : Sim K) (c : Collision K)
    (hc : collisionWithPlatforms s.hero.x s.hero.y 18 = some c) :
    (torso m s).hero.x = c.closest.x + (torsoNormal m c).x * 20 ∧
    (torso m s).hero.y = c.closest.y + (torsoNormal m c).y * 20 ∧
    (torso m s).hero.vx = s.hero.vx - torsoImpact m c s.hero * (torsoNormal m c).x ∧
    (torso m s).hero.vy = s.hero.vy - torsoImpact m c s.hero * (torsoNormal m c).y ∧
    (torso m s).hero.health = s.hero.health - min (|torsoImpact m c s.hero| * 0.18) 40 := by
  rw [torso_of_some m s c hc, torsoResponse_eq]
  dsimp only
  split_ifs <;> exact ⟨rfl, rfl, rfl, rfl, rfl⟩

/-- Ten pixels above the top of the last platform, inside the finish columns. -/
theorem collision_at_2700_350 :
    collisionWithPlatforms (2700 : ℚ) 350 18 =
      some { platform := { x := 2440, y := 360, w := 360, h := 200 }
             closest := { x := 2700, y := 360 }, dx := 0, dy := -10 } := by
  norm_num [collisionWithPlatforms, collisionIn, projectToPlatform, clamp, LEVEL, max_def, min_def]

/-- Ten pixels above the top of the last platform, right of the finish columns. -/
theorem collision_at_2795_350 :
    collisionWithPlatforms (13974 / 5 : ℚ) 350 18 =
      some { platform := { x := 2440, y := 360, w := 360, h := 200 }
             closest := { x := 13974 / 5, y := 360 }, dx := 0, dy := -10 } := by
  norm_num [collisionWithPlatforms, collisionIn, projectToPlatform, clamp, LEVEL, max_def, min_def]

/-- A centre inside the second platform (and inside the first hazard). -/
theorem collision_at_540_400 :
    collisionWithPlatforms (540 : ℚ) 400 18 =
      some { platform := { x := 420, y := 380, w := 180, h := 180 }
             closest := { x := 540, y := 400 }, dx := 0, dy := 0 } := by
  norm_num [collisionWithPlatforms, collisionIn, projectToPlatform, clamp, LEVEL, max_def, min_def]

/-- Twenty pixels above the top of the last platform: the rest position. -/
theorem collision_at_2701_340 : collisionWithPlatforms (135049 / 50 : ℚ) 340 18 = none := by
  norm_num [collisionWithPlatforms, collisionIn, projectToPlatform, clamp, LEVEL, max_def, min_def]

/-- The tick of `probe 2700 356 0 (-616)`: a torso collision with impact 600 on top
of the last platform, resolved to `(2700, 340)`, inside the finish rectangle. -/
theorem lethalInFinish_eval (state : Status) (hs : state ≠ Status.ragdoll) :
    (update ratOps (1 / 100) (probe 2700 356 0 (-616) state)).hero.x = 2700 ∧
    (update ratOps (1 / 100) (probe 2700 356 0 (-616) state)).hero.y = 340 ∧
    TorsoLethal ratOps
      (motion ratOps (1 / 100) (advanceClock (1 / 100) (probe 2700 356 0 (-616) state))).1 := by
  obtain ⟨px, py⟩ := active_position ratOps (1 / 100) (probe 2700 356 0 (-616) state) rfl hs
  obtain ⟨qx, qy, qvx, qvy, qh, -, -⟩ := probe_pre 2700 356 0 (-616) state (by norm_num)
  have hc : collisionWithPlatforms
      (motion ratOps (1 / 100) (advanceClock (1 / 100) (probe 2700 356 0 (-616) state))).1.hero.x
      (motion ratOps (1 / 100) (advanceClock (1 / 100) (probe 2700 356 0 (-616) state))).1.hero.y 18 =
      some { platform := { x := 2440, y := 360, w := 360, h := 200 }
             closest := { x := 2700, y := 360 }, dx := 0, dy := -10 } := by
    rw [qx, qy]
    have e1 : (2700 : ℚ) + 0 * (49 / 50) * (1 / 100) = 2700 := by norm_num
    have e2 : (356 : ℚ) + (-616 + 16) * (1 / 100) = 350 := by norm_num
    rw [e1, e2]
    exact collision_at_2700_350
  obtain ⟨tx, ty, -⟩ := torso_hit ratOps _ _ hc
  refine ⟨?_, ?_, _, hc, Or.inr ?_⟩
  · rw [px, tx]
    norm_num [torsoNormal, orOne, ratOps]
  · rw [py, ty]
    norm_num [torsoNormal, orOne, ratOps]
  · unfold torsoImpact
    rw [qvx, qvy]
    norm_num [torsoNormal, orOne, ratOps]

/-- The tick of `probe 2785 356 1000 (-616)`: the body leaves the finish columns
and has a torso collision with impact 600 on top of the last platform, resolved to
`(2794.8, 340)`, outside the finish rectangle. -/
theorem lethalOffFinish_eval (state : Status) (hs : state ≠ Status.ragdoll) :
    (update ratOps (1 / 100) (probe 2785 356 1000 (-616) state)).hero.x = 13974 / 5 ∧
    (update ratOps (1 / 100) (probe 2785 356 1000 (-616) state)).hero.y = 340 ∧
    TorsoLethal ratOps
      (motion ratOps (1 / 100) (advanceClock (1 / 100) (probe 2785 356 1000 (-616) state))).1 := by
  obtain ⟨px, py⟩ := active_position ratOps (1 / 100) (probe 2785 356 1000 (-616) state) rfl hs
  obtain ⟨qx, qy, qvx, qvy, qh, -, -⟩ := probe_pre 2785 356 1000 (-616) state (by norm_num)
  have hc : collisionWithPlatforms
      (motion ratOps (1 / 100) (advanceClock (1 / 100) (probe 2785 356 1000 (-616) state))).1.hero.x
      (motion ratOps (1 / 100) (advanceClock (1 / 100) (probe 2785 356 1000 (-616) state))).1.hero.y
      18 =
      some { platform := { x := 2440, y := 360, w := 360, h := 200 }
             closest := { x := 13974 / 5, y := 360 }, dx := 0, dy := -10 } := by
    rw [qx, qy]
    have e1 : (2785 : ℚ) + 1000 * (49 / 50) * (1 / 100) = 13974 / 5 := by norm_num
    have e2 : (356 : ℚ) + (-616 + 16) * (1 / 100) = 350 := by norm_num
    rw [e1, e2]
    exact collision_at_2795_350
  obtain ⟨tx, ty, -⟩ := torso_hit ratOps _ _ hc
  refine ⟨?_, ?_, _, hc, Or.inr ?_⟩
  · rw [px, tx]
    norm_num [torsoNormal, orOne, ratOps]
  · rw [py, ty]
    norm_num [torsoNormal, orOne, ratOps]
  · unfold torsoImpact
    rw [qvx, qvy]
    norm_num [torsoNormal, orOne, ratOps]

/-- The tick of `probe 540 400 0 0`: the centre is inside the second platform, the
offset is the zero vector and the response leaves the body at `(540, 400)`. -/
theorem insideHazard_eval (state : Status) (hs : state ≠ Status.ragdoll) :
    (update ratOps (1 / 100) (probe 540 400 0 0 state)).hero.x = 540 ∧
    (update ratOps (1 / 100) (probe 540 400 0 0 state)).hero.y = 400 ∧
    (torso ratOps (motion ratOps (1 / 100) (advanceClock (1 / 100) (probe 540 400 0 0 state))).1).hero.x
      = 540 ∧
    (torso ratOps (motion ratOps (1 / 100) (advanceClock (1 / 100) (probe 540 400 0 0 state))).1).hero.y
      = 400 := by
  obtain ⟨px, py⟩ := active_position ratOps (1 / 100) (probe 540 400 0 0 state) rfl hs
  obtain ⟨qx, qy, -⟩ := probe_pre_land 540 400 0 0 state (by norm_num)
  have hc : collisionWithPlatforms
      (motion ratOps (1 / 100) (advanceClock (1 / 100) (probe 540 400 0 0 state))).1.hero.x
      (motion ratOps (1 / 100) (advanceClock (1 / 100) (probe 540 400 0 0 state))).1.hero.y 18 =
      some { platform := { x := 420, y := 380, w := 180, h := 180 }
             closest := { x := 540, y := 400 }, dx := 0, dy := 0 } := by
    rw [qx, qy]
    have e1 : (540 : ℚ) + 0 * (49 / 50) * (1 / 100) = 540 := by norm_num
    rw [e1]
    exact collision_at_540_400
  obtain ⟨tx, ty, -⟩ := torso_hit ratOps _ _ hc
  rw [px, py, tx, ty]
  norm_num [torsoNormal]

/-- The tick of `probe 2700 340 100 0`: the body rests 20 above the last platform
and drifts to `(2700.98, 340)` with no torso collision. -/
theorem drift_eval (state : Status) (hs : state ≠ Status.ragdoll) :
    (update ratOps (1 / 100) (probe 2700 340 100 0 state)).hero.x = 135049 / 50 ∧
    (update ratOps (1 / 100) (probe 2700 340 100 0 state)).hero.y = 340 ∧
    (update ratOps (1 / 100) (probe 2700 340 100 0 state)).hero.distance = 128049 / 50 := by
  obtain ⟨px, py⟩ := active_position ratOps (1 / 100) (probe 2700 340 100 0 state) rfl hs
  obtain ⟨qx, qy, -, -, -, qd, -⟩ := probe_pre_land 2700 340 100 0 state (by norm_num)
  have e1 : (2700 : ℚ) + 100 * (49 / 50) * (1 / 100) = 135049 / 50 := by norm_num
  have hc : collisionWithPlatforms
      (motion ratOps (1 / 100) (advanceClock (1 / 100) (probe 2700 340 100 0 state))).1.hero.x
      (motion ratOps (1 / 100) (advanceClock (1 / 100) (probe 2700 340 100 0 state))).1.hero.y 18 =
      none := by
    rw [qx, qy, e1]
    exact collision_at_2701_340
  rw [px, py, torso_of_none ratOps _ hc, qx, qy, e1]
  refine ⟨rfl, rfl, ?_⟩
  rw [update_active ratOps _ _ rfl hs, (late_frame ratOps _ _).2.2.2.2.1, qd, e1]
  norm_num

/-! ### Claims about the state machine -/

/-- Claim C3 (as amended).  In a tick without restart from an alive state in which a
failure condition fires (lethal torso collision by impact or by health, body or
stick tip strictly inside a hazard, body below `HEIGHT + 240`), `goRagdoll` runs:
three ragdoll particles exist after the tick, and the status is ragdoll unless the
body ends strictly inside the finish rectangle, in which case the finish test of
lines 305-310 overwrites it with finished. -/
theorem C3_failure_triggers_ragdoll (m : MathOps K) (dt : K) (s : Sim K)
    (halive : s.hero.state = Status.alive) (hR : s.keysDown.KeyR = false)
    (hfail : FailureFires m dt s) :
    (update m dt s).hero.ragdollParts.length = 3 ∧
    (¬ InFinish (update m dt s).hero.x (update m dt s).hero.y →
      (update m dt s).hero.state = Status.ragdoll ∧ (update m dt s).status = Status.ragdoll) ∧
    (InFinish (update m dt s).hero.x (update m dt s).hero.y →
      (update m dt s).hero.state = Status.finished ∧ (update m dt s).status = Status.finished) := by
  obtain ⟨a1, a2, a3, -⟩ := active_status m dt s hR (by rw [halive]; decide)
  exact ⟨a3 hfail, fun h => (a2 h).2.1 hfail, fun h => ⟨(a1 h).1, (a1 h).2.1⟩⟩

/-- C3 at a body whose centre is inside a hazard (and inside the second platform):
the tick ends in ragdoll. -/
theorem C3_failure_triggers_ragdoll_witness :
    (probe 540 400 0 0 Status.alive).hero.state = Status.alive ∧
    (probe 540 400 0 0 Status.alive).keysDown.KeyR = false ∧
    FailureFires ratOps (1 / 100) (probe 540 400 0 0 Status.alive) ∧
    (update ratOps (1 / 100) (probe 540 400 0 0 Status.alive)).hero.ragdollParts.length = 3 ∧
    (update ratOps (1 / 100) (probe 540 400 0 0 Status.alive)).hero.state = Status.ragdoll := by
  obtain ⟨ex, ey, tx, ty⟩ := insideHazard_eval Status.alive (by decide)
  have hz : isInsideHazard (540 : ℚ) 400 = true := by norm_num [isInsideHazard, LEVEL]
  have hfail : FailureFires ratOps (1 / 100) (probe 540 400 0 0 Status.alive) :=
    Or.inr (Or.inl (by rw [tx, ty]; exact hz))
  have hfin : ¬ InFinish (update ratOps (1 / 100) (probe 540 400 0 0 Status.alive)).hero.x
      (update ratOps (1 / 100) (probe 540 400 0 0 Status.alive)).hero.y := by
    rw [ex, ey]
    exact hazard_not_finish _ _ hz
  have h := C3_failure_triggers_ragdoll ratOps (1 / 100) (probe 540 400 0 0 Status.alive) rfl rfl
    hfail
  exact ⟨rfl, rfl, hfail, h.1, (h.2.1 hfin).1⟩

/-- Claim C3 as stated fails: an alive body rising at 600 px/s ten pixels above the
last platform, inside the finish columns, has a torso collision with impact
600 > 560, yet the status after the tick is finished, not ragdoll. -/
theorem C3_counterexample :
    (probe 2700 356 0 (-616) Status.alive).hero.state = Status.alive ∧
    (probe 2700 356 0 (-616) Status.alive).keysDown.KeyR = false ∧
    FailureFires ratOps (1 / 100) (probe 2700 356 0 (-616) Status.alive) ∧
    (update ratOps (1 / 100) (probe 2700 356 0 (-616) Status.alive)).hero.state = Status.finished ∧
    (update ratOps (1 / 100) (probe 2700 356 0 (-616) Status.alive)).status = Status.finished ∧
    (update ratOps (1 / 100) (probe 2700 356 0 (-616) Status.alive)).hero.state ≠ Status.ragdoll := by
  obtain ⟨ex, ey, hl⟩ := lethalInFinish_eval Status.alive (by decide)
  have hfin : InFinish (update ratOps (1 / 100) (probe 2700 356 0 (-616) Status.alive)).hero.x
      (update ratOps (1 / 100) (probe 2700 356 0 (-616) Status.alive)).hero.y := by
    rw [ex, ey]
    norm_num [InFinish, LEVEL]
  obtain ⟨a1, -⟩ := active_status ratOps (1 / 100) (probe 2700 356 0 (-616) Status.alive) rfl
    (by decide)
  refine ⟨rfl, rfl, Or.inl hl, (a1 hfin).1, (a1 hfin).2.1, ?_⟩
  rw [(a1 hfin).1]
  decide

/-- Claim C4.  In a tick without restart from an alive state after which the body is
strictly inside the finish rectangle (2670 < x < 2790, 270 < y < 480), the status is
finished and the recorded finish time is `hero.time` after the tick, which is
`hero.time` before the tick plus `dt`. -/
theorem C4_finish_transition (m : MathOps K) (dt : K) (s : Sim K)
    (halive : s.hero.state = Status.alive) (hR : s.keysDown.KeyR = false)
    (hx : 2670 < (update m dt s).hero.x ∧ (update m dt s).hero.x < 2790)
    (hy : 270 < (update m dt s).hero.y ∧ (update m dt s).hero.y < 480) :
    (update m dt s).hero.state = Status.finished ∧ (update m dt s).status = Status.finished ∧
    (update m dt s).finishTime = some (update m dt s).hero.time ∧
    (update m dt s).hero.time = s.hero.time + dt := by
  have hfin : InFinish (update m dt s).hero.x (update m dt s).hero.y := by
    unfold InFinish
    simp only [LEVEL]
    refine ⟨hx.1, ?_, hy.1, ?_⟩
    · linarith [hx.2]
    · linarith [hy.2]
  obtain ⟨a1, -⟩ := active_status m dt s hR (by rw [halive]; decide)
  obtain ⟨b1, b2, b3⟩ := a1 hfin
  have ht := update_time m dt s hR
  exact ⟨b1, b2, by rw [b3, ht], ht⟩

/-- C4 at an alive body drifting along the last platform inside the finish
rectangle. -/
theorem C4_finish_transition_witness :
    (2670 < (update ratOps (1 / 100) (probe 2700 340 100 0 Status.alive)).hero.x ∧
      (update ratOps (1 / 100) (probe 2700 340 100 0 Status.alive)).hero.x < 2790) ∧
    (update ratOps (1 / 100) (probe 2700 340 100 0 Status.alive)).hero.state = Status.finished ∧
    (update ratOps (1 / 100) (probe 2700 340 100 0 Status.alive)).finishTime = some (30 + 1 / 100) := by
  obtain ⟨ex, ey, -⟩ := drift_eval Status.alive (by decide)
  have hx : 2670 < (update ratOps (1 / 100) (probe 2700 340 100 0 Status.alive)).hero.x ∧
      (update ratOps (1 / 100) (probe 2700 340 100 0 Status.alive)).hero.x < 2790 := by
    rw [ex]; norm_num
  have hy : 270 < (update ratOps (1 / 100) (probe 2700 340 100 0 Status.alive)).hero.y ∧
      (update ratOps (1 / 100) (probe 2700 340 100 0 Status.alive)).hero.y < 480 := by
    rw [ey]; norm_num
  have h := C4_finish_transition ratOps (1 / 100) (probe 2700 340 100 0 Status.alive) rfl rfl hx hy
  refine ⟨hx, h.1, ?_⟩
  rw [h.2.2.1, h.2.2.2]
  rfl

/-- Claim C9.  In a tick without restart from an alive state in which the body
position evaluated by the hazard test (after integration and the torso collision
response) lies strictly inside a hazard rectangle, the status after the tick is
ragdoll and exactly three ragdoll particles exist. -/
theorem C9_hazard_forces_ragdoll (m : MathOps K) (dt : K) (s : Sim K)
    (halive : s.hero.state = Status.alive) (hR : s.keysDown.KeyR = false)
    (hhaz : isInsideHazard (torso m (motion m dt (advanceClock dt s)).1).hero.x
      (torso m (motion m dt (advanceClock dt s)).1).hero.y = true) :
    (update m dt s).hero.state = Status.ragdoll ∧ (update m dt s).status = Status.ragdoll ∧
    (update m dt s).hero.ragdollParts.length = 3 := by
  have hs : s.hero.state ≠ Status.ragdoll := by rw [halive]; decide
  obtain ⟨px, py⟩ := active_position m dt s hR hs
  have hfail : FailureFires m dt s := Or.inr (Or.inl hhaz)
  rw [← px, ← py] at hhaz
  obtain ⟨-, a2, a3, -⟩ := active_status m dt s hR hs
  obtain ⟨-, b2, -⟩ := a2 (hazard_not_finish _ _ hhaz)
  exact ⟨(b2 hfail).1, (b2 hfail).2, a3 hfail⟩

/-- C9 at a body whose centre is inside the first hazard. -/
theorem C9_hazard_forces_ragdoll_witness :
    isInsideHazard
      (torso ratOps (motion ratOps (1 / 100)
        (advanceClock (1 / 100) (probe 540 400 0 0 Status.alive))).1).hero.x
      (torso ratOps (motion ratOps (1 / 100)
        (advanceClock (1 / 100) (probe 540 400 0 0 Status.alive))).1).hero.y = true ∧
    (update ratOps (1 / 100) (probe 540 400 0 0 Status.alive)).status = Status.ragdoll ∧
    (update ratOps (1 / 100) (probe 540 400 0 0 Status.alive)).hero.ragdollParts.length = 3 := by
  obtain ⟨-, -, tx, ty⟩ := insideHazard_eval Status.alive (by decide)
  have hz : isInsideHazard
      (torso ratOps (motion ratOps (1 / 100)
        (advanceClock (1 / 100) (probe 540 400 0 0 Status.alive))).1).hero.x
      (torso ratOps (motion ratOps (1 / 100)
        (advanceClock (1 / 100) (probe 540 400 0 0 Status.alive))).1).hero.y = true := by
    rw [tx, ty]
    norm_num [isInsideHazard, LEVEL]
  have h := C9_hazard_forces_ragdoll ratOps (1 / 100) (probe 540 400 0 0 Status.alive) rfl rfl hz
  exact ⟨hz, h.2.1, h.2.2⟩

theorem motion_distance_ge (m : MathOps K) (dt : K) (s : Sim K) :
    s.hero.distance ≤ (motion m dt s).1.hero.distance := by
  rw [motion_eq]
  dsimp only
  rw [(integrate_frame dt _).2.2.2.2.2.2.2.2.2.2, (spring_frame m dt 0 _).2.2.1]
  show s.hero.distance ≤ max (landing m true (steer m dt s.keysDown s.hero)).distance _
  rw [(landing_frame m true _).2.2.2.1, (steer_frame m dt _ _).2.2.1]
  exact le_max_left _ _

/-- Claim C5 (as amended).  In a tick without restart from a ragdoll or finished
state the clock `hero.time` advances by `dt`.  From a ragdoll state the distance
record, the recorded finish time and the status are unchanged.  From a finished
state the physics pipeline runs: the distance record does not decrease, and the
recorded finish time is overwritten with the new `hero.time` when the body ends
strictly inside the finish rectangle and is unchanged otherwise. -/
theorem C5_outside_alive (m : MathOps K) (dt : K) (s : Sim K)
    (hR : s.keysDown.KeyR = false) :
    (update m dt s).hero.time = s.hero.time + dt ∧
    (s.hero.state = Status.ragdoll →
      (update m dt s).hero.distance = s.hero.distance ∧
      (update m dt s).finishTime = s.finishTime ∧
      (update m dt s).hero.state = Status.ragdoll ∧ (update m dt s).status = s.status) ∧
    (s.hero.state = Status.finished →
      s.hero.distance ≤ (update m dt s).hero.distance ∧
      (InFinish (update m dt s).hero.x (update m dt s).hero.y →
        (update m dt s).finishTime = some (s.hero.time + dt)) ∧
      (¬ InFinish (update m dt s).hero.x (update m dt s).hero.y →
        (update m dt s).finishTime = s.finishTime)) := by
  refine ⟨update_time m dt s hR, fun h => ?_, fun h => ?_⟩
  · rw [update_ragdoll m dt s hR h]
    exact ⟨rfl, rfl, h, rfl⟩
  · have hn : s.hero.state ≠ Status.ragdoll := by rw [h]; decide
    obtain ⟨a1, a2, -⟩ := active_status m dt s hR hn
    refine ⟨?_, fun hf => (a1 hf).2.2, fun hf => (a2 hf).1⟩
    rw [update_active m dt s hR hn, (late_frame m _ _).2.2.2.2.1]
    exact motion_distance_ge m dt (advanceClock dt s)

/-- C5 at a finished body drifting inside the finish rectangle. -/
theorem C5_outside_alive_witness :
    (probe 2700 340 100 0 Status.finished).keysDown.KeyR = false ∧
    (probe 2700 340 100 0 Status.finished).hero.state = Status.finished ∧
    (update ratOps (1 / 100) (probe 2700 340 100 0 Status.finished)).hero.time = 30 + 1 / 100 ∧
    (2560 : ℚ) ≤ (update ratOps (1 / 100) (probe 2700 340 100 0 Status.finished)).hero.distance :=
  ⟨rfl, rfl,
    (C5_outside_alive ratOps (1 / 100) (probe 2700 340 100 0 Status.finished) rfl).1,
    ((C5_outside_alive ratOps (1 / 100) (probe 2700 340 100 0 Status.finished) rfl).2.2 rfl).1⟩

/-- Claim C5 as stated fails.  A tick with `dt = 1/100` and no key down changes
`hero.time` of a ragdoll state, and changes `hero.time`, `hero.distance` and the
recorded finish time of a finished state. -/
theorem C5_counterexample :
    ((probe 540 400 0 0 Status.ragdoll).hero.state = Status.ragdoll ∧
      (update ratOps (1 / 100) (probe 540 400 0 0 Status.ragdoll)).hero.time ≠
        (probe 540 400 0 0 Status.ragdoll).hero.time) ∧
    ((probe 2700 340 100 0 Status.finished).hero.state = Status.finished ∧
      (probe 2700 340 100 0 Status.finished).finishTime = some 30 ∧
      (update ratOps (1 / 100) (probe 2700 340 100 0 Status.finished)).hero.time ≠
        (probe 2700 340 100 0 Status.finished).hero.time ∧
      (update ratOps (1 / 100) (probe 2700 340 100 0 Status.finished)).hero.distance ≠
        (probe 2700 340 100 0 Status.finished).hero.distance ∧
      (update ratOps (1 / 100) (probe 2700 340 100 0 Status.finished)).finishTime ≠
        (probe 2700 340 100 0 Status.finished).finishTime) := by
  obtain ⟨ex, ey, ed⟩ := drift_eval Status.finished (by decide)
  have hfin : InFinish (update ratOps (1 / 100) (probe 2700 340 100 0 Status.finished)).hero.x
      (update ratOps (1 / 100) (probe 2700 340 100 0 Status.finished)).hero.y := by
    rw [ex, ey]
    norm_num [InFinish, LEVEL]
  obtain ⟨a1, -⟩ := active_status ratOps (1 / 100) (probe 2700 340 100 0 Status.finished) rfl
    (by decide)
  refine ⟨⟨rfl, ?_⟩, rfl, rfl, ?_, ?_, ?_⟩
  · rw [update_time ratOps _ _ rfl]
    norm_num [probe]
  · rw [update_time ratOps _ _ rfl]
    norm_num [probe]
  · rw [ed]
    norm_num [probe]
  · rw [(a1 hfin).2.2]
    norm_num [probe]

/-- Claim C6 (as amended).  After a tick without restart from a finished state the
status is finished or ragdoll, never alive: it is finished when the body ends
strictly inside the finish rectangle or no failure condition fires, and ragdoll when
a failure condition fires and the body ends outside the finish rectangle. -/
theorem C6_finished_never_alive (m : MathOps K) (dt : K) (s : Sim K)
    (hfinished : s.hero.state = Status.finished ∧ s.status = Status.finished)
    (hR : s.keysDown.KeyR = false) :
    ((update m dt s).hero.state ≠ Status.alive ∧ (update m dt s).status ≠ Status.alive) ∧
    (InFinish (update m dt s).hero.x (update m dt s).hero.y ∨ ¬ FailureFires m dt s →
      (update m dt s).hero.state = Status.finished ∧ (update m dt s).status = Status.finished) ∧
    (¬ InFinish (update m dt s).hero.x (update m dt s).hero.y ∧ FailureFires m dt s →
      (update m dt s).hero.state = Status.ragdoll ∧ (update m dt s).status = Status.ragdoll) := by
  have hn : s.hero.state ≠ Status.ragdoll := by rw [hfinished.1]; decide
  obtain ⟨a1, a2, -⟩ := active_status m dt s hR hn
  have key : (InFinish (update m dt s).hero.x (update m dt s).hero.y ∨ ¬ FailureFires m dt s →
      (update m dt s).hero.state = Status.finished ∧ (update m dt s).status = Status.finished) := by
    intro h
    by_cases hf : InFinish (update m dt s).hero.x (update m dt s).hero.y
    · exact ⟨(a1 hf).1, (a1 hf).2.1⟩
    · have hnf : ¬ FailureFires m dt s := h.resolve_left hf
      obtain ⟨e1, e2⟩ := (a2 hf).2.2 hnf
      exact ⟨e1.trans hfinished.1, e2.trans hfinished.2⟩
  have key2 : (¬ InFinish (update m dt s).hero.x (update m dt s).hero.y ∧ FailureFires m dt s →
      (update m dt s).hero.state = Status.ragdoll ∧ (update m dt s).status = Status.ragdoll) :=
    fun h => (a2 h.1).2.1 h.2
  refine ⟨?_, key, key2⟩
  by_cases h : InFinish (update m dt s).hero.x (update m dt s).hero.y ∨ ¬ FailureFires m dt s
  · rw [(key h).1, (key h).2]
    exact ⟨by decide, by decide⟩
  · have h2 : ¬ InFinish (update m dt s).hero.x (update m dt s).hero.y ∧ FailureFires m dt s := by
      constructor
      · exact fun hf => h (Or.inl hf)
      · by_contra hnf
        exact h (Or.inr hnf)
    rw [(key2 h2).1, (key2 h2).2]
    exact ⟨by decide, by decide⟩

/-- C6 at a finished body drifting inside the finish rectangle: it stays finished. -/
theorem C6_finished_never_alive_witness :
    ((probe 2700 340 100 0 Status.finished).hero.state = Status.finished ∧
      (probe 2700 340 100 0 Status.finished).status = Status.finished) ∧
    (probe 2700 340 100 0 Status.finished).keysDown.KeyR = false ∧
    (update ratOps (1 / 100) (probe 2700 340 100 0 Status.finished)).hero.state =
      Status.finished := by
  obtain ⟨ex, ey, -⟩ := drift_eval Status.finished (by decide)
  have hfin : InFinish (update ratOps (1 / 100) (probe 2700 340 100 0 Status.finished)).hero.x
      (update ratOps (1 / 100) (probe 2700 340 100 0 Status.finished)).hero.y := by
    rw [ex, ey]
    norm_num [InFinish, LEVEL]
  exact ⟨⟨rfl, rfl⟩, rfl,
    ((C6_finished_never_alive ratOps (1 / 100) (probe 2700 340 100 0 Status.finished)
      ⟨rfl, rfl⟩ rfl).2.1 (Or.inl hfin)).1⟩

/-- Claim C6 as stated fails: a finished body inside the finish rectangle which
drifts out of the finish columns and has a torso collision with impact 600 > 560 is
in the ragdoll status after the tick. -/
theorem C6_counterexample :
    (probe 2785 356 1000 (-616) Status.finished).hero.state = Status.finished ∧
    (probe 2785 356 1000 (-616) Status.finished).status = Status.finished ∧
    InFinish (probe 2785 356 1000 (-616) Status.finished).hero.x
      (probe 2785 356 1000 (-616) Status.finished).hero.y ∧
    (probe 2785 356 1000 (-616) Status.finished).keysDown.KeyR = false ∧
    (update ratOps (1 / 100) (probe 2785 356 1000 (-616) Status.finished)).hero.state =
      Status.ragdoll ∧
    (update ratOps (1 / 100) (probe 2785 356 1000 (-616) Status.finished)).status =
      Status.ragdoll := by
  obtain ⟨ex, ey, hl⟩ := lethalOffFinish_eval Status.finished (by decide)
  have hfin : ¬ InFinish
      (update ratOps (1 / 100) (probe 2785 356 1000 (-616) Status.finished)).hero.x
      (update ratOps (1 / 100) (probe 2785 356 1000 (-616) Status.finished)).hero.y := by
    rw [ex, ey]
    norm_num [InFinish, LEVEL]
  obtain ⟨-, a2, -⟩ := active_status ratOps (1 / 100)
    (probe 2785 356 1000 (-616) Status.finished) rfl (by decide)
  refine ⟨rfl, rfl, ?_, rfl, (a2 hfin).2.1 (Or.inl hl)⟩
  norm_num [InFinish, LEVEL, probe]

/-! ### The torso collision response -/

/-- What `collisionWithPlatforms` reports on a hit: a platform of the list, its
closest point to the query point, the offset from that point to the query point,
and the offset is shorter than the radius. -/
theorem collisionIn_some (ps : List (Rect K)) (x y r : K) (c : Collision K)
    (hc : collisionIn ps x y r = some c) :
    c.platform ∈ ps ∧ c.closest = projectToPlatform x y c.platform ∧
    c.dx = x - c.closest.x ∧ c.dy = y - c.closest.y ∧ c.dx * c.dx + c.dy * c.dy < r * r := by
  induction ps with
  | nil => simp [collisionIn] at hc
  | cons p ps ih =>
    unfold collisionIn at hc
    dsimp only at hc
    split_ifs at hc with h
    · simp only [Option.some.injEq] at hc
      subst hc
      exact ⟨List.mem_cons_self _ _, rfl, rfl, rfl, h⟩
    · obtain ⟨h1, h2⟩ := ih hc
      exact ⟨List.mem_cons_of_mem _ h1, h2⟩

theorem orOne_ne_zero (v : K) : orOne v ≠ 0 := by
  unfold orOne
  split_ifs with h
  · exact one_ne_zero
  · exact h

/-- The normal of lines 283-285 has length one when the offset is not the zero vector
and `Math.hypot` returns its Euclidean length. -/
theorem torsoNormal_unit (m : MathOps K) (c : Collision K) (hne : c.dx ≠ 0 ∨ c.dy ≠ 0)
    (hhyp : m.hypot c.dx c.dy * m.hypot c.dx c.dy = c.dx * c.dx + c.dy * c.dy) :
    (torsoNormal m c).x ^ 2 + (torsoNormal m c).y ^ 2 = 1 := by
  have hpos : 0 < c.dx * c.dx + c.dy * c.dy := by
    rcases hne with h | h
    · have := mul_self_pos.mpr h
      nlinarith [mul_self_nonneg c.dy]
    · have := mul_self_pos.mpr h
      nlinarith [mul_self_nonneg c.dx]
  have hh : m.hypot c.dx c.dy ≠ 0 := by
    intro h0
    rw [h0, mul_zero] at hhyp
    linarith
  have hor : orOne (m.hypot c.dx c.dy) = m.hypot c.dx c.dy := by
    unfold orOne
    rw [if_neg hh]
  unfold torsoNormal
  rw [hor]
  show (c.dx / m.hypot c.dx c.dy) ^ 2 + (c.dy / m.hypot c.dx c.dy) ^ 2 = 1
  rw [div_pow, div_pow, ← add_div, div_eq_one_iff_eq (pow_ne_zero 2 hh)]
  rw [sq, sq, sq, hhyp]

/-- The normal of lines 283-285 is the zero vector when the offset is. -/
theorem torsoNormal_degenerate (m : MathOps K) (c : Collision K) (hx : c.dx = 0) (hy : c.dy = 0) :
    (torsoNormal m c).x = 0 ∧ (torsoNormal m c).y = 0 := by
  unfold torsoNormal
  rw [hx, hy]
  exact ⟨zero_div _, zero_div _⟩

/-- Claim C10 (as amended).  Let `collisionWithPlatforms(x, y, 18)` report a collision
for the body position.  The reported offset is the body position minus the contact
point.  If the offset is not the zero vector (and `Math.hypot` returns its Euclidean
length), the normal used by the response has length 1 and after the response the body
centre lies at Euclidean distance 20 from the contact point (stated with squares).
If the offset is the zero vector (centre inside the platform), the normal is the zero
vector and the response leaves the body centre on the contact point, where it was. -/
theorem C10_positional_correction (m : MathOps K) (s : Sim K) (c : Collision K)
    (hc : collisionWithPlatforms s.hero.x s.hero.y 18 = some c) :
    (c.dx = s.hero.x - c.closest.x ∧ c.dy = s.hero.y - c.closest.y) ∧
    (c.dx ≠ 0 ∨ c.dy ≠ 0 →
      m.hypot c.dx c.dy * m.hypot c.dx c.dy = c.dx * c.dx + c.dy * c.dy →
      (torsoNormal m c).x ^ 2 + (torsoNormal m c).y ^ 2 = 1 ∧
      ((torso m s).hero.x - c.closest.x) ^ 2 + ((torso m s).hero.y - c.closest.y) ^ 2 = 20 ^ 2) ∧
    (c.dx = 0 ∧ c.dy = 0 →
      ((torsoNormal m c).x = 0 ∧ (torsoNormal m c).y = 0) ∧
      ((torso m s).hero.x = c.closest.x ∧ (torso m s).hero.y = c.closest.y) ∧
      ((torso m s).hero.x = s.hero.x ∧ (torso m s).hero.y = s.hero.y)) := by
  obtain ⟨-, -, hdx, hdy, -⟩ := collisionIn_some _ _ _ _ _ hc
  obtain ⟨tx, ty, -⟩ := torso_hit m s c hc
  refine ⟨⟨hdx, hdy⟩, fun hne hhyp => ?_, fun h0 => ?_⟩
  · have hu := torsoNormal_unit m c hne hhyp
    refine ⟨hu, ?_⟩
    rw [tx, ty]
    have e : (c.closest.x + (torsoNormal m c).x * 20 - c.closest.x) ^ 2 +
        (c.closest.y + (torsoNormal m c).y * 20 - c.closest.y) ^ 2 =
        ((torsoNormal m c).x ^ 2 + (torsoNormal m c).y ^ 2) * 20 ^ 2 := by ring
    rw [e, hu, one_mul]
  · obtain ⟨nx, ny⟩ := torsoNormal_degenerate m c h0.1 h0.2
    rw [tx, ty, nx, ny]
    refine ⟨⟨rfl, rfl⟩, ⟨by ring, by ring⟩, ?_, ?_⟩
    · have := h0.1
      rw [hdx] at this
      linarith
    · have := h0.2
      rw [hdy] at this
      linarith

/-- C10 at a body ten pixels above the top of the last platform: the offset is
`(0, -10)`, the normal `(0, -1)`, and the body is moved to `(2700, 340)`. -/
theorem C10_positional_correction_witness :
    collisionWithPlatforms (probe 2700 350 0 0 Status.alive).hero.x
        (probe 2700 350 0 0 Status.alive).hero.y 18 =
      some { platform := { x := 2440, y := 360, w := 360, h := 200 }
             closest := { x := 2700, y := 360 }, dx := 0, dy := -10 } ∧
    ((torso ratOps (probe 2700 350 0 0 Status.alive)).hero.x - 2700) ^ 2 +
      ((torso ratOps (probe 2700 350 0 0 Status.alive)).hero.y - 360) ^ 2 = 20 ^ 2 :=
  ⟨collision_at_2700_350,
    ((C10_positional_correction ratOps (probe 2700 350 0 0 Status.alive) _
      collision_at_2700_350).2.1 (Or.inr (by norm_num)) (by norm_num [ratOps])).2⟩

/-- Claim C10 as stated fails in the degenerate case: for a body centre inside the
second platform the reported offset is the zero vector, the normal used by the
response is the zero vector (length 0, not 1), and the body stays on the contact
point (distance 0, not 20). -/
theorem C10_counterexample :
    collisionWithPlatforms (probe 540 400 0 0 Status.alive).hero.x
        (probe 540 400 0 0 Status.alive).hero.y 18 =
      some { platform := { x := 420, y := 380, w := 180, h := 180 }
             closest := { x := 540, y := 400 }, dx := 0, dy := 0 } ∧
    (torsoNormal ratOps
        { platform := { x := 420, y := 380, w := 180, h := 180 }
          closest := { x := 540, y := 400 }, dx := 0, dy := 0 }).x ^ 2 +
      (torsoNormal ratOps
        { platform := { x := 420, y := 380, w := 180, h := 180 }
          closest := { x := 540, y := 400 }, dx := 0, dy := 0 }).y ^ 2 = 0 ∧
    ((torso ratOps (probe 540 400 0 0 Status.alive)).hero.x - 540) ^ 2 +
      ((torso ratOps (probe 540 400 0 0 Status.alive)).hero.y - 400) ^ 2 = 0 ∧
    ((torso ratOps (probe 540 400 0 0 Status.alive)).hero.x - 540) ^ 2 +
      ((torso ratOps (probe 540 400 0 0 Status.alive)).hero.y - 400) ^ 2 ≠ 20 ^ 2 := by
  have hc : collisionWithPlatforms (probe 540 400 0 0 Status.alive).hero.x
      (probe 540 400 0 0 Status.alive).hero.y 18 =
      some { platform := { x := 420, y := 380, w := 180, h := 180 }
             closest := { x := 540, y := 400 }, dx := 0, dy := 0 } := collision_at_540_400
  obtain ⟨tx, ty, -⟩ := torso_hit ratOps _ _ hc
  obtain ⟨nx, ny⟩ := torsoNormal_degenerate ratOps
    { platform := { x := 420, y := 380, w := 180, h := 180 }
      closest := { x := 540, y := 400 }, dx := 0, dy := 0 } rfl rfl
  rw [tx, ty, nx, ny]
  refine ⟨hc, by norm_num, by norm_num, by norm_num⟩

/-! ### Above the course -/

/-- A circle of radius 18 whose centre is at height `y ≤ 302` meets no platform:
the highest platform top is at 320. -/
theorem no_collision_high (x y : K) (hy : y ≤ 302) : collisionWithPlatforms x y 18 = none := by
  have key : ∀ (p : Rect K), 320 ≤ p.y → 0 ≤ p.h →
      ¬ ((x - (projectToPlatform x y p).x) * (x - (projectToPlatform x y p).x) +
          (y - (projectToPlatform x y p).y) * (y - (projectToPlatform x y p).y) < 18 * 18) := by
    intro p hp hh
    have e : (projectToPlatform x y p).y = p.y := by
      show clamp y p.y (p.y + p.h) = p.y
      unfold clamp
      rw [min_eq_right (by linarith), max_eq_left (by linarith)]
    rw [e]
    nlinarith [mul_self_nonneg (x - (projectToPlatform x y p).x), mul_self_nonneg (y - p.y + 18)]
  unfold collisionWithPlatforms
  simp only [LEVEL, collisionIn]
  rw [if_neg (key _ (by norm_num) (by norm_num)), if_neg (key _ (by norm_num) (by norm_num)),
    if_neg (key _ (by norm_num) (by norm_num)), if_neg (key _ (by norm_num) (by norm_num)),
    if_neg (key _ (by norm_num) (by norm_num)), if_neg (key _ (by norm_num) (by norm_num)),
    if_neg (key _ (by norm_num) (by norm_num)), if_neg (key _ (by norm_num) (by norm_num)),
    if_neg (key _ (by norm_num) (by norm_num)), if_neg (key _ (by norm_num) (by norm_num)),
    if_neg (key _ (by norm_num) (by norm_num))]

/-- No hazard reaches above height 316. -/
theorem hazard_false_high (x y : K) (hy : y ≤ 316) : isInsideHazard x y = false := by
  rw [← Bool.not_eq_true]
  intro h
  simp only [isInsideHazard, LEVEL, List.any_cons, List.any_nil, Bool.or_false, Bool.or_eq_true,
    Bool.and_eq_true, decide_eq_true_eq] at h
  rcases h with h | h | h | h | h <;> linarith [h.1.2]

/-- No hazard reaches left of `x = 520`. -/
theorem hazard_false_left (x y : K) (hx : x ≤ 520) : isInsideHazard x y = false := by
  rw [← Bool.not_eq_true]
  intro h
  simp only [isInsideHazard, LEVEL, List.any_cons, List.any_nil, Bool.or_false, Bool.or_eq_true,
    Bool.and_eq_true, decide_eq_true_eq] at h
  rcases h with h | h | h | h | h <;> linarith [h.1.1.1]

/-- When no test of lines 297-310 succeeds the late phases only move the camera. -/
theorem checks_quiet (m : MathOps K) (tip : Point K) (s : Sim K)
    (hb : isInsideHazard s.hero.x s.hero.y = false) (ht : isInsideHazard tip.x tip.y = false)
    (hf : ¬ s.hero.y > HEIGHT + 240) (hfin : ¬ InFinish s.hero.x s.hero.y) :
    checks m tip s = camera s := by
  have e1 : hazardCheck m tip s = s := by
    unfold hazardCheck
    rw [hb, ht]
    rfl
  have e2 : fallCheck m s = s := by
    unfold fallCheck
    rw [if_neg hf]
  have e3 : finishCheck s = s := by
    unfold finishCheck
    unfold InFinish at hfin
    dsimp only
    rw [if_neg hfin]
  unfold checks
  rw [e1, e2, e3]

/-! ### The free-fall scenario -/

theorem hover_steer (m : MathOps K) (dt : K) (hero : Hero K) (hpi : 0.15 ≤ MAX_ANGLE m)
    (ha : hero.angle = -0.15) (hav : hero.angularVelocity = 0) :
    steer m dt idleKeys hero =
      { hero with vy := hero.vy + GRAVITY * dt, vx := hero.vx * AIR_RESISTANCE } := by
  have h0 : (0 : K) ≤ 0.15 := by norm_num
  have hc : clamp (-0.15 : K) (-MAX_ANGLE m) (MAX_ANGLE m) = -0.15 :=
    clamp_of_mem (by linarith) (by linarith)
  obtain ⟨x, y, vx, vy, angle, av, en, hl, parts, st, dist, time⟩ := hero
  simp only at ha hav
  subst ha hav
  simp [steer, idleKeys, hc]

theorem hover_motion (m : MathOps K) (dt : K) (s : Sim K) (hk : s.keysDown = idleKeys)
    (hdt : 0 ≤ dt) (hsin : m.sin (-0.15) ≤ 0) (hpi : 0.15 ≤ MAX_ANGLE m) (h : Hovering s) :
    Hovering (motion m dt s).1 ∧ (motion m dt s).2.x ≤ 140 := by
  obtain ⟨hy, hvy, ha, hav, hvx, hx, hst, hsc⟩ := h
  have hg : (0 : K) ≤ GRAVITY * dt := mul_nonneg (by norm_num [GRAVITY]) hdt
  rw [motion_eq]
  dsimp only
  rw [hk, hover_steer m dt s.hero hpi ha hav]
  obtain ⟨⟨x, y, vx, vy, angle, av, en, hl, parts, st, dist, time⟩, ⟨sc⟩, keys, cam, status, ft⟩ := s
  simp only at hy hvy ha hav hvx hx hst hsc hk
  subst hy hvy ha hav hst hsc hk
  have hclamp : clamp (0 - dt * 20) 0 (48 : K) = 0 := by
    unfold clamp
    rw [min_eq_right (by linarith), max_eq_left (by linarith)]
  have hvx' : vx * AIR_RESISTANCE ≤ 0 :=
    mul_nonpos_of_nonpos_of_nonneg hvx (by norm_num [AIR_RESISTANCE])
  have hground : ∀ (b : Prop) [Decidable b], ((0 : K) > 0 ∨ b) = b := by
    intro b _
    simp
  by_cases hpos : (0 : K) + GRAVITY * dt > 0
  · have hkick : m.sin (-0.15) * |0 + GRAVITY * dt| * 0.15 ≤ 0 := by
      have : 0 ≤ |0 + GRAVITY * dt| * (0.15 : K) := mul_nonneg (abs_nonneg _) (by norm_num)
      rw [mul_assoc]
      exact mul_nonpos_of_nonpos_of_nonneg hsin this
    have hvx2 : vx * AIR_RESISTANCE + m.sin (-0.15) * |0 + GRAVITY * dt| * 0.15 ≤ 0 := by linarith
    simp only [landing, hpos, spring, idleKeys, integrate, stickTip, Hovering, Pogo.maxCompression,
      Pogo.length, hclamp, and_self, if_true, Bool.false_eq_true, if_false, gt_iff_lt, lt_self_iff_false,
      false_or, zero_mul, add_zero, and_true, true_and]
    refine ⟨⟨hvx2, ?_⟩, ?_⟩
    · nlinarith
    · nlinarith
  · have hz : (0 : K) + GRAVITY * dt = 0 := le_antisymm (not_lt.mp hpos) (by linarith)
    simp only [landing, hpos, spring, idleKeys, integrate, stickTip, Hovering, Pogo.maxCompression,
      Pogo.length, hclamp, and_self, if_true, Bool.false_eq_true, if_false, gt_iff_lt, lt_self_iff_false,
      false_or, zero_mul, add_zero, and_true, true_and, and_false, hz]
    refine ⟨⟨hvx', ?_⟩, ?_⟩
    · nlinarith
    · nlinarith

/-- One frame with no key down keeps the body hovering, and its torso collision query
finds nothing. -/
theorem hover_tick (m : MathOps K) (dt : K) (s : Sim K) (hdt : 0 ≤ dt)
    (hsin : m.sin (-0.15) ≤ 0) (hpi : 0.15 ≤ MAX_ANGLE m) (h : Hovering s) :
    Hovering (tick m s (idleKeys, dt)) ∧
    collisionWithPlatforms
      (motion m dt (advanceClock dt { s with keysDown := idleKeys })).1.hero.x
      (motion m dt (advanceClock dt { s with keysDown := idleKeys })).1.hero.y 18 = none := by
  have hs : ({ s with keysDown := idleKeys } : Sim K).hero.state ≠ Status.ragdoll := by
    show s.hero.state ≠ Status.ragdoll
    rw [h.2.2.2.2.2.2.1]
    decide
  obtain ⟨hov, htip⟩ := hover_motion m dt (advanceClock dt { s with keysDown := idleKeys }) rfl hdt
    hsin hpi h
  have hnc := no_collision_high
    (motion m dt (advanceClock dt { s with keysDown := idleKeys })).1.hero.x
    (motion m dt (advanceClock dt { s with keysDown := idleKeys })).1.hero.y
    (by rw [hov.1]; norm_num)
  refine ⟨?_, hnc⟩
  show Hovering (update m dt { s with keysDown := idleKeys })
  rw [update_active m dt _ rfl hs, torso_of_none m _ hnc, checks_quiet]
  · exact hov
  · exact hazard_false_high _ _ (by rw [hov.1]; norm_num)
  · exact hazard_false_left _ _ (by linarith)
  · rw [hov.1]
    norm_num [HEIGHT]
  · unfold InFinish
    simp only [LEVEL]
    intro hf
    linarith [hf.1, hov.2.2.2.2.2.1]

theorem run_snoc (m : MathOps K) (s : Sim K) (inputs : List (Keys × K)) (input : Keys × K) :
    run m s (inputs ++ [input]) = tick m (run m s inputs) input := by
  unfold run
  rw [List.foldl_append]
  rfl

theorem hover_run (m : MathOps K) (dt : K) (hdt : 0 ≤ dt) (hsin : m.sin (-0.15) ≤ 0)
    (hpi : 0.15 ≤ MAX_ANGLE m) (n : ℕ) :
    Hovering (run m (initial : Sim K) (List.replicate n (idleKeys, dt))) := by
  induction n with
  | zero =>
    show Hovering (initial : Sim K)
    unfold Hovering
    simp [initial, spawnHero, LEVEL]
  | succ k ih =>
    rw [List.replicate_succ', run_snoc]
    exact (hover_tick m dt _ hdt hsin hpi ih).1

/-- Claim C7 fails on the code.  From the initial state, with no key down and any
fixed `dt ≥ 0`, after every number `n` of frames the body is still at its spawn
height `y = 260` with `vy = 0` and alive, and the torso collision query of the next
frame reports no collision: the body never moves downward and never reaches the
platform below it.  The hypotheses say that `Math.sin(-0.15) ≤ 0` and that the spawn
tilt is within `MAX_ANGLE`. -/
theorem C7_free_fall_never_happens (m : MathOps K) (dt : K) (hdt : 0 ≤ dt)
    (hsin : m.sin (-0.15) ≤ 0) (hpi : 0.15 ≤ MAX_ANGLE m) (n : ℕ) :
    (run m (initial : Sim K) (List.replicate n (idleKeys, dt))).hero.y = 260 ∧
    (run m (initial : Sim K) (List.replicate n (idleKeys, dt))).hero.vy = 0 ∧
    (run m (initial : Sim K) (List.replicate n (idleKeys, dt))).hero.state = Status.alive ∧
    collisionWithPlatforms
      (motion m dt (advanceClock dt
        { run m (initial : Sim K) (List.replicate n (idleKeys, dt)) with
          keysDown := idleKeys })).1.hero.x
      (motion m dt (advanceClock dt
        { run m (initial : Sim K) (List.replicate n (idleKeys, dt)) with
          keysDown := idleKeys })).1.hero.y 18 = none := by
  have h := hover_run m dt hdt hsin hpi n
  exact ⟨h.1, h.2.1, h.2.2.2.2.2.2.1, (hover_tick m dt _ hdt hsin hpi h).2⟩

/-- C7 evaluated for ten seconds of frames at 60 Hz with the rational `Math`
stand-ins: the body is still at `y = 260`. -/
theorem C7_free_fall_never_happens_witness :
    (0 : ℚ) ≤ 1 / 60 ∧ ratOps.sin (-0.15) ≤ 0 ∧ (0.15 : ℚ) ≤ MAX_ANGLE ratOps ∧
    (run ratOps (initial : Sim ℚ) (List.replicate 600 (idleKeys, 1 / 60))).hero.y = 260 :=
  ⟨by norm_num, by norm_num [ratOps], by norm_num [MAX_ANGLE, ratOps],
    (C7_free_fall_never_happens ratOps (1 / 60) (by norm_num) (by norm_num [ratOps])
      (by norm_num [MAX_ANGLE, ratOps]) 600).1⟩

/-! ### Charge and release -/

theorem update_bounds_noRestart (m : MathOps K) (dt : K) (s : Sim K)
    (hR : s.keysDown.KeyR = false) (h : Bounds m s) : Bounds m (update m dt s) := by
  by_cases hs : s.hero.state = Status.ragdoll
  · rw [update_ragdoll m dt s hR hs]
    exact h
  · rw [update_active m dt s hR hs]
    obtain ⟨e, a, p, -⟩ := late_frame m (motion m dt (advanceClock dt s)).2
      (motion m dt (advanceClock dt s)).1
    exact bounds_congr m e a p (motion_bounds m dt _ h)

theorem run_bounds (m : MathOps K) (inputs : List (Keys × K)) (s : Sim K)
    (hR : ∀ c ∈ inputs, c.1.KeyR = false) (h : Bounds m s) : Bounds m (run m s inputs) := by
  induction inputs generalizing s with
  | nil => exact h
  | cons c cs ih =>
    show Bounds m (run m (tick m s c) cs)
    apply ih
    · exact fun c' hc' => hR c' (List.mem_cons_of_mem _ hc')
    · exact update_bounds_noRestart m c.2 _ (hR c (List.mem_cons_self _ _)) h

/-- The fields of the state at the torso collision query which the spring branches
decide. -/
theorem motion_spring (m : MathOps K) (dt : K) (s : Sim K) :
    (motion m dt s).1.pogo = (spring m dt 0 { s with hero := beforeSpring m dt s }).pogo ∧
    (motion m dt s).1.hero.vy = (spring m dt 0 { s with hero := beforeSpring m dt s }).hero.vy ∧
    (motion m dt s).1.hero.energy =
      (spring m dt 0 { s with hero := beforeSpring m dt s }).hero.energy := by
  rw [motion_eq]
  exact ⟨rfl, rfl, rfl⟩

theorem beforeSpring_frame (m : MathOps K) (dt : K) (s : Sim K)
    (ha : -MAX_ANGLE m ≤ MAX_ANGLE m) :
    (beforeSpring m dt s).energy = s.hero.energy ∧ (beforeSpring m dt s).vy ≤ 0 ∧
    (-MAX_ANGLE m ≤ (beforeSpring m dt s).angle ∧ (beforeSpring m dt s).angle ≤ MAX_ANGLE m) := by
  unfold beforeSpring
  rw [(landing_frame m true _).1, (landing_frame m true _).2.1, (steer_frame m dt _ _).1]
  exact ⟨rfl, landing_vy_nonpos m _, steer_angle_mem m dt _ _ ha⟩

/-- The hold-charge branch, lines 260-261. -/
theorem spring_charge (m : MathOps K) (dt c : K) (s : Sim K) (hk : s.keysDown.Space = true) :
    (spring m dt c s).pogo.springCompression =
      clamp (s.pogo.springCompression + dt * 60) 0 s.pogo.maxCompression ∧
    (spring m dt c s).hero.energy = clamp (s.hero.energy + dt * 0.9) 0 1.2 := by
  unfold spring
  dsimp only
  rw [if_pos hk]
  exact ⟨rfl, rfl⟩

/-- The release branch, lines 263-268, entered through stored compression. -/
theorem spring_release (m : MathOps K) (dt : K) (s : Sim K) (hk : s.keysDown.Space = false)
    (hsc : 0 < s.pogo.springCompression) :
    (spring m dt 0 s).pogo.springCompression = 0 ∧
    (spring m dt 0 s).hero.energy = clamp (s.hero.energy - 0.3) 0.4 1.2 ∧
    (spring m dt 0 s).hero.vy =
      s.hero.vy - m.cos s.hero.angle * (releaseForce dt s.pogo s.hero.energy / s.pogo.mass) := by
  unfold spring
  dsimp only
  rw [if_neg (by simp [hk]), if_pos (Or.inl hsc)]
  exact ⟨rfl, rfl, rfl⟩

theorem checks_kinematics (m : MathOps K) (tip : Point K) (s : Sim K) :
    (checks m tip s).hero.x = s.hero.x ∧ (checks m tip s).hero.y = s.hero.y ∧
    (checks m tip s).hero.vx = s.hero.vx ∧ (checks m tip s).hero.vy = s.hero.vy := by
  unfold checks
  obtain ⟨-, -, -, -, -, h6, h7, h8, h9, -⟩ := hazardCheck_frame m tip s
  obtain ⟨-, -, -, -, -, f6, f7, f8, f9, -⟩ := fallCheck_frame m (hazardCheck m tip s)
  obtain ⟨-, -, -, -, -, g6, g7, g8, g9, -⟩ := finishCheck_frame (fallCheck m (hazardCheck m tip s))
  rw [(camera_frame _).1, g6, g7, g8, g9, f6, f7, f8, f9, h6, h7, h8, h9]
  exact ⟨rfl, rfl, rfl, rfl⟩

/-- After a charging frame (charge key down, no restart, `dt > 0`) from a bounded
state which is not ragdoll, compression and energy are positive. -/
theorem charge_tick (m : MathOps K) (s : Sim K) (c : Keys × K) (hb : Bounds m s)
    (hs : s.hero.state ≠ Status.ragdoll) (hk : c.1.Space = true) (hR : c.1.KeyR = false)
    (hdt : 0 < c.2) :
    0 < (tick m s c).pogo.springCompression ∧ 0 < (tick m s c).hero.energy := by
  show 0 < (update m c.2 { s with keysDown := c.1 }).pogo.springCompression ∧
    0 < (update m c.2 { s with keysDown := c.1 }).hero.energy
  rw [update_active m c.2 { s with keysDown := c.1 } hR hs]
  obtain ⟨e, -, p, -⟩ := late_frame m (motion m c.2 (advanceClock c.2 { s with keysDown := c.1 })).2
    (motion m c.2 (advanceClock c.2 { s with keysDown := c.1 })).1
  obtain ⟨mp, -, me⟩ := motion_spring m c.2 (advanceClock c.2 { s with keysDown := c.1 })
  obtain ⟨c1, c2⟩ := spring_charge m c.2 0
    { advanceClock c.2 { s with keysDown := c.1 } with
      hero := beforeSpring m c.2 (advanceClock c.2 { s with keysDown := c.1 }) } hk
  obtain ⟨be, -, -⟩ := beforeSpring_frame m c.2 (advanceClock c.2 { s with keysDown := c.1 })
    (le_trans hb.2.2.1 hb.2.2.2)
  rw [e, p, mp, me, c1, c2]
  have h60 : 0 < c.2 * 60 := by linarith
  have h09 : 0 < c.2 * 0.9 := mul_pos hdt (by norm_num)
  have hsc : 0 ≤ s.pogo.springCompression := hb.2.1.1
  have hen : 0 ≤ s.hero.energy := hb.1.1
  constructor
  · unfold clamp
    exact lt_max_of_lt_right (lt_min (by norm_num [Pogo.maxCompression])
      (by show 0 < s.pogo.springCompression + c.2 * 60; linarith))
  · unfold clamp
    refine lt_max_of_lt_right (lt_min (by norm_num) ?_)
    show 0 < (beforeSpring m c.2 (advanceClock c.2 { s with keysDown := c.1 })).energy + c.2 * 0.9
    rw [be]
    show 0 < s.hero.energy + c.2 * 0.9
    linarith

theorem camera_charged (y sc e t : ℚ) (keys : Keys) :
    camera (charged y sc e t keys) = charged y sc e t keys := by
  have h : clamp ((2000 : ℚ) - WIDTH / 2) 0 99999 = 1520 := by norm_num [clamp, WIDTH]
  show ({ charged y sc e t keys with cameraX := clamp ((2000 : ℚ) - WIDTH / 2) 0 99999 } : Sim ℚ) = _
  rw [h]
  rfl

/-- A charging frame of 40 ms at `(2000, y)`, away from the platforms. -/
theorem charged_charge (y sc e t : ℚ) (hy : collisionWithPlatforms 2000 y 18 = none)
    (hfall : y ≤ 780) (hsc : 0 ≤ sc ∧ sc + 12 / 5 ≤ 48) (he : 0 ≤ e ∧ e + 9 / 250 ≤ 6 / 5) :
    update ratOps (1 / 25) (charged y sc e t spaceKeys) =
      charged y (sc + 12 / 5) (e + 9 / 250) (t + 1 / 25) spaceKeys := by
  have hm : motion ratOps (1 / 25) (advanceClock (1 / 25) (charged y sc e t spaceKeys)) =
      (charged y (sc + 12 / 5) (e + 9 / 250) (t + 1 / 25) spaceKeys, { x := 2000, y := y + 82 }) := by
    rw [motion_eq]
    have e1 : min 48 (sc + 12 / 5) = sc + 12 / 5 := min_eq_right hsc.2
    have e2 : max 0 (sc + 12 / 5) = sc + 12 / 5 := max_eq_right (by linarith)
    have e3 : min (6 / 5) (e + 9 / 250) = e + 9 / 250 := min_eq_right he.2
    have e4 : max 0 (e + 9 / 250) = e + 9 / 250 := max_eq_right (by linarith)
    norm_num [advanceClock, charged, spaceKeys, steer, landing, spring, integrate, stickTip, ratOps,
      clamp, MAX_ANGLE, GRAVITY, AIR_RESISTANCE, ANGLE_DAMPING, Pogo.length, Pogo.maxCompression,
      LEVEL, e1, e2, e3, e4]
  rw [update_active ratOps _ _ rfl (by show Status.alive ≠ Status.ragdoll; decide), hm]
  dsimp only
  rw [torso_of_none ratOps (charged y (sc + 12 / 5) (e + 9 / 250) (t + 1 / 25) spaceKeys) hy,
    checks_quiet]
  · exact camera_charged _ _ _ _ _
  · norm_num [isInsideHazard, LEVEL, charged]
  · norm_num [isInsideHazard, LEVEL]
  · show ¬ y > HEIGHT + 240
    norm_num [HEIGHT]
    exact hfall
  · norm_num [InFinish, LEVEL, charged]

/-- The release frame of 40 ms at `(2000, y)` up to the torso collision query. -/
theorem charged_release_motion (y sc e t : ℚ) (hsc : 0 < sc)
    (he : 2 / 5 ≤ e - 3 / 10 ∧ e - 3 / 10 ≤ 6 / 5) :
    motion ratOps (1 / 25) (advanceClock (1 / 25) (charged y sc e t idleKeys)) =
      ({ charged y 0 (e - 3 / 10) (t + 1 / 25) idleKeys with
          hero := { (charged y 0 (e - 3 / 10) (t + 1 / 25) idleKeys).hero with
            y := y - sc * e * (6 / 5) * (1 / 25)
            vy := -(sc * e * (6 / 5)) } },
        { x := 2000, y := y + 82 }) := by
  rw [motion_eq]
  have e1 : min (6 / 5) (e - 3 / 10) = e - 3 / 10 := min_eq_right he.2
  have e2 : max (2 / 5) (e - 3 / 10) = e - 3 / 10 := max_eq_right he.1
  norm_num [advanceClock, charged, idleKeys, steer, landing, spring, integrate, stickTip, ratOps,
    clamp, MAX_ANGLE, GRAVITY, AIR_RESISTANCE, ANGLE_DAMPING, Pogo.length, Pogo.maxCompression,
    Pogo.springStrength, Pogo.mass, LEVEL, e1, e2, hsc]
  constructor <;> ring

/-- Just below the bottom of the ninth platform. -/
theorem collision_below_ninth :
    collisionWithPlatforms (2000 : ℚ) (90309477 / 156250) 18 =
      some { platform := { x := 1820, y := 360, w := 300, h := 200 }
             closest := { x := 2000, y := 560 }, dx := 0, dy := 2809477 / 156250 } := by
  norm_num [collisionWithPlatforms, collisionIn, projectToPlatform, clamp, LEVEL, max_def, min_def]

/-- A tenth of a pixel further down there is no contact. -/
theorem no_collision_below_ninth : collisionWithPlatforms (2000 : ℚ) (5781 / 10) 18 = none := by
  norm_num [collisionWithPlatforms, collisionIn, projectToPlatform, clamp, LEVEL, max_def, min_def]

theorem no_collision_rest_ninth : collisionWithPlatforms (2000 : ℚ) 340 18 = none := by
  norm_num [collisionWithPlatforms, collisionIn, projectToPlatform, clamp, LEVEL, max_def, min_def]

/-- The Taylor polynomial standing in for `Math.cos` is positive on the tilt range. -/
theorem ratOps_cos_pos (a : ℚ) (h1 : -MAX_ANGLE ratOps ≤ a) (h2 : a ≤ MAX_ANGLE ratOps) :
    0 < ratOps.cos a := by
  have hM : MAX_ANGLE ratOps ≤ 143 / 100 := by norm_num [MAX_ANGLE, ratOps]
  have hu : a ^ 2 ≤ (143 / 100) ^ 2 := by
    apply sq_le_sq'
    · linarith
    · linarith
  show 0 < 1 - a ^ 2 / 2 + a ^ 4 / 24
  nlinarith [sq_nonneg (a ^ 2 - 6), sq_nonneg a]

/-- The concrete charging frame used below leaves the body where it was. -/
theorem charge_below_ninth :
    tick ratOps (charged (5781 / 10) 0 1 0 idleKeys) (spaceKeys, 1 / 25) =
      charged (5781 / 10) (12 / 5) (259 / 250) (1 / 25) spaceKeys := by
  have h := charged_charge (5781 / 10) 0 1 0 no_collision_below_ninth (by norm_num)
    ⟨le_rfl, by norm_num⟩ ⟨by norm_num, by norm_num⟩
  have e1 : (0 : ℚ) + 12 / 5 = 12 / 5 := by norm_num
  have e2 : (1 : ℚ) + 9 / 250 = 259 / 250 := by norm_num
  have e3 : (0 : ℚ) + 1 / 25 = 1 / 25 := by norm_num
  rw [e1, e2, e3] at h
  exact h

/-- The release frame after `charge_below_ninth`: the body rises into the bottom of
the ninth platform and the torso response cancels its vertical velocity. -/
theorem release_below_ninth :
    (tick ratOps (charged (5781 / 10) (12 / 5) (259 / 250) (1 / 25) spaceKeys)
      (idleKeys, 1 / 25)).hero.vy = 0 := by
  show (update ratOps (1 / 25)
    (charged (5781 / 10) (12 / 5) (259 / 250) (1 / 25) idleKeys)).hero.vy = 0
  have hm := charged_release_motion (5781 / 10) (12 / 5) (259 / 250) (1 / 25) (by norm_num)
    ⟨by norm_num, by norm_num⟩
  have ey : (5781 / 10 : ℚ) - 12 / 5 * (259 / 250) * (6 / 5) * (1 / 25) = 90309477 / 156250 := by
    norm_num
  have hc : collisionWithPlatforms
      (motion ratOps (1 / 25) (advanceClock (1 / 25)
        (charged (5781 / 10) (12 / 5) (259 / 250) (1 / 25) idleKeys))).1.hero.x
      (motion ratOps (1 / 25) (advanceClock (1 / 25)
        (charged (5781 / 10) (12 / 5) (259 / 250) (1 / 25) idleKeys))).1.hero.y 18 =
      some { platform := { x := 1820, y := 360, w := 300, h := 200 }
             closest := { x := 2000, y := 560 }, dx := 0, dy := 2809477 / 156250 } := by
    rw [hm]
    show collisionWithPlatforms (2000 : ℚ)
      (5781 / 10 - 12 / 5 * (259 / 250) * (6 / 5) * (1 / 25)) 18 = _
    rw [ey]
    exact collision_below_ninth
  obtain ⟨-, -, -, tvy, -⟩ := torso_hit ratOps _ _ hc
  rw [update_active ratOps _ _ rfl (by show Status.alive ≠ Status.ragdoll; decide),
    (checks_kinematics ratOps _ _).2.2.2, tvy]
  have habs : |(2809477 / 156250 : ℚ)| = 2809477 / 156250 := abs_of_pos (by norm_num)
  have hnx : (torsoNormal ratOps
      { platform := { x := 1820, y := 360, w := 300, h := 200 }
        closest := { x := 2000, y := 560 }, dx := 0, dy := 2809477 / 156250 }).x = 0 := by
    norm_num [torsoNormal]
  have hny : (torsoNormal ratOps
      { platform := { x := 1820, y := 360, w := 300, h := 200 }
        closest := { x := 2000, y := 560 }, dx := 0, dy := 2809477 / 156250 }).y = 1 := by
    norm_num [torsoNormal, orOne, ratOps, habs]
  unfold torsoImpact
  rw [hnx, hny]
  ring

/-- Claim C8 (as amended).  Start from a bounded state.  Run one or more charging
frames (charge key down, no restart, `dt > 0`) such that the status is not ragdoll
before the first and after each of them, then one release frame (charge key up, no
restart, `dt > 0`).  Then the stored compression before the release frame is
positive and after it is 0; the energy after it is `clamp(energy - 0.3, 0.4, 1.2)`;
the release branch lowers `vy` by `cos(angle) * releaseForce / mass > 0`, so `vy` is
negative when the torso collision query of the release frame is made; and it is
still that value at the end of the frame when that query reports no collision.  The
hypothesis on `Math.cos` says that it is positive on `[-MAX_ANGLE, MAX_ANGLE]`. -/
theorem C8_charge_then_release (m : MathOps K) (s : Sim K) (charges : List (Keys × K))
    (rel : Keys × K) (hb : Bounds m s) (hne : charges ≠ [])
    (hch : ∀ c ∈ charges, c.1.Space = true ∧ c.1.KeyR = false ∧ 0 < c.2)
    (hlive : ∀ k ≤ charges.length, (run m s (charges.take k)).hero.state ≠ Status.ragdoll)
    (hrel : rel.1.Space = false ∧ rel.1.KeyR = false ∧ 0 < rel.2)
    (hcos : ∀ a, -MAX_ANGLE m ≤ a → a ≤ MAX_ANGLE m → 0 < m.cos a) :
    0 < (run m s charges).pogo.springCompression ∧
    (tick m (run m s charges) rel).pogo.springCompression = 0 ∧
    (tick m (run m s charges) rel).hero.energy =
      clamp ((run m s charges).hero.energy - 0.3) 0.4 1.2 ∧
    0 < m.cos (beforeSpring m rel.2
          (advanceClock rel.2 { run m s charges with keysDown := rel.1 })).angle *
        (releaseForce rel.2 (run m s charges).pogo (run m s charges).hero.energy /
          (run m s charges).pogo.mass) ∧
    (motion m rel.2 (advanceClock rel.2 { run m s charges with keysDown := rel.1 })).1.hero.vy =
      (beforeSpring m rel.2 (advanceClock rel.2 { run m s charges with keysDown := rel.1 })).vy -
        m.cos (beforeSpring m rel.2
          (advanceClock rel.2 { run m s charges with keysDown := rel.1 })).angle *
        (releaseForce rel.2 (run m s charges).pogo (run m s charges).hero.energy /
          (run m s charges).pogo.mass) ∧
    (motion m rel.2 (advanceClock rel.2 { run m s charges with keysDown := rel.1 })).1.hero.vy < 0 ∧
    (collisionWithPlatforms
        (motion m rel.2 (advanceClock rel.2 { run m s charges with keysDown := rel.1 })).1.hero.x
        (motion m rel.2 (advanceClock rel.2 { run m s charges with keysDown := rel.1 })).1.hero.y
        18 = none →
      (tick m (run m s charges) rel).hero.vy =
        (motion m rel.2
          (advanceClock rel.2 { run m s charges with keysDown := rel.1 })).1.hero.vy) := by
  -- the state before the last charging frame
  have hsplit : charges = charges.dropLast ++ [charges.getLast hne] :=
    (List.dropLast_append_getLast hne).symm
  have hmid_b : Bounds m (run m s charges.dropLast) :=
    run_bounds m _ s (fun c hc => (hch c (List.mem_of_mem_dropLast hc)).2.1) hb
  have hmid_s : (run m s charges.dropLast).hero.state ≠ Status.ragdoll := by
    have := hlive (charges.length - 1) (Nat.sub_le _ _)
    rwa [← List.dropLast_eq_take] at this
  have hlast := hch _ (List.getLast_mem hne)
  have hrun : run m s charges = tick m (run m s charges.dropLast) (charges.getLast hne) := by
    conv_lhs => rw [hsplit]
    exact run_snoc m s _ _
  -- the state before the release frame
  have h1_b : Bounds m (run m s charges) := run_bounds m _ s (fun c hc => (hch c hc).2.1) hb
  have h1_s : (run m s charges).hero.state ≠ Status.ragdoll := by
    have := hlive charges.length le_rfl
    rwa [List.take_length] at this
  obtain ⟨hsc, hen⟩ : 0 < (run m s charges).pogo.springCompression ∧
      0 < (run m s charges).hero.energy := by
    rw [hrun]
    exact charge_tick m _ _ hmid_b hmid_s hlast.1 hlast.2.1 hlast.2.2
  generalize run m s charges = s₁ at *
  -- the release frame
  obtain ⟨be, bvy, bang⟩ := beforeSpring_frame m rel.2 (advanceClock rel.2 { s₁ with keysDown := rel.1 })
    (le_trans h1_b.2.2.1 h1_b.2.2.2)
  obtain ⟨mp, mvy, me⟩ := motion_spring m rel.2 (advanceClock rel.2 { s₁ with keysDown := rel.1 })
  obtain ⟨r1, r2, r3⟩ := spring_release m rel.2
    { advanceClock rel.2 { s₁ with keysDown := rel.1 } with
      hero := beforeSpring m rel.2 (advanceClock rel.2 { s₁ with keysDown := rel.1 }) } hrel.1 hsc
  have hF : 0 < releaseForce rel.2 s₁.pogo s₁.hero.energy / s₁.pogo.mass := by
    unfold releaseForce
    simp only [Pogo.springStrength, Pogo.mass, abs_zero, add_zero]
    have h06 : (0 : K) < 0.6 := by norm_num
    have := hrel.2.2
    positivity
  have hdrop : 0 < m.cos (beforeSpring m rel.2
      (advanceClock rel.2 { s₁ with keysDown := rel.1 })).angle *
      (releaseForce rel.2 s₁.pogo s₁.hero.energy / s₁.pogo.mass) :=
    mul_pos (hcos _ bang.1 bang.2) hF
  have hvy : (motion m rel.2 (advanceClock rel.2 { s₁ with keysDown := rel.1 })).1.hero.vy =
      (beforeSpring m rel.2 (advanceClock rel.2 { s₁ with keysDown := rel.1 })).vy -
        m.cos (beforeSpring m rel.2 (advanceClock rel.2 { s₁ with keysDown := rel.1 })).angle *
        (releaseForce rel.2 s₁.pogo s₁.hero.energy / s₁.pogo.mass) := by
    rw [mvy, r3]
    show _ - _ * (releaseForce rel.2 s₁.pogo
      (beforeSpring m rel.2 (advanceClock rel.2 { s₁ with keysDown := rel.1 })).energy / _) = _
    rw [be]
    rfl
  have hupd : tick m s₁ rel =
      checks m (motion m rel.2 (advanceClock rel.2 { s₁ with keysDown := rel.1 })).2
        (torso m (motion m rel.2 (advanceClock rel.2 { s₁ with keysDown := rel.1 })).1) :=
    update_active m rel.2 { s₁ with keysDown := rel.1 } hrel.2.1 h1_s
  obtain ⟨le, -, lp, -⟩ := late_frame m
    (motion m rel.2 (advanceClock rel.2 { s₁ with keysDown := rel.1 })).2
    (motion m rel.2 (advanceClock rel.2 { s₁ with keysDown := rel.1 })).1
  refine ⟨hsc, ?_, ?_, hdrop, hvy, ?_, ?_⟩
  · rw [hupd, lp, mp, r1]
  · rw [hupd, le, me, r2]
    show clamp ((beforeSpring m rel.2 (advanceClock rel.2 { s₁ with keysDown := rel.1 })).energy
      - 0.3) 0.4 1.2 = _
    rw [be]
    rfl
  · rw [hvy]
    linarith
  · intro hnc
    rw [hupd, (checks_kinematics m _ _).2.2.2, torso_of_none m _ hnc]

/-- The charging frame of the witness of C8: the body rests on the ninth platform. -/
theorem charge_on_ninth :
    tick ratOps (charged 340 0 1 0 idleKeys) (spaceKeys, 1 / 25) =
      charged 340 (0 + 12 / 5) (1 + 9 / 250) (0 + 1 / 25) spaceKeys :=
  charged_charge 340 0 1 0 no_collision_rest_ninth (by norm_num) ⟨le_rfl, by norm_num⟩
    ⟨by norm_num, by norm_num⟩

/-- C8 for one charging frame and one release frame of 40 ms of a body resting on
the ninth platform. -/
theorem C8_charge_then_release_witness :
    0 < (run ratOps (charged 340 0 1 0 idleKeys) [(spaceKeys, 1 / 25)]).pogo.springCompression ∧
    (tick ratOps (run ratOps (charged 340 0 1 0 idleKeys) [(spaceKeys, 1 / 25)])
      (idleKeys, 1 / 25)).pogo.springCompression = 0 ∧
    (motion ratOps (1 / 25) (advanceClock (1 / 25)
      { run ratOps (charged 340 0 1 0 idleKeys) [(spaceKeys, 1 / 25)] with
        keysDown := idleKeys })).1.hero.vy < 0 := by
  have h := C8_charge_then_release ratOps (charged 340 0 1 0 idleKeys) [(spaceKeys, 1 / 25)]
    (idleKeys, 1 / 25)
    (by norm_num [Bounds, charged, MAX_ANGLE, ratOps, Pogo.maxCompression])
    (by simp)
    (by
      intro c hc
      rw [List.mem_singleton] at hc
      subst hc
      exact ⟨rfl, rfl, by norm_num⟩)
    (by
      intro k hk
      have hk' : k = 0 ∨ k = 1 := by
        simp only [List.length_singleton] at hk
        omega
      rcases hk' with rfl | rfl
      · show Status.alive ≠ Status.ragdoll
        decide
      · show (tick ratOps (charged 340 0 1 0 idleKeys) (spaceKeys, 1 / 25)).hero.state ≠
          Status.ragdoll
        rw [charge_on_ninth]
        show Status.alive ≠ Status.ragdoll
        decide)
    ⟨rfl, rfl, by norm_num⟩ ratOps_cos_pos
  exact ⟨h.1, h.2.1, h.2.2.2.2.2.1⟩

/-- Claim C8 as stated fails.  First part: a bounded alive body at rest just below
the ninth platform is charged for one frame of 40 ms (it stays alive, compression
2.4) and released for one frame of 40 ms; the release velocity carries it into the
platform, the torso response cancels it, and `vy` after the release frame is 0, not
negative.  Second part: a charging frame from the initial state with the restart key
down too only restarts, so the stored compression before a release frame is 0. -/
theorem C8_counterexample :
    (Bounds ratOps (charged (5781 / 10) 0 1 0 idleKeys) ∧
      (charged (5781 / 10) 0 1 0 idleKeys).hero.state = Status.alive ∧
      (tick ratOps (charged (5781 / 10) 0 1 0 idleKeys) (spaceKeys, 1 / 25)).hero.state =
        Status.alive ∧
      0 < (tick ratOps (charged (5781 / 10) 0 1 0 idleKeys)
        (spaceKeys, 1 / 25)).pogo.springCompression ∧
      (tick ratOps (tick ratOps (charged (5781 / 10) 0 1 0 idleKeys) (spaceKeys, 1 / 25))
        (idleKeys, 1 / 25)).hero.vy = 0) ∧
    (Bounds ratOps (initial : Sim ℚ) ∧
      (tick ratOps (initial : Sim ℚ) (spaceRestartKeys, 1 / 25)).hero.state = Status.alive ∧
      (tick ratOps (initial : Sim ℚ) (spaceRestartKeys, 1 / 25)).pogo.springCompression = 0) := by
  refine ⟨⟨?_, rfl, ?_, ?_, ?_⟩, ?_, ?_, ?_⟩
  · norm_num [Bounds, charged, MAX_ANGLE, ratOps, Pogo.maxCompression]
  · rw [charge_below_ninth]
    rfl
  · rw [charge_below_ninth]
    show (0 : ℚ) < 12 / 5
    norm_num
  · rw [charge_below_ninth]
    exact release_below_ninth
  · exact spawn_bounds ratOps (by norm_num [MAX_ANGLE, ratOps]) _
      ⟨le_rfl, by norm_num [initial, Pogo.maxCompression]⟩ rfl rfl
  · show (update ratOps (1 / 25) { (initial : Sim ℚ) with keysDown := spaceRestartKeys }).hero.state
      = Status.alive
    rw [update_restart ratOps _ _ rfl]
    rfl
  · show (update ratOps (1 / 25)
      { (initial : Sim ℚ) with keysDown := spaceRestartKeys }).pogo.springCompression = 0
    rw [update_restart ratOps _ _ rfl]
    rfl

/-! ### The platform query -/

theorem collisionIn_none_iff (ps : List (Rect K)) (x y r : K) :
    collisionIn ps x y r = none ↔ ∀ p ∈ ps, ¬ sqDist x y p < r * r := by
  induction ps with
  | nil => simp [collisionIn]
  | cons p ps ih =>
    unfold collisionIn
    dsimp only
    by_cases h : sqDist x y p < r * r
    · have h' := h
      unfold sqDist at h'
      rw [if_pos h']
      simp only [List.mem_cons, forall_eq_or_imp, false_iff, not_and, reduceCtorEq]
      exact fun hn => absurd h hn
    · have h' := h
      unfold sqDist at h'
      rw [if_neg h', ih]
      simp only [List.mem_cons, forall_eq_or_imp]
      exact ⟨fun hq => ⟨h, hq⟩, fun hq => hq.2⟩

theorem collisionIn_some_iff (ps : List (Rect K)) (x y r : K) (c : Collision K) :
    collisionIn ps x y r = some c ↔
      ∃ before after, ps = before ++ c.platform :: after ∧
        (∀ q ∈ before, ¬ sqDist x y q < r * r) ∧ sqDist x y c.platform < r * r ∧
        c.closest = projectToPlatform x y c.platform ∧
        c.dx = x - c.closest.x ∧ c.dy = y - c.closest.y := by
  induction ps with
  | nil => simp [collisionIn]
  | cons p ps ih =>
    unfold collisionIn
    dsimp only
    by_cases h : sqDist x y p < r * r
    · have h' := h
      unfold sqDist at h'
      rw [if_pos h']
      constructor
      · intro hc
        simp only [Option.some.injEq] at hc
        subst hc
        exact ⟨[], ps, rfl, by simp, h, rfl, rfl, rfl⟩
      · rintro ⟨before, after, hsplit, hb, hhit, hcl, hdx, hdy⟩
        cases before with
        | nil =>
          simp only [List.nil_append, List.cons.injEq] at hsplit
          obtain ⟨hp, -⟩ := hsplit
          obtain ⟨cp, cc, cdx, cdy⟩ := c
          simp only at hp hcl hdx hdy
          subst hp
          subst hcl
          subst hdx hdy
          rfl
        | cons b bs =>
          simp only [List.cons_append, List.cons.injEq] at hsplit
          obtain ⟨hp, -⟩ := hsplit
          subst hp
          exact absurd h (hb _ (List.mem_cons_self _ _))
    · have h' := h
      unfold sqDist at h'
      rw [if_neg h', ih]
      constructor
      · rintro ⟨before, after, hsplit, hb, rest⟩
        refine ⟨p :: before, after, by rw [hsplit]; rfl, ?_, rest⟩
        intro q hq
        rcases List.mem_cons.mp hq with rfl | hq
        · exact h
        · exact hb q hq
      · rintro ⟨before, after, hsplit, hb, hhit, rest⟩
        cases before with
        | nil =>
          simp only [List.nil_append, List.cons.injEq] at hsplit
          obtain ⟨hp, -⟩ := hsplit
          subst hp
          exact absurd hhit h
        | cons b bs =>
          simp only [List.cons_append, List.cons.injEq] at hsplit
          obtain ⟨-, hps⟩ := hsplit
          exact ⟨bs, after, hps, fun q hq => hb q (List.mem_cons_of_mem _ hq), hhit, rest⟩

/-- Claim C13.  The platform query over any platform list returns `none` exactly when
no platform has its closest point at squared distance less than `radius^2` from the
query point; it returns a collision exactly when that collision names the earliest
such platform of the list (every platform before it is no hit), with that platform's
closest point and the offset query point minus closest point.  The earliest hit need
not be the nearest: at `(419, 405)` with radius 18 the level query returns the first
platform although the second one is nearer. -/
theorem C13_first_match (ps : List (Rect K)) (x y r : K) :
    (collisionIn ps x y r = none ↔ ∀ p ∈ ps, ¬ sqDist x y p < r * r) ∧
    (∀ c : Collision K, collisionIn ps x y r = some c ↔
      ∃ before after, ps = before ++ c.platform :: after ∧
        (∀ q ∈ before, ¬ sqDist x y q < r * r) ∧ sqDist x y c.platform < r * r ∧
        c.closest = projectToPlatform x y c.platform ∧
        c.dx = x - c.closest.x ∧ c.dy = y - c.closest.y) ∧
    (collisionWithPlatforms (419 : K) 405 18 =
        some { platform := { x := 0, y := 420, w := 420, h := 140 }
               closest := { x := 419, y := 420 }, dx := 0, dy := -15 } ∧
      ({ x := 420, y := 380, w := 180, h := 180 } : Rect K) ∈ (LEVEL : Level K).platforms ∧
      sqDist (419 : K) 405 { x := 420, y := 380, w := 180, h := 180 } <
        sqDist (419 : K) 405 { x := 0, y := 420, w := 420, h := 140 }) := by
  refine ⟨collisionIn_none_iff ps x y r, fun c => collisionIn_some_iff ps x y r c, ?_, ?_, ?_⟩
  · norm_num [collisionWithPlatforms, collisionIn, projectToPlatform, clamp, LEVEL, max_def,
      min_def]
  · simp [LEVEL]
  · norm_num [sqDist, projectToPlatform, clamp, max_def, min_def]

theorem clamp_le_abs (a b x q : K) (hab : a ≤ b) (hq : a ≤ q ∧ q ≤ b) :
    (x - clamp x a b) * (x - clamp x a b) ≤ (x - q) * (x - q) := by
  unfold clamp
  rcases le_total x a with h1 | h1
  · rw [min_eq_right (le_trans h1 hab), max_eq_left h1]
    nlinarith [hq.1]
  · rcases le_total x b with h2 | h2
    · rw [min_eq_right h2, max_eq_right h1]
      nlinarith [mul_self_nonneg (x - q)]
    · rw [min_eq_left h2, max_eq_right hab]
      nlinarith [hq.2]

/-- Claim C14.  For a rectangle with `w ≥ 0` and `h ≥ 0`, `projectToPlatform` returns
`(clamp(x, rx, rx + w), clamp(y, ry, ry + h))`; that point lies in the closed
rectangle, is the query point itself when the query point lies in the closed
rectangle, and no point of the closed rectangle is closer to the query point
(stated with squared distances). -/
theorem C14_closest_point (p : Rect K) (hw : 0 ≤ p.w) (hh : 0 ≤ p.h) (x y : K) :
    projectToPlatform x y p =
      { x := clamp x p.x (p.x + p.w), y := clamp y p.y (p.y + p.h) } ∧
    ((p.x ≤ (projectToPlatform x y p).x ∧ (projectToPlatform x y p).x ≤ p.x + p.w) ∧
      (p.y ≤ (projectToPlatform x y p).y ∧ (projectToPlatform x y p).y ≤ p.y + p.h)) ∧
    (p.x ≤ x ∧ x ≤ p.x + p.w → p.y ≤ y ∧ y ≤ p.y + p.h →
      projectToPlatform x y p = { x := x, y := y }) ∧
    (∀ qx qy : K, p.x ≤ qx ∧ qx ≤ p.x + p.w → p.y ≤ qy ∧ qy ≤ p.y + p.h →
      sqDist x y p ≤ (x - qx) * (x - qx) + (y - qy) * (y - qy)) := by
  have hx : p.x ≤ p.x + p.w := by linarith
  have hy : p.y ≤ p.y + p.h := by linarith
  refine ⟨rfl, ⟨clamp_mem hx x, clamp_mem hy y⟩, ?_, ?_⟩
  · intro h1 h2
    show ({ x := clamp x p.x (p.x + p.w), y := clamp y p.y (p.y + p.h) } : Point K) = _
    rw [clamp_of_mem h1.1 h1.2, clamp_of_mem h2.1 h2.2]
  · intro qx qy h1 h2
    exact add_le_add (clamp_le_abs _ _ x qx hx h1) (clamp_le_abs _ _ y qy hy h2)

/-- C14 for the first platform and the spawn point: the closest point is
`(140, 420)`, at squared distance `160^2`, and the corner `(0, 420)` is not closer. -/
theorem C14_closest_point_witness :
    (0 : ℚ) ≤ ({ x := 0, y := 420, w := 420, h := 140 } : Rect ℚ).w ∧
      (0 : ℚ) ≤ ({ x := 0, y := 420, w := 420, h := 140 } : Rect ℚ).h ∧
      sqDist (140 : ℚ) 260 { x := 0, y := 420, w := 420, h := 140 } ≤
        (140 - 0) * (140 - 0) + (260 - 420) * (260 - 420) :=
  ⟨by norm_num, by norm_num,
    (C14_closest_point ({ x := 0, y := 420, w := 420, h := 140 } : Rect ℚ) (by norm_num)
      (by norm_num) 140 260).2.2.2 0 420 ⟨by norm_num, by norm_num⟩ ⟨by norm_num, by norm_num⟩⟩

/-- Claim C11.  For a detected torso collision whose offset is not the zero vector
(and `Math.hypot` returns its Euclidean length), with `n` the normalised offset: the
velocity `v'` after the response has `v' · n = 0`, `v' - v = -(v · n) n` is a multiple
of `n`, and the component along the tangent `(-n.y, n.x)` is unchanged. -/
theorem C11_inelastic_torso (m : MathOps K) (s : Sim K) (c : Collision K)
    (hc : collisionWithPlatforms s.hero.x s.hero.y 18 = some c) (hne : c.dx ≠ 0 ∨ c.dy ≠ 0)
    (hhyp : m.hypot c.dx c.dy * m.hypot c.dx c.dy = c.dx * c.dx + c.dy * c.dy) :
    (torso m s).hero.vx * (torsoNormal m c).x + (torso m s).hero.vy * (torsoNormal m c).y = 0 ∧
    ((torso m s).hero.vx - s.hero.vx = -(torsoImpact m c s.hero) * (torsoNormal m c).x ∧
      (torso m s).hero.vy - s.hero.vy = -(torsoImpact m c s.hero) * (torsoNormal m c).y) ∧
    (torso m s).hero.vx * -(torsoNormal m c).y + (torso m s).hero.vy * (torsoNormal m c).x =
      s.hero.vx * -(torsoNormal m c).y + s.hero.vy * (torsoNormal m c).x := by
  obtain ⟨-, -, tvx, tvy, -⟩ := torso_hit m s c hc
  have hu := torsoNormal_unit m c hne hhyp
  rw [tvx, tvy]
  refine ⟨?_, ⟨by ring, by ring⟩, by ring⟩
  unfold torsoImpact
  have e : (s.hero.vx - (s.hero.vx * (torsoNormal m c).x + s.hero.vy * (torsoNormal m c).y) *
        (torsoNormal m c).x) * (torsoNormal m c).x +
      (s.hero.vy - (s.hero.vx * (torsoNormal m c).x + s.hero.vy * (torsoNormal m c).y) *
        (torsoNormal m c).y) * (torsoNormal m c).y =
      (s.hero.vx * (torsoNormal m c).x + s.hero.vy * (torsoNormal m c).y) *
        (1 - ((torsoNormal m c).x ^ 2 + (torsoNormal m c).y ^ 2)) := by ring
  rw [e, hu, sub_self, mul_zero]

/-- C11 for a body ten pixels above the last platform falling in at `(30, 40)`: the
normal is `(0, -1)` and the velocity after the response is `(30, 0)`. -/
theorem C11_inelastic_torso_witness :
    collisionWithPlatforms (probe 2700 350 30 40 Status.alive).hero.x
        (probe 2700 350 30 40 Status.alive).hero.y 18 =
      some { platform := { x := 2440, y := 360, w := 360, h := 200 }
             closest := { x := 2700, y := 360 }, dx := 0, dy := -10 } ∧
    (torso ratOps (probe 2700 350 30 40 Status.alive)).hero.vx *
        (torsoNormal ratOps { platform := { x := 2440, y := 360, w := 360, h := 200 }
                              closest := { x := 2700, y := 360 }, dx := 0, dy := -10 }).x +
      (torso ratOps (probe 2700 350 30 40 Status.alive)).hero.vy *
        (torsoNormal ratOps { platform := { x := 2440, y := 360, w := 360, h := 200 }
                              closest := { x := 2700, y := 360 }, dx := 0, dy := -10 }).y = 0 :=
  ⟨collision_at_2700_350,
    (C11_inelastic_torso ratOps (probe 2700 350 30 40 Status.alive) _ collision_at_2700_350
      (Or.inr (by norm_num)) (by norm_num [ratOps])).1⟩

/-- Claim C12 (as amended).  When no platform of the level has its closest point at
squared distance less than `18^2` from the body centre (as for a body at distance 20
from its nearest platform), the torso collision resolution leaves the whole state
unchanged, position and velocity included, whatever the velocity. -/
theorem C12_idempotent_at_rest (m : MathOps K) (s : Sim K)
    (hfar : ∀ q ∈ (LEVEL : Level K).platforms, ¬ sqDist s.hero.x s.hero.y q < 18 * 18) :
    torso m s = s ∧ ((torso m s).hero.x = s.hero.x ∧ (torso m s).hero.y = s.hero.y) ∧
      ((torso m s).hero.vx = s.hero.vx ∧ (torso m s).hero.vy = s.hero.vy) := by
  have h : torso m s = s :=
    torso_of_none m s ((collisionIn_none_iff _ _ _ _).mpr hfar)
  rw [h]
  exact ⟨rfl, ⟨rfl, rfl⟩, ⟨rfl, rfl⟩⟩

/-- C12 for a body resting 20 above the ninth platform. -/
theorem C12_idempotent_at_rest_witness :
    sqDist (2000 : ℚ) 340 { x := 1820, y := 360, w := 300, h := 200 } = 20 * 20 ∧
      torso ratOps (probe 2000 340 5 0 Status.alive) = probe 2000 340 5 0 Status.alive :=
  ⟨by norm_num [sqDist, projectToPlatform, clamp, max_def, min_def],
    (C12_idempotent_at_rest ratOps (probe 2000 340 5 0 Status.alive)
      ((collisionIn_none_iff _ _ _ _).mp no_collision_rest_ninth)).1⟩

theorem collision_at_410_400 :
    collisionWithPlatforms (410 : ℚ) 400 18 =
      some { platform := { x := 420, y := 380, w := 180, h := 180 }
             closest := { x := 420, y := 400 }, dx := -10, dy := 0 } := by
  norm_num [collisionWithPlatforms, collisionIn, projectToPlatform, clamp, LEVEL, max_def, min_def]

/-- Claim C12 as stated fails next to a step of the course: a body at rest at
`(410, 400)` is at distance exactly 20 from the closest point `(410, 420)` of the
first platform and has zero velocity, but it is within 18 of the wall of the second
platform, and the resolution moves it to `(400, 400)`. -/
theorem C12_counterexample :
    ({ x := 0, y := 420, w := 420, h := 140 } : Rect ℚ) ∈ (LEVEL : Level ℚ).platforms ∧
    sqDist (410 : ℚ) 400 { x := 0, y := 420, w := 420, h := 140 } = 20 * 20 ∧
    ((probe 410 400 0 0 Status.alive).hero.vx = 0 ∧ (probe 410 400 0 0 Status.alive).hero.vy = 0) ∧
    (torso ratOps (probe 410 400 0 0 Status.alive)).hero.x = 400 ∧
    (torso ratOps (probe 410 400 0 0 Status.alive)).hero.x ≠
      (probe 410 400 0 0 Status.alive).hero.x := by
  have hc : collisionWithPlatforms (probe 410 400 0 0 Status.alive).hero.x
      (probe 410 400 0 0 Status.alive).hero.y 18 = _ := collision_at_410_400
  obtain ⟨tx, -⟩ := torso_hit ratOps _ _ hc
  have hx : (torso ratOps (probe 410 400 0 0 Status.alive)).hero.x = 400 := by
    rw [tx]
    norm_num [torsoNormal, orOne, ratOps]
  refine ⟨by simp [LEVEL], by norm_num [sqDist, projectToPlatform, clamp, max_def, min_def],
    ⟨rfl, rfl⟩, hx, ?_⟩
  rw [hx]
  show (400 : ℚ) ≠ 410
  norm_num

/-! ### The distance record -/

/-- The distance record at the torso collision query, in terms of the integrated
position. -/
theorem motion_distance (m : MathOps K) (dt : K) (s : Sim K) :
    (motion m dt s).1.hero.distance =
      max s.hero.distance ((motion m dt s).1.hero.x - (LEVEL : Level K).spawn.x) := by
  rw [motion_eq]
  dsimp only
  rw [(integrate_frame dt _).2.2.2.2.2.2.2.2.2.2, (integrate_frame dt _).2.2.2.2.2.2.2.2.1,
    (spring_frame m dt 0 _).2.2.1]
  show max (landing m true (steer m dt s.keysDown s.hero)).distance _ = _
  rw [(landing_frame m true _).2.2.2.1, (steer_frame m dt _ _).2.2.1]

/-- Claim C15.  In a tick without restart `hero.distance` does not decrease.  When
the physics pipeline runs (status not ragdoll) it becomes
`max(previous distance, x - spawn.x)` for the body `x` obtained by the position
integration of the tick (before the torso response); in the ragdoll status it is
unchanged. -/
theorem C15_distance_monotone (m : MathOps K) (dt : K) (s : Sim K)
    (hR : s.keysDown.KeyR = false) :
    s.hero.distance ≤ (update m dt s).hero.distance ∧
    (s.hero.state ≠ Status.ragdoll →
      (update m dt s).hero.distance =
        max s.hero.distance
          ((motion m dt (advanceClock dt s)).1.hero.x - (LEVEL : Level K).spawn.x)) ∧
    (s.hero.state = Status.ragdoll → (update m dt s).hero.distance = s.hero.distance) := by
  have hact : s.hero.state ≠ Status.ragdoll →
      (update m dt s).hero.distance =
        max s.hero.distance
          ((motion m dt (advanceClock dt s)).1.hero.x - (LEVEL : Level K).spawn.x) := by
    intro hs
    rw [update_active m dt s hR hs, (late_frame m _ _).2.2.2.2.1, motion_distance]
    rfl
  have hrag : s.hero.state = Status.ragdoll → (update m dt s).hero.distance = s.hero.distance := by
    intro hs
    rw [update_ragdoll m dt s hR hs]
    rfl
  refine ⟨?_, hact, hrag⟩
  by_cases hs : s.hero.state = Status.ragdoll
  · rw [hrag hs]
  · rw [hact hs]
    exact le_max_left _ _

/-- C15 for a body drifting right along the last platform: the record grows from
2560 to 2560.98. -/
theorem C15_distance_monotone_witness :
    (probe 2700 340 100 0 Status.alive).keysDown.KeyR = false ∧
    (probe 2700 340 100 0 Status.alive).hero.distance ≤
      (update ratOps (1 / 100) (probe 2700 340 100 0 Status.alive)).hero.distance ∧
    (update ratOps (1 / 100) (probe 2700 340 100 0 Status.alive)).hero.distance = 128049 / 50 :=
  ⟨rfl, (C15_distance_monotone ratOps (1 / 100) (probe 2700 340 100 0 Status.alive) rfl).1,
    (drift_eval Status.alive (by decide)).2.2⟩

/-! ### The ground test -/

/-- Claim C17.  For every platform list and every stick-tip position the
reduce-and-clamp of lines 246-251 yields 0, so `onGround` (line 253) is true in every
tick.  Consequently the airborne energy drain of lines 273-275 changes nothing, a
positive `vy` after the gravity step is reset to 0 by lines 254-257, and with the
charge key up the release branch of line 262 is entered exactly when the stored
compression is positive: otherwise the idle branch runs and leaves the hero as it is. -/
theorem C17_ground_value_constant (m : MathOps K) (dt : K) :
    (∀ (platforms : List (Rect K)) (pogo : Pogo K) (tipX tipY : K),
      clamp (groundScan platforms tipX tipY) (-pogo.maxCompression) 0 = 0) ∧
    (∀ (pogo : Pogo K) (tipX tipY : K),
      groundCompression pogo tipX tipY = 0 ∧
        decide (groundCompression pogo tipX tipY < 0.5) = true) ∧
    (∀ (pogo : Pogo K) (tipX tipY : K) (hero : Hero K),
      airDrain dt (decide (groundCompression pogo tipX tipY < 0.5)) hero = hero) ∧
    (∀ (pogo : Pogo K) (tipX tipY : K) (hero : Hero K), hero.vy > 0 →
      (landing m (decide (groundCompression pogo tipX tipY < 0.5)) hero).vy = 0) ∧
    (∀ (tipX tipY : K) (s : Sim K), s.keysDown.Space = false →
      ¬ s.pogo.springCompression > 0 →
      (spring m dt (groundCompression s.pogo tipX tipY) s).hero = s.hero ∧
      (spring m dt (groundCompression s.pogo tipX tipY) s).pogo.springCompression =
        clamp (s.pogo.springCompression - dt * 20) 0 s.pogo.maxCompression) ∧
    (∀ s : Sim K, (motion m dt s).1.hero.energy =
      (spring m dt 0 { s with hero := beforeSpring m dt s }).hero.energy) := by
  have h05 : decide ((0 : K) < 0.5) = true := by norm_num
  refine ⟨fun platforms pogo tipX tipY => ?_, fun pogo tipX tipY => ?_,
    fun pogo tipX tipY hero => ?_, fun pogo tipX tipY hero hvy => ?_,
    fun tipX tipY s hk hsc => ?_, fun s => (motion_spring m dt s).2.2⟩
  · rw [groundScan_eq_zero]
    exact clamp_of_mem (by simp [Pogo.maxCompression]) le_rfl
  · rw [groundCompression_eq_zero]
    exact ⟨rfl, h05⟩
  · rw [groundCompression_eq_zero, h05]
    rfl
  · rw [groundCompression_eq_zero, h05]
    unfold landing
    rw [if_pos ⟨rfl, hvy⟩]
  · rw [groundCompression_eq_zero]
    unfold spring
    dsimp only
    rw [if_neg (by simp [hk]), if_neg (by simp [hsc])]
    exact ⟨rfl, rfl⟩

/-! ### The velocity responses -/

/-- The torso response changes the velocity of every collision with a unit normal
unless the velocity is tangential: it has no test on the sign of `impact`, unlike the
response for ragdoll particles (`updatePart_of_some`). -/
theorem torso_velocity_kept_iff (m : MathOps K) (s : Sim K) (c : Collision K)
    (hc : collisionWithPlatforms s.hero.x s.hero.y 18 = some c) (hne : c.dx ≠ 0 ∨ c.dy ≠ 0)
    (hhyp : m.hypot c.dx c.dy * m.hypot c.dx c.dy = c.dx * c.dx + c.dy * c.dy) :
    ((torso m s).hero.vx = s.hero.vx ∧ (torso m s).hero.vy = s.hero.vy) ↔
      torsoImpact m c s.hero = 0 := by
  obtain ⟨-, -, tvx, tvy, -⟩ := torso_hit m s c hc
  have hu := torsoNormal_unit m c hne hhyp
  rw [tvx, tvy]
  constructor
  · rintro ⟨h1, h2⟩
    have e1 : torsoImpact m c s.hero * (torsoNormal m c).x = 0 := by linarith
    have e2 : torsoImpact m c s.hero * (torsoNormal m c).y = 0 := by linarith
    have : torsoImpact m c s.hero * ((torsoNormal m c).x ^ 2 + (torsoNormal m c).y ^ 2) = 0 := by
      have : torsoImpact m c s.hero * ((torsoNormal m c).x ^ 2 + (torsoNormal m c).y ^ 2) =
          torsoImpact m c s.hero * (torsoNormal m c).x * (torsoNormal m c).x +
          torsoImpact m c s.hero * (torsoNormal m c).y * (torsoNormal m c).y := by ring
      rw [this, e1, e2]
      ring
    rwa [hu, mul_one] at this
  · intro h
    rw [h]
    exact ⟨by ring, by ring⟩

/-- Claim C18 fails on the code: the torso response of lines 288-290 has no test on
the sign of `impact`.  A body ten pixels above the last platform and moving away from
it at 600 px/s (normal `(0, -1)`, `v · n = 600 ≥ 0`) leaves the response with
`vy = 0` instead of `-600`, and in the ragdoll status because `|impact| > 560`. -/
theorem C18_outward_velocity_cancelled :
    collisionWithPlatforms (probe 2700 350 0 (-600) Status.alive).hero.x
        (probe 2700 350 0 (-600) Status.alive).hero.y 18 = some hitAboveLast ∧
    ((torsoNormal ratOps hitAboveLast).x = 0 ∧ (torsoNormal ratOps hitAboveLast).y = -1) ∧
    torsoImpact ratOps hitAboveLast (probe 2700 350 0 (-600) Status.alive).hero = 600 ∧
    (probe 2700 350 0 (-600) Status.alive).hero.vy = -600 ∧
    (torso ratOps (probe 2700 350 0 (-600) Status.alive)).hero.vy = 0 ∧
    (torso ratOps (probe 2700 350 0 (-600) Status.alive)).hero.state = Status.ragdoll := by
  have hc : collisionWithPlatforms (probe 2700 350 0 (-600) Status.alive).hero.x
      (probe 2700 350 0 (-600) Status.alive).hero.y 18 = some hitAboveLast :=
    collision_at_2700_350
  obtain ⟨-, -, -, tvy, -⟩ := torso_hit ratOps _ _ hc
  have hnx : (torsoNormal ratOps hitAboveLast).x = 0 := by
    norm_num [torsoNormal, hitAboveLast]
  have hny : (torsoNormal ratOps hitAboveLast).y = -1 := by
    norm_num [torsoNormal, hitAboveLast, orOne, ratOps]
  have himp : torsoImpact ratOps hitAboveLast (probe 2700 350 0 (-600) Status.alive).hero
      = 600 := by
    unfold torsoImpact
    rw [hnx, hny]
    show (0 : ℚ) * 0 + -600 * -1 = 600
    norm_num
  refine ⟨hc, ⟨hnx, hny⟩, himp, rfl, ?_, ?_⟩
  · rw [tvy, himp, hny]
    show (-600 : ℚ) - 600 * -1 = 0
    norm_num
  · refine ((torso_state ratOps _).1 ⟨_, hc, Or.inr ?_⟩).1
    rw [himp]
    norm_num

/-- The loop body of `updateRagdoll` when the particle hits nothing. -/
theorem updatePart_of_none (m : MathOps K) (dt : K) (part : Part K)
    (hc : collisionWithPlatforms (partMotion dt part).x (partMotion dt part).y
      (partMotion dt part).radius = none) :
    updatePart m dt part = partMotion dt part := by
  unfold partMotion at hc
  dsimp only at hc
  unfold updatePart
  dsimp only
  rw [hc]
  rfl

/-- The loop body of `updateRagdoll` when the particle hits a platform. -/
theorem updatePart_of_some (m : MathOps K) (dt : K) (part : Part K) (c : Collision K)
    (hc : collisionWithPlatforms (partMotion dt part).x (partMotion dt part).y
      (partMotion dt part).radius = some c) :
    updatePart m dt part =
      (if (partMotion dt part).vx * (partNormal m c).x +
          (partMotion dt part).vy * (partNormal m c).y < 0 then
        { partMotion dt part with
          x := c.closest.x + (partNormal m c).x * ((partMotion dt part).radius + 1)
          y := c.closest.y + (partNormal m c).y * ((partMotion dt part).radius + 1)
          vx := (partMotion dt part).vx -
            (1 + 0.35) * ((partMotion dt part).vx * (partNormal m c).x +
              (partMotion dt part).vy * (partNormal m c).y) * (partNormal m c).x
          vy := (partMotion dt part).vy -
            (1 + 0.35) * ((partMotion dt part).vx * (partNormal m c).x +
              (partMotion dt part).vy * (partNormal m c).y) * (partNormal m c).y }
      else
        { partMotion dt part with
          x := c.closest.x + (partNormal m c).x * ((partMotion dt part).radius + 1)
          y := c.closest.y + (partNormal m c).y * ((partMotion dt part).radius + 1) }) := by
  unfold partMotion at hc
  dsimp only at hc
  unfold updatePart
  dsimp only
  rw [hc]
  rfl

/-- The normal of lines 195-199 has length one when the offset is not the zero vector
and `Math.hypot` returns its Euclidean length. -/
theorem partNormal_unit (m : MathOps K) (c : Collision K) (hne : c.dx ≠ 0 ∨ c.dy ≠ 0)
    (hhyp : m.hypot c.dx c.dy * m.hypot c.dx c.dy = c.dx * c.dx + c.dy * c.dy) :
    (partNormal m c).x ^ 2 + (partNormal m c).y ^ 2 = 1 :=
  torsoNormal_unit m c hne hhyp

/-- Claim C20.  Let the platform query for a ragdoll particle, made after gravity,
drag and position integration, report a collision whose offset is not the zero vector
(and let `Math.hypot` return its Euclidean length); let `n` be the normalised offset
and `v` the particle velocity after gravity and drag.  If `v · n < 0` then the
velocity `v'` after the response has `v' · n = -0.35 (v · n)` and
`v' - v = -1.35 (v · n) n`; if `v · n ≥ 0` then `v' = v`.  In both cases the particle
centre ends at distance `radius + 1` from the contact point (stated with squares),
and the radius is unchanged. -/
theorem C20_ragdoll_response (m : MathOps K) (dt : K) (part : Part K) (c : Collision K)
    (hc : collisionWithPlatforms (partMotion dt part).x (partMotion dt part).y
      (partMotion dt part).radius = some c)
    (hne : c.dx ≠ 0 ∨ c.dy ≠ 0)
    (hhyp : m.hypot c.dx c.dy * m.hypot c.dx c.dy = c.dx * c.dx + c.dy * c.dy) :
    ((partMotion dt part).vx * (partNormal m c).x + (partMotion dt part).vy * (partNormal m c).y
        < 0 →
      (updatePart m dt part).vx * (partNormal m c).x +
          (updatePart m dt part).vy * (partNormal m c).y =
        -0.35 * ((partMotion dt part).vx * (partNormal m c).x +
          (partMotion dt part).vy * (partNormal m c).y) ∧
      (updatePart m dt part).vx - (partMotion dt part).vx =
        -(1.35 * ((partMotion dt part).vx * (partNormal m c).x +
          (partMotion dt part).vy * (partNormal m c).y)) * (partNormal m c).x ∧
      (updatePart m dt part).vy - (partMotion dt part).vy =
        -(1.35 * ((partMotion dt part).vx * (partNormal m c).x +
          (partMotion dt part).vy * (partNormal m c).y)) * (partNormal m c).y) ∧
    (0 ≤ (partMotion dt part).vx * (partNormal m c).x +
        (partMotion dt part).vy * (partNormal m c).y →
      (updatePart m dt part).vx = (partMotion dt part).vx ∧
      (updatePart m dt part).vy = (partMotion dt part).vy) ∧
    ((updatePart m dt part).x - c.closest.x) ^ 2 + ((updatePart m dt part).y - c.closest.y) ^ 2 =
      (part.radius + 1) ^ 2 ∧
    (updatePart m dt part).radius = part.radius := by
  have hu := partNormal_unit m c hne hhyp
  have hr : (partMotion dt part).radius = part.radius := rfl
  have hpos : ∀ px py : K, (c.closest.x + (partNormal m c).x * px - c.closest.x) ^ 2 +
      (c.closest.y + (partNormal m c).y * py - c.closest.y) ^ 2 =
      (partNormal m c).x ^ 2 * px ^ 2 + (partNormal m c).y ^ 2 * py ^ 2 := by
    intro px py
    ring
  rw [updatePart_of_some m dt part c hc]
  by_cases hv : (partMotion dt part).vx * (partNormal m c).x +
      (partMotion dt part).vy * (partNormal m c).y < 0
  · rw [if_pos hv]
    dsimp only
    refine ⟨fun _ => ⟨?_, ?_, ?_⟩, fun h => absurd hv (not_lt.mpr h), ?_, hr⟩
    · have e : ((partMotion dt part).vx - (1 + 0.35) * ((partMotion dt part).vx * (partNormal m c).x +
            (partMotion dt part).vy * (partNormal m c).y) * (partNormal m c).x) * (partNormal m c).x +
          ((partMotion dt part).vy - (1 + 0.35) * ((partMotion dt part).vx * (partNormal m c).x +
            (partMotion dt part).vy * (partNormal m c).y) * (partNormal m c).y) * (partNormal m c).y =
          ((partMotion dt part).vx * (partNormal m c).x +
            (partMotion dt part).vy * (partNormal m c).y) *
            (1 - (1 + 0.35) * ((partNormal m c).x ^ 2 + (partNormal m c).y ^ 2)) := by ring
      rw [e, hu]
      ring
    · ring
    · ring
    · rw [hpos, hr, ← add_mul, hu, one_mul]
  · rw [if_neg hv]
    dsimp only
    refine ⟨fun h => absurd h hv, fun _ => ⟨rfl, rfl⟩, ?_, hr⟩
    rw [hpos, hr, ← add_mul, hu, one_mul]

theorem collision_at_2700_350_r14 :
    collisionWithPlatforms (2700 : ℚ) 350 14 = some hitAboveLast := by
  norm_num [collisionWithPlatforms, collisionIn, projectToPlatform, clamp, LEVEL, max_def, min_def,
    hitAboveLast]

/-- C20 for a particle of radius 14 which reaches `(2700, 350)` falling at 998 px/s:
it bounces back at `0.35 * 998` and is placed 15 above the contact point. -/
theorem C20_ragdoll_response_witness :
    collisionWithPlatforms (partMotion (1 / 100) fallingPart).x (partMotion (1 / 100) fallingPart).y
      (partMotion (1 / 100) fallingPart).radius = some hitAboveLast ∧
    (partMotion (1 / 100) fallingPart).vx * (partNormal ratOps hitAboveLast).x +
      (partMotion (1 / 100) fallingPart).vy * (partNormal ratOps hitAboveLast).y < 0 ∧
    (updatePart ratOps (1 / 100) fallingPart).vx * (partNormal ratOps hitAboveLast).x +
        (updatePart ratOps (1 / 100) fallingPart).vy * (partNormal ratOps hitAboveLast).y =
      -0.35 * ((partMotion (1 / 100) fallingPart).vx * (partNormal ratOps hitAboveLast).x +
        (partMotion (1 / 100) fallingPart).vy * (partNormal ratOps hitAboveLast).y) ∧
    ((updatePart ratOps (1 / 100) fallingPart).x - hitAboveLast.closest.x) ^ 2 +
        ((updatePart ratOps (1 / 100) fallingPart).y - hitAboveLast.closest.y) ^ 2 =
      (fallingPart.radius + 1) ^ 2 := by
  have ex : (partMotion (1 / 100) fallingPart).x = 2700 := by
    norm_num [partMotion, fallingPart]
  have ey : (partMotion (1 / 100) fallingPart).y = 350 := by
    norm_num [partMotion, fallingPart, GRAVITY]
  have hc : collisionWithPlatforms (partMotion (1 / 100) fallingPart).x
      (partMotion (1 / 100) fallingPart).y (partMotion (1 / 100) fallingPart).radius =
      some hitAboveLast := by
    rw [ex, ey]
    exact collision_at_2700_350_r14
  have hv : (partMotion (1 / 100) fallingPart).vx * (partNormal ratOps hitAboveLast).x +
      (partMotion (1 / 100) fallingPart).vy * (partNormal ratOps hitAboveLast).y < 0 := by
    norm_num [partMotion, fallingPart, GRAVITY, partNormal, hitAboveLast, orOne, ratOps]
  have h := C20_ragdoll_response ratOps (1 / 100) fallingPart hitAboveLast hc
    (Or.inr (by norm_num [hitAboveLast])) (by norm_num [hitAboveLast, ratOps])
  exact ⟨hc, hv, (h.1 hv).1, h.2.2.1⟩

/-! ### Vertical motion -/

/-- The height at the torso collision query: the height before the tick plus `vy * dt`
for the velocity left by the spring branches. -/
theorem motion_y (m : MathOps K) (dt : K) (s : Sim K) :
    (motion m dt s).1.hero.y = s.hero.y + (motion m dt s).1.hero.vy * dt := by
  rw [motion_eq]
  dsimp only
  rw [(integrate_frame dt _).2.2.2.2.2.2.2.2.2.1, (integrate_frame dt _).2.2.2.2.2.1,
    (spring_frame m dt 0 _).2.2.2.2.2.1]
  show (landing m true (steer m dt s.keysDown s.hero)).y + _ = _
  rw [(landing_frame m true _).2.2.2.2.2.2.1, (steer_frame m dt _ _).2.2.2.2.2.1]

/-- The idle branch, lines 269-271: the charge key is up and nothing is stored. -/
theorem spring_idle (m : MathOps K) (dt : K) (s : Sim K) (hk : s.keysDown.Space = false)
    (hsc : ¬ s.pogo.springCompression > 0) :
    (spring m dt 0 s).hero = s.hero ∧
    (spring m dt 0 s).pogo.springCompression =
      clamp (s.pogo.springCompression - dt * 20) 0 s.pogo.maxCompression := by
  unfold spring
  dsimp only
  rw [if_neg (by simp [hk]), if_neg (by simp [hsc])]
  exact ⟨rfl, rfl⟩

/-- The hero on entry to the spring branches when no key is down and the stick has its
spawn tilt and does not turn. -/
theorem beforeSpring_spawn_tilt (m : MathOps K) (dt : K) (s : Sim K) (hdt : 0 < dt)
    (hpi : 0.15 ≤ MAX_ANGLE m) (hk : s.keysDown = idleKeys) (ha : s.hero.angle = -0.15)
    (hav : s.hero.angularVelocity = 0) (hvy : s.hero.vy = 0) :
    (beforeSpring m dt s).vy = 0 ∧ (beforeSpring m dt s).angle = -0.15 ∧
    (beforeSpring m dt s).energy = s.hero.energy := by
  have hg : s.hero.vy + GRAVITY * dt > 0 := by
    rw [hvy, zero_add]
    exact mul_pos (by norm_num [GRAVITY]) hdt
  unfold beforeSpring
  rw [hk, hover_steer m dt s.hero hpi ha hav]
  unfold landing
  rw [if_pos ⟨rfl, hg⟩]
  exact ⟨rfl, ha, rfl⟩

/-- One frame with no key down from a state with the spawn pose (height 260, at rest
vertically, spawn tilt, not turning): the stored compression decides whether the body
gets an upward velocity. -/
theorem idle_tick_from_spawn_pose (m : MathOps K) (dt : K) (s : Sim K) (hdt : 0 < dt)
    (hcos : 0 < m.cos (-0.15)) (hpi : 0.15 ≤ MAX_ANGLE m) (hk : s.keysDown = idleKeys)
    (hs : s.hero.state ≠ Status.ragdoll) (hy : s.hero.y = 260) (hvy : s.hero.vy = 0)
    (ha : s.hero.angle = -0.15) (hav : s.hero.angularVelocity = 0) (he : 0 < s.hero.energy) :
    (0 < s.pogo.springCompression → (update m dt s).hero.vy < 0) ∧
    (s.pogo.springCompression = 0 → (update m dt s).hero.vy = 0) := by
  have hR : s.keysDown.KeyR = false := by rw [hk]; rfl
  have hSp : (advanceClock dt s).keysDown.Space = false := by
    show s.keysDown.Space = false
    rw [hk]; rfl
  obtain ⟨bvy, bang, ben⟩ := beforeSpring_spawn_tilt m dt (advanceClock dt s) hdt hpi hk ha hav hvy
  obtain ⟨-, mvy, -⟩ := motion_spring m dt (advanceClock dt s)
  have my := motion_y m dt (advanceClock dt s)
  -- the velocity at the torso collision query decides
  have key : (motion m dt (advanceClock dt s)).1.hero.vy ≤ 0 →
      (update m dt s).hero.vy = (motion m dt (advanceClock dt s)).1.hero.vy := by
    intro hle
    have hnc : collisionWithPlatforms (motion m dt (advanceClock dt s)).1.hero.x
        (motion m dt (advanceClock dt s)).1.hero.y 18 = none := by
      apply no_collision_high
      rw [my]
      show s.hero.y + _ ≤ 302
      rw [hy]
      nlinarith
    rw [update_active m dt s hR hs, (checks_kinematics m _ _).2.2.2, torso_of_none m _ hnc]
  constructor
  · intro hsc
    obtain ⟨-, -, r3⟩ := spring_release m dt
      { advanceClock dt s with hero := beforeSpring m dt (advanceClock dt s) } hSp hsc
    have hF : 0 < releaseForce dt s.pogo s.hero.energy / s.pogo.mass := by
      unfold releaseForce
      simp only [Pogo.springStrength, Pogo.mass, abs_zero, add_zero]
      have h06 : (0 : K) < 0.6 := by norm_num
      positivity
    have hneg : (motion m dt (advanceClock dt s)).1.hero.vy < 0 := by
      rw [mvy, r3]
      show (beforeSpring m dt (advanceClock dt s)).vy -
        m.cos (beforeSpring m dt (advanceClock dt s)).angle *
          (releaseForce dt s.pogo (beforeSpring m dt (advanceClock dt s)).energy / s.pogo.mass) < 0
      rw [bvy, bang, ben]
      show 0 - m.cos (-0.15) * (releaseForce dt s.pogo s.hero.energy / s.pogo.mass) < 0
      have := mul_pos hcos hF
      linarith
    rw [key hneg.le]
    exact hneg
  · intro hsc
    obtain ⟨i1, -⟩ := spring_idle m dt
      { advanceClock dt s with hero := beforeSpring m dt (advanceClock dt s) } hSp
      (by show ¬ s.pogo.springCompression > 0; rw [hsc]; exact lt_irrefl 0)
    have hz : (motion m dt (advanceClock dt s)).1.hero.vy = 0 := by
      rw [mvy, i1]
      exact bvy
    rw [key hz.le]
    exact hz

/-- Claim C19.  A call of `update` with the restart flag set leaves
`pogo.springCompression` as it was, so the pogo stick after a restart is the initial
one exactly when the stored compression was 0 (the hero always is the initial one).
From every state with positive stored compression, a restart followed by one frame
with no key down and `dt > 0` gives `vy < 0`, whereas the same frame from the initial
state gives `vy = 0`.  The hypotheses say that `Math.cos(-0.15) > 0` and that the
spawn tilt is within `MAX_ANGLE`. -/
theorem C19_restart_keeps_compression (m : MathOps K) (hcos : 0 < m.cos (-0.15))
    (hpi : 0.15 ≤ MAX_ANGLE m) :
    (∀ (dt : K) (s : Sim K), s.keysDown.KeyR = true →
      (update m dt s).pogo.springCompression = s.pogo.springCompression ∧
      (update m dt s).hero = (initial : Sim K).hero ∧
      ((update m dt s).pogo = (initial : Sim K).pogo ↔ s.pogo.springCompression = 0)) ∧
    (∀ (dt₀ dt : K) (s : Sim K), s.keysDown.KeyR = true → 0 < s.pogo.springCompression →
      0 < dt → (tick m (update m dt₀ s) (idleKeys, dt)).hero.vy < 0) ∧
    (∀ dt : K, 0 < dt → (tick m (initial : Sim K) (idleKeys, dt)).hero.vy = 0) := by
  refine ⟨fun dt s hR => ?_, fun dt₀ dt s hR hsc hdt => ?_, fun dt hdt => ?_⟩
  · rw [update_restart m dt s hR]
    refine ⟨rfl, rfl, ?_⟩
    show s.pogo = ({ springCompression := 0 } : Pogo K) ↔ s.pogo.springCompression = 0
    constructor
    · intro h
      rw [h]
    · intro h
      cases hp : s.pogo with
      | mk sc =>
        rw [hp] at h
        exact congrArg Pogo.mk h
  · rw [update_restart m dt₀ s hR]
    exact (idle_tick_from_spawn_pose m dt
      { resetHero { s with keysDown := { s.keysDown with KeyR := false } } with
        keysDown := idleKeys }
      hdt hcos hpi rfl (by show Status.alive ≠ Status.ragdoll; decide) rfl rfl rfl rfl
      (by show (0 : K) < 1; exact one_pos)).1 hsc
  · exact (idle_tick_from_spawn_pose m dt { (initial : Sim K) with keysDown := idleKeys }
      hdt hcos hpi rfl (by show Status.alive ≠ Status.ragdoll; decide) rfl rfl rfl rfl
      (by show (0 : K) < 1; exact one_pos)).2 rfl

/-- C19 with the rational `Math` stand-ins: from a finished run with compression 5, a
restart followed by one idle frame at 60 Hz gives `vy < 0`. -/
theorem C19_restart_keeps_compression_witness :
    (0 : ℚ) < ratOps.cos (-0.15) ∧ (0.15 : ℚ) ≤ MAX_ANGLE ratOps ∧
    finishedRestartState.keysDown.KeyR = true ∧
    (update ratOps (1 / 60) finishedRestartState).pogo.springCompression = 5 ∧
    (tick ratOps (update ratOps (1 / 60) finishedRestartState) (idleKeys, 1 / 60)).hero.vy < 0 ∧
    (tick ratOps (initial : Sim ℚ) (idleKeys, 1 / 60)).hero.vy = 0 := by
  have hcos : (0 : ℚ) < ratOps.cos (-0.15) := by norm_num [ratOps]
  have hpi : (0.15 : ℚ) ≤ MAX_ANGLE ratOps := by norm_num [MAX_ANGLE, ratOps]
  have h := C19_restart_keeps_compression ratOps hcos hpi
  refine ⟨hcos, hpi, rfl, ?_, ?_, h.2.2 (1 / 60) (by norm_num)⟩
  · rw [(h.1 (1 / 60) finishedRestartState rfl).1]
    rfl
  · exact h.2.1 (1 / 60) (1 / 60) finishedRestartState rfl
      (by show (0 : ℚ) < 5; norm_num) (by norm_num)

/-! ### The course from spawn -/

/-- No branch of lines 259-271 raises `vy` when `cos(angle) ≥ 0`. -/
theorem spring_vy_le (m : MathOps K) (dt : K) (s : Sim K) (hdt : 0 ≤ dt)
    (hcos : 0 ≤ m.cos s.hero.angle) (hsc : 0 ≤ s.pogo.springCompression)
    (he : 0 ≤ s.hero.energy) : (spring m dt 0 s).hero.vy ≤ s.hero.vy := by
  unfold spring
  dsimp only
  split_ifs
  · exact le_rfl
  · have hF : 0 ≤ (s.pogo.springCompression + |0|) * s.pogo.springStrength * dt * 0.6 *
        s.hero.energy / s.pogo.mass := by
      simp only [Pogo.springStrength, Pogo.mass, abs_zero, add_zero]
      have h06 : (0 : K) ≤ 0.6 := by norm_num
      positivity
    show s.hero.vy - m.cos s.hero.angle * _ ≤ s.hero.vy
    have := mul_nonneg hcos hF
    linarith
  · exact le_rfl

/-- The body never has a downward velocity when its position is integrated. -/
theorem motion_vy_nonpos (m : MathOps K) (dt : K) (s : Sim K) (hdt : 0 ≤ dt)
    (hcos : ∀ a, -MAX_ANGLE m ≤ a → a ≤ MAX_ANGLE m → 0 ≤ m.cos a) (hb : Bounds m s) :
    (motion m dt s).1.hero.vy ≤ 0 := by
  obtain ⟨be, bvy, bang⟩ := beforeSpring_frame m dt s (le_trans hb.2.2.1 hb.2.2.2)
  rw [(motion_spring m dt s).2.1]
  refine le_trans (spring_vy_le m dt { s with hero := beforeSpring m dt s } hdt
    (hcos _ bang.1 bang.2) hb.2.1.1 ?_) bvy
  show 0 ≤ (beforeSpring m dt s).energy
  rw [be]
  exact hb.1.1

/-- From a state with the body at height at most 260 the torso collision query of the
next tick is made at height at most 260 and reports nothing. -/
theorem aloft_query (m : MathOps K) (dt : K) (s : Sim K) (hdt : 0 ≤ dt)
    (hcos : ∀ a, -MAX_ANGLE m ≤ a → a ≤ MAX_ANGLE m → 0 ≤ m.cos a) (hb : Bounds m s)
    (hy : s.hero.y ≤ 260) :
    (motion m dt (advanceClock dt s)).1.hero.y ≤ 260 ∧
    collisionWithPlatforms (motion m dt (advanceClock dt s)).1.hero.x
      (motion m dt (advanceClock dt s)).1.hero.y 18 = none := by
  have hv := motion_vy_nonpos m dt (advanceClock dt s) hdt hcos hb
  have hy' : (motion m dt (advanceClock dt s)).1.hero.y ≤ 260 := by
    rw [motion_y]
    show s.hero.y + _ ≤ 260
    nlinarith
  exact ⟨hy', no_collision_high _ _ (by linarith)⟩

theorem aloft_update (m : MathOps K) (dt : K) (s : Sim K) (hdt : 0 ≤ dt)
    (hpi : 0.15 ≤ MAX_ANGLE m)
    (hcos : ∀ a, -MAX_ANGLE m ≤ a → a ≤ MAX_ANGLE m → 0 ≤ m.cos a) (h : Aloft m s) :
    Aloft m (update m dt s) := by
  obtain ⟨hb, hy, hst, hstatus⟩ := h
  refine ⟨update_bounds m hpi dt s hb, ?_⟩
  cases hR : s.keysDown.KeyR with
  | true =>
    rw [update_restart m dt s hR]
    refine ⟨?_, ?_, ?_⟩
    · show (LEVEL : Level K).spawn.y ≤ 260
      simp [LEVEL]
    · show Status.alive ≠ Status.finished
      decide
    · show Status.alive ≠ Status.finished
      decide
  | false =>
    by_cases hs : s.hero.state = Status.ragdoll
    · rw [update_ragdoll m dt s hR hs]
      exact ⟨hy, hst, hstatus⟩
    · obtain ⟨qy, qc⟩ := aloft_query m dt s hdt hcos hb hy
      obtain ⟨-, py⟩ := active_position m dt s hR hs
      rw [torso_of_none m _ qc] at py
      have hfin : ¬ InFinish (update m dt s).hero.x (update m dt s).hero.y := by
        unfold InFinish
        simp only [LEVEL]
        rintro ⟨-, -, h3, -⟩
        rw [py] at h3
        linarith
      obtain ⟨-, a2, -⟩ := active_status m dt s hR hs
      obtain ⟨-, b2, b3⟩ := a2 hfin
      refine ⟨by rw [py]; exact qy, ?_, ?_⟩
      · by_cases hf : FailureFires m dt s
        · rw [(b2 hf).1]
          decide
        · rw [(b3 hf).1]
          exact hst
      · by_cases hf : FailureFires m dt s
        · rw [(b2 hf).2]
          decide
        · rw [(b3 hf).2]
          exact hstatus

theorem aloft_run (m : MathOps K) (hpi : 0.15 ≤ MAX_ANGLE m)
    (hcos : ∀ a, -MAX_ANGLE m ≤ a → a ≤ MAX_ANGLE m → 0 ≤ m.cos a)
    (inputs : List (Keys × K)) (hdt : ∀ i ∈ inputs, 0 ≤ i.2) (s : Sim K) (h : Aloft m s) :
    Aloft m (run m s inputs) := by
  induction inputs generalizing s with
  | nil => exact h
  | cons i is ih =>
    show Aloft m (run m (tick m s i) is)
    apply ih (fun j hj => hdt j (List.mem_cons_of_mem _ hj))
    exact aloft_update m i.2 { s with keysDown := i.1 } (hdt i (List.mem_cons_self _ _)) hpi hcos h

/-- Claim C16.  Apply any finite sequence of frames to the initial state, with any
key maps (restarts included) and every `dt` in `[0, 0.04]`.  The state reached has
`hero.y ≤ 260`, its status is not finished, and whatever the keys and the `dt ≥ 0`
of a further frame, the torso collision query of that frame is made at height at most
260 and reports no collision.  The hypotheses say that the spawn tilt is within
`MAX_ANGLE` and that `Math.cos` is not negative on `[-MAX_ANGLE, MAX_ANGLE]`. -/
theorem C16_course_not_completable (m : MathOps K) (hpi : 0.15 ≤ MAX_ANGLE m)
    (hcos : ∀ a, -MAX_ANGLE m ≤ a → a ≤ MAX_ANGLE m → 0 ≤ m.cos a)
    (inputs : List (Keys × K)) (hdt : ∀ i ∈ inputs, 0 ≤ i.2 ∧ i.2 ≤ 0.04) :
    (run m (initial : Sim K) inputs).hero.y ≤ 260 ∧
    ((run m (initial : Sim K) inputs).hero.state ≠ Status.finished ∧
      (run m (initial : Sim K) inputs).status ≠ Status.finished) ∧
    (∀ next : Keys × K, 0 ≤ next.2 →
      (motion m next.2 (advanceClock next.2
        { run m (initial : Sim K) inputs with keysDown := next.1 })).1.hero.y ≤ 260 ∧
      collisionWithPlatforms
        (motion m next.2 (advanceClock next.2
          { run m (initial : Sim K) inputs with keysDown := next.1 })).1.hero.x
        (motion m next.2 (advanceClock next.2
          { run m (initial : Sim K) inputs with keysDown := next.1 })).1.hero.y 18 = none) := by
  have h0 : Aloft m (initial : Sim K) := by
    refine ⟨spawn_bounds m hpi _ ⟨le_rfl, by norm_num [initial, Pogo.maxCompression]⟩ rfl rfl,
      ?_, ?_, ?_⟩
    · show (LEVEL : Level K).spawn.y ≤ 260
      simp [LEVEL]
    · show Status.alive ≠ Status.finished
      decide
    · show Status.alive ≠ Status.finished
      decide
  obtain ⟨hb, hy, hst, hstatus⟩ := aloft_run m hpi hcos inputs (fun i hi => (hdt i hi).1) _ h0
  exact ⟨hy, ⟨hst, hstatus⟩, fun next hn =>
    aloft_query m next.2 { run m (initial : Sim K) inputs with keysDown := next.1 } hn hcos hb hy⟩

/-- C16 for a charging frame, a release frame, a restart and a steering frame with
the rational `Math` stand-ins. -/
theorem C16_course_not_completable_witness :
    (0.15 : ℚ) ≤ MAX_ANGLE ratOps ∧
    (run ratOps (initial : Sim ℚ)
      [(spaceKeys, 1 / 25), (idleKeys, 1 / 25), (spaceRestartKeys, 1 / 60),
        ({ ArrowLeft := false, ArrowRight := true, Space := false, KeyR := false },
          1 / 60)]).hero.y ≤ 260 ∧
    (run ratOps (initial : Sim ℚ)
      [(spaceKeys, 1 / 25), (idleKeys, 1 / 25), (spaceRestartKeys, 1 / 60),
        ({ ArrowLeft := false, ArrowRight := true, Space := false, KeyR := false },
          1 / 60)]).hero.state ≠ Status.finished := by
  have hpi : (0.15 : ℚ) ≤ MAX_ANGLE ratOps := by norm_num [MAX_ANGLE, ratOps]
  have h := C16_course_not_completable ratOps hpi
    (fun a h1 h2 => (ratOps_cos_pos a h1 h2).le)
    [(spaceKeys, 1 / 25), (idleKeys, 1 / 25), (spaceRestartKeys, 1 / 60),
      ({ ArrowLeft := false, ArrowRight := true, Space := false, KeyR := false }, 1 / 60)]
    (by
      intro i hi
      simp only [List.mem_cons, List.mem_singleton, List.not_mem_nil, or_false] at hi
      rcases hi with rfl | rfl | rfl | rfl <;> norm_num)
  exact ⟨hpi, h.1, h.2.1.1⟩

end PogoHero
